import Mathlib

/-!
Replay of ZFS intent-log records (`module/zfs/zfs_replay.c`)

A shallow embedding of the record decoders and replay handlers of
`zfs_replay.c`, and theorems about them.

* A log record is a flat byte buffer (`Buf`).  A pointer into the record is a
  byte offset from the start of the record; `arg2` itself is offset `0`.
* Bytes outside the buffer read as `0`, stores outside the buffer are dropped,
  so every decoder is a total function.
* The object store is external to the file.  Every call the handlers make into
  it is appended to a trace, and its status is supplied by an oracle.
-/

namespace ZfsReplay

/-! ## Record memory -/

/-- A record buffer: the bytes of one log record, in memory order. -/
abbrev Buf := List Nat

/-- The byte at offset `i` (a `uint8_t`); `0` outside the buffer. -/
def rd8 (buf : Buf) (i : Nat) : Nat := buf.getD i 0 % 256

/-- A `uint32_t` in host (little-endian) order at offset `i`. -/
def rd32 (buf : Buf) (i : Nat) : Nat :=
  rd8 buf i + 256 * (rd8 buf (i + 1) + 256 * (rd8 buf (i + 2) + 256 * rd8 buf (i + 3)))

/-- A `uint64_t` in host (little-endian) order at offset `i`. -/
def rd64 (buf : Buf) (i : Nat) : Nat :=
  rd32 buf i + 4294967296 * rd32 buf (i + 4)

/-- C `strlen` at offset `p`: the number of bytes before the first NUL. -/
def strlen (buf : Buf) (p : Nat) : Nat :=
  ((buf.drop p).takeWhile (fun b => decide (b % 256 ≠ 0))).length

/-- The bytes of the NUL-terminated string at offset `p`, terminator excluded. -/
def cstr (buf : Buf) (p : Nat) : List Nat :=
  (buf.drop p).takeWhile (fun b => decide (b % 256 ≠ 0))

/-! ## Byte swapping

`byteswap_uint64_array` and `byteswap_uint32_array` live in `spa_misc.c`,
which is not among the sources of this development. -/

/-- The offset whose byte lands at offset `i` when every `w`-byte word of the
region `[off, off + size)` is reversed (`size / w` whole words are swapped). -/
def swapIdx (w off size i : Nat) : Nat :=
  if off ≤ i ∧ i < off + size / w * w then
    off + (i - off) / w * w + (w - 1 - (i - off) % w)
  else i

/-- Reverse every `w`-byte word of `[off, off + size)` in place. -/
def byteswap_array (w : Nat) (buf : Buf) (off size : Nat) : Buf :=
  (List.range buf.length).map (fun i => buf.getD (swapIdx w off size i) 0)

/-- Modelled from the spec: `byteswap_uint64_array(buf, size)` of `spa_misc.c`
(not in the sources), the byte-order conversion of `size >> 3` 64-bit words
starting at `off`. -/
def byteswap_uint64_array (buf : Buf) (off size : Nat) : Buf :=
  byteswap_array 8 buf off size

/-- Modelled from the spec: `byteswap_uint32_array(buf, size)` of `spa_misc.c`
(not in the sources), the byte-order conversion of `size >> 2` 32-bit words
starting at `off`. -/
def byteswap_uint32_array (buf : Buf) (off size : Nat) : Buf :=
  byteswap_array 4 buf off size

/-! ## Constants of the headers

The headers (`sys/zil.h`, `sys/vnode.h`, `sys/zfs_fuid.h`, `sys/errno.h`) are
not among the sources; the values below are the ones the code is compiled
against. -/

/-- Modelled from the spec: `ENOENT` of `sys/errno.h`, the not-found status. -/
def ENOENT : Nat := 2
/-- Modelled from the spec: `ENOTSUP` of `sys/errno.h`, the not-supported status. -/
def ENOTSUP : Nat := 95

/-- Modelled from the spec: the transaction-type codes of `sys/zil.h`. -/
def TX_CREATE : Int := 1
def TX_MKDIR : Int := 2
def TX_MKXATTR : Int := 3
def TX_SYMLINK : Int := 4
def TX_REMOVE : Int := 5
def TX_RMDIR : Int := 6
def TX_LINK : Int := 7
def TX_RENAME : Int := 8
def TX_WRITE : Int := 9
def TX_TRUNCATE : Int := 10
def TX_SETATTR : Int := 11
def TX_ACL_V0 : Int := 12
def TX_ACL : Int := 13
def TX_CREATE_ACL : Int := 14
def TX_CREATE_ATTR : Int := 15
def TX_CREATE_ACL_ATTR : Int := 16
def TX_MKDIR_ACL : Int := 17
def TX_MKDIR_ATTR : Int := 18
def TX_MKDIR_ACL_ATTR : Int := 19
/-- Modelled from the spec: `TX_MAX_TYPE` of `sys/zil.h`, the length of the
dispatch vector. -/
def TX_MAX_TYPE : Nat := 20
/-- Modelled from the spec: `TX_CI`, the case-insensitive flag bit (bit 63) of
`lrc_txtype`. -/
def TX_CI : Nat := 2 ^ 63
/-- Modelled from the spec: `FIGNORECASE` of `sys/file.h`. -/
def FIGNORECASE : Nat := 0x80000

/-- The C cast `(int)x` of a 64-bit value: the low 32 bits, read as signed. -/
def int_cast (x : Nat) : Int :=
  if x % 4294967296 < 2147483648 then (x % 4294967296 : Nat)
  else ((x % 4294967296 : Nat) : Int) - 4294967296

/-- Modelled from the spec: the `vattr` mask bits of `sys/vnode.h`. -/
def AT_TYPE : Nat := 0x1
def AT_MODE : Nat := 0x2
def AT_UID : Nat := 0x4
def AT_GID : Nat := 0x8
def AT_XVATTR : Nat := 0x10000
/-- Modelled from the spec: `MODEMASK` of `sys/mode.h`. -/
def MODEMASK : Nat := 0o7777
/-- Modelled from the spec: `S_IFMT` of `sys/stat.h`. -/
def S_IFMT : Nat := 0xF000

/-- Modelled from the spec: `IFTOVT(mode)` of `sys/mode.h`, the vnode type
(`VNON = 0, VREG = 1, VDIR = 2, VBLK = 3, VCHR = 4, VLNK = 5, VFIFO = 6,
VSOCK = 9`) of the file-type bits of a mode. -/
def IFTOVT (mode : Nat) : Nat :=
  [0, 6, 4, 0, 2, 0, 3, 0, 1, 0, 5, 0, 9, 0, 0, 0].getD ((mode &&& S_IFMT) >>> 12) 0

/-- Modelled from the spec: `FUID_INDEX(x)` of `sys/zfs_fuid.h`: the domain
index, the high 32 bits of a 64-bit identity. -/
def FUID_INDEX (x : Nat) : Nat := x >>> 32
/-- Modelled from the spec: `IS_EPHEMERAL(x)`, a macro of a header that is not
among the sources.  The spec words it: an identity is either Resolved (a host
id, used directly) or Ephemeral, and an Ephemeral identity carries an index
into the per-record domain table; so `x` is Ephemeral when its domain index is
not zero. -/
def IS_EPHEMERAL (x : Nat) : Bool := decide (FUID_INDEX x ≠ 0)

/-- Modelled from the spec: the bits of word 0 of the optional-attribute
bitmap (`sys/vnode.h`), which are also the bits of the attribute-flags word. -/
def XAT0_CREATETIME : Nat := 0x00000001
def XAT0_ARCHIVE : Nat := 0x00000002
def XAT0_SYSTEM : Nat := 0x00000004
def XAT0_READONLY : Nat := 0x00000008
def XAT0_HIDDEN : Nat := 0x00000010
def XAT0_NOUNLINK : Nat := 0x00000020
def XAT0_IMMUTABLE : Nat := 0x00000040
def XAT0_APPENDONLY : Nat := 0x00000080
def XAT0_NODUMP : Nat := 0x00000100
def XAT0_OPAQUE : Nat := 0x00000200
def XAT0_AV_QUARANTINED : Nat := 0x00000400
def XAT0_AV_MODIFIED : Nat := 0x00000800
def XAT0_AV_SCANSTAMP : Nat := 0x00001000
/-- Modelled from the spec: `XAT0_INDEX`, the bitmap word that holds every
attribute defined so far; `XAT_x = (XAT0_INDEX << 32) | XAT0_x`. -/
def XAT0_INDEX : Nat := 0
/-- Modelled from the spec: `XVA_MAPSIZE` of `sys/vnode.h`, the number of
bitmap words of an `xvattr_t`. -/
def XVA_MAPSIZE : Nat := 3
/-- Modelled from the spec: `XVA_MAGIC` of `sys/vnode.h`. -/
def XVA_MAGIC : Nat := 0x78766174
/-- Modelled from the spec: `AV_SCANSTAMP_SZ`, the size of the scan-stamp
blob. -/
def AV_SCANSTAMP_SZ : Nat := 32

/-- Modelled from the spec: `sizeof (lr_attr_t)`: `uint32_t lr_attr_masksize`
at offset 0 and the first bitmap word `uint32_t lr_attr_bitmap` at offset 4. -/
def sizeof_lr_attr_t : Nat := 8

/-- The arithmetic `m - 1` on a `uint32_t`. -/
def u32_pred (m : Nat) : Nat := (m + 4294967295) % 4294967296

/-- Modelled from the spec: `ZIL_XVAT_SIZE(mapsize)` of `sys/zil.h`:
`sizeof (lr_attr_t) + sizeof (uint32_t) * (mapsize - 1) + sizeof (uint64_t) * 7`. -/
def ZIL_XVAT_SIZE (mapsize : Nat) : Nat :=
  sizeof_lr_attr_t + 4 * u32_pred mapsize + 8 * 7

/-- Modelled from the spec: `ZIL_ACE_LENGTH(x)` of `sys/zil.h`: `x` rounded up
to a multiple of `sizeof (uint64_t)`. -/
def ZIL_ACE_LENGTH (x : Nat) : Nat := (x + 7) / 8 * 8

/-- Modelled from the spec: the sizes of the fixed record structures of
`sys/zil.h`.  `lr_t` is four 64-bit words (`lrc_txtype` first). -/
def sizeof_lr_t : Nat := 32
/-- The fixed part of a create record: `lr_t`, then `lr_doid, lr_foid, lr_mode, lr_uid,
lr_gid, lr_gen, lr_crtime[2], lr_rdev`. -/
def sizeof_lr_create_t : Nat := 104
/-- The fixed part of a create-with-ACL record: `lr_create_t`, then `lr_aclcnt, lr_domcnt,
lr_fuidcnt, lr_acl_bytes, lr_acl_flags`. -/
def sizeof_lr_acl_create_t : Nat := 144
/-- The fixed part of a remove record: `lr_t`, then `lr_doid`. -/
def sizeof_lr_remove_t : Nat := 40
/-- The fixed part of a link record: `lr_t`, then `lr_doid, lr_link_obj`. -/
def sizeof_lr_link_t : Nat := 48
/-- The fixed part of a rename record: `lr_t`, then `lr_sdoid, lr_tdoid`. -/
def sizeof_lr_rename_t : Nat := 48
/-- The fixed part of a write record: `lr_t`, then `lr_foid, lr_offset, lr_length,
lr_blkoff` and the 128-byte `lr_blkptr`. -/
def sizeof_lr_write_t : Nat := 192
/-- The fixed part of a truncate record: `lr_t`, then `lr_foid, lr_offset, lr_length`. -/
def sizeof_lr_truncate_t : Nat := 56
/-- The fixed part of a setattr record: `lr_t`, then `lr_foid, lr_mask, lr_mode, lr_uid,
lr_gid, lr_size, lr_atime[2], lr_mtime[2]`. -/
def sizeof_lr_setattr_t : Nat := 112
/-- The fixed part of a version-0 ACL record: `lr_t`, then `lr_foid, lr_aclcnt`. -/
def sizeof_lr_acl_v0_t : Nat := 48
/-- The fixed part of an ACL record: `lr_t`, then `lr_foid, lr_aclcnt, lr_domcnt,
lr_fuidcnt, lr_acl_bytes, lr_acl_flags`. -/
def sizeof_lr_acl_t : Nat := 80
/-- Modelled from the spec: `sizeof (ace_t)` of `sys/acl.h` (`uid_t a_who;
uint32_t a_access_mask; uint16_t a_flags; uint16_t a_type`). -/
def sizeof_ace_t : Nat := 12

/-! ## Attribute descriptors -/

/-- The fields of `vattr_t` the replay code sets (`bzero` clears the rest).
A `timestruc_t` is the pair `(tv_sec, tv_nsec)`. -/
structure vattr where
  va_mask : Nat
  va_type : Nat
  va_mode : Nat
  va_uid : Nat
  va_gid : Nat
  va_rdev : Nat
  va_nodeid : Nat
  va_size : Nat
  va_atime : Nat × Nat
  va_mtime : Nat × Nat
  va_ctime : Nat × Nat
  va_nblocks : Nat
  deriving DecidableEq, Repr

/-- The optional attributes `xoptattr_t`: the creation time, the eleven
`uint8_t` boolean attributes and the scan-stamp blob. -/
structure xoptattr where
  xoa_createtime : Nat × Nat
  xoa_archive : Nat
  xoa_system : Nat
  xoa_readonly : Nat
  xoa_hidden : Nat
  xoa_nounlink : Nat
  xoa_immutable : Nat
  xoa_appendonly : Nat
  xoa_nodump : Nat
  xoa_opaque : Nat
  xoa_av_quarantined : Nat
  xoa_av_modified : Nat
  xoa_av_scanstamp : List Nat
  deriving DecidableEq, Repr

/-- The extended attribute descriptor `xvattr_t`. -/
structure xvattr where
  xva_vattr : vattr
  xva_magic : Nat
  xva_mapsize : Nat
  xva_reqattrmap : List Nat
  xva_rtnattrmap : List Nat
  xva_xoptattrs : xoptattr
  deriving DecidableEq, Repr

/-- A cleared `vattr_t` (`bzero`). -/
def vattr_zero : vattr :=
  ⟨0, 0, 0, 0, 0, 0, 0, 0, (0, 0), (0, 0), (0, 0), 0⟩

/-- A cleared `xoptattr_t`. -/
def xoptattr_zero : xoptattr :=
  ⟨(0, 0), 0, 0, 0, 0, 0, 0, 0, 0, 0, 0, 0, List.replicate AV_SCANSTAMP_SZ 0⟩

/-- Modelled from the spec: `xva_init` of `vnode.c` (not in the sources): clear
the descriptor, then set the magic, the map size and `AT_XVATTR`. -/
def xva_init : xvattr :=
  { xva_vattr := { vattr_zero with va_mask := AT_XVATTR }
    xva_magic := XVA_MAGIC
    xva_mapsize := XVA_MAPSIZE
    xva_reqattrmap := List.replicate XVA_MAPSIZE 0
    xva_rtnattrmap := List.replicate XVA_MAPSIZE 0
    xva_xoptattrs := xoptattr_zero }

/-- Modelled from the spec: `xva_getxoptattr` of `vnode.c` (not in the sources):
the optional attributes when `AT_XVATTR` is set in the mask, else `NULL`. -/
def xva_getxoptattr (xvap : xvattr) : Option xoptattr :=
  if xvap.xva_vattr.va_mask &&& AT_XVATTR ≠ 0 then some xvap.xva_xoptattrs else none

/-- Modelled from the spec: `XVA_INDEX(attr)`, the bitmap word of an attribute. -/
def XVA_INDEX (attr : Nat) : Nat := (attr >>> 32) &&& 0xffffffff
/-- Modelled from the spec: `XVA_ATTRBIT(attr)`, the bit of an attribute in its word. -/
def XVA_ATTRBIT (attr : Nat) : Nat := attr &&& 0xffffffff

/-- Modelled from the spec: the attribute codes `XAT_x = (XAT0_INDEX << 32) | XAT0_x`. -/
def XAT_CREATETIME : Nat := (XAT0_INDEX <<< 32) ||| XAT0_CREATETIME
def XAT_ARCHIVE : Nat := (XAT0_INDEX <<< 32) ||| XAT0_ARCHIVE
def XAT_SYSTEM : Nat := (XAT0_INDEX <<< 32) ||| XAT0_SYSTEM
def XAT_READONLY : Nat := (XAT0_INDEX <<< 32) ||| XAT0_READONLY
def XAT_HIDDEN : Nat := (XAT0_INDEX <<< 32) ||| XAT0_HIDDEN
def XAT_NOUNLINK : Nat := (XAT0_INDEX <<< 32) ||| XAT0_NOUNLINK
def XAT_IMMUTABLE : Nat := (XAT0_INDEX <<< 32) ||| XAT0_IMMUTABLE
def XAT_APPENDONLY : Nat := (XAT0_INDEX <<< 32) ||| XAT0_APPENDONLY
def XAT_NODUMP : Nat := (XAT0_INDEX <<< 32) ||| XAT0_NODUMP
def XAT_OPAQUE : Nat := (XAT0_INDEX <<< 32) ||| XAT0_OPAQUE
def XAT_AV_QUARANTINED : Nat := (XAT0_INDEX <<< 32) ||| XAT0_AV_QUARANTINED
def XAT_AV_MODIFIED : Nat := (XAT0_INDEX <<< 32) ||| XAT0_AV_MODIFIED
def XAT_AV_SCANSTAMP : Nat := (XAT0_INDEX <<< 32) ||| XAT0_AV_SCANSTAMP

/-- Modelled from the spec: `XVA_ISSET_REQ(xvap, attr)` of `sys/vnode.h`: the
mask test (always true, it is an OR), the magic, the map size and the
attribute's bit in the requested-attribute map. -/
def XVA_ISSET_REQ (xvap : xvattr) (attr : Nat) : Bool :=
  decide ((xvap.xva_vattr.va_mask ||| AT_XVATTR) ≠ 0) &&
  decide (xvap.xva_magic = XVA_MAGIC) &&
  decide (xvap.xva_mapsize > XVA_INDEX attr) &&
  decide (xvap.xva_reqattrmap.getD (XVA_INDEX attr) 0 &&& XVA_ATTRBIT attr ≠ 0)

/-- The value `((*attrs & bit) != 0)` stored into a `uint8_t` attribute. -/
def attr_flag (attrs bit : Nat) : Nat := if attrs &&& bit ≠ 0 then 1 else 0

/-- `ZFS_TIME_DECODE(tp, stmp)`: `tv_sec = stmp[0]`, `tv_nsec = stmp[1]`. -/
def ZFS_TIME_DECODE (buf : Buf) (stmp : Nat) : Nat × Nat :=
  (rd64 buf stmp, rd64 buf (stmp + 8))

/-- `zfs_init_vattr` (lines 57-69).  `zfs_cmpldev` is a function of
`zfs_znode.c`, passed in. -/
def zfs_init_vattr (zfs_cmpldev : Nat → Nat) (mask mode uid gid rdev nodeid : Nat) : vattr :=
  { vattr_zero with
    va_mask := mask % 4294967296
    va_type := IFTOVT mode
    va_mode := mode &&& MODEMASK
    va_uid := if IS_EPHEMERAL uid then 4294967295 else uid % 4294967296
    va_gid := if IS_EPHEMERAL gid then 4294967295 else gid % 4294967296
    va_rdev := zfs_cmpldev rdev
    va_nodeid := nodeid }

/-- The loop of lines 97-99: bitmap word `i` of the block is stored into
`xva_reqattrmap[i]`, for `i` from `0` up to the declared word count.  The
array has `XVA_MAPSIZE` elements and does not grow: a store at an index
outside the array, which in C lands in the fields that follow it, is dropped
here, as every store outside its object is; the statements about the decoder
are made for word counts that fit the array. -/
def copy_bitmap (buf : Buf) (bitmap : Nat) : Nat → Nat → List Nat → List Nat
  | 0, _, map => map
  | n + 1, i, map =>
    copy_bitmap buf (bitmap + 4) n (i + 1) (map.set i (rd32 buf bitmap))

/-- The pointer `attrs` of `zfs_replay_xvattr` (line 101):
`(uint64_t *)(lrattr + lrattr->lr_attr_masksize - 1)`, pointer arithmetic in
units of `sizeof (lr_attr_t)`. -/
def xvattr_attrs (lrattr masksize : Nat) : Nat :=
  lrattr + sizeof_lr_attr_t * masksize - sizeof_lr_attr_t

/-- The pointer `crtime` of `zfs_replay_xvattr` (line 102): `attrs + 1`. -/
def xvattr_crtime (lrattr masksize : Nat) : Nat :=
  xvattr_attrs lrattr masksize + 8

/-- The pointer `scanstamp` of `zfs_replay_xvattr` (line 103): `crtime + 2`. -/
def xvattr_scanstamp (lrattr masksize : Nat) : Nat :=
  xvattr_crtime lrattr masksize + 2 * 8

/-- One statement `if (XVA_ISSET_REQ(xvap, attr)) xoap->field = value;` of
lines 105-131: `store` is the assignment. -/
def xvattr_store (xvap : xvattr) (attr : Nat) (store : xoptattr → xoptattr)
    (xoap : xoptattr) : xoptattr :=
  if XVA_ISSET_REQ xvap attr then store xoap else xoap

/-- Lines 97-131 of `zfs_replay_xvattr`: the bitmap is copied into the
requested-attribute map, then every attribute that `XVA_ISSET_REQ` finds there
is stored into `xoap` (the optional attributes of `xvap`). -/
def zfs_replay_xvattr_decode (buf : Buf) (lrattr : Nat) (xvap : xvattr) (xoap : xoptattr) :
    xvattr :=
  let masksize := rd32 buf lrattr
  let xvap := { xvap with
    xva_reqattrmap := copy_bitmap buf (lrattr + 4) masksize 0 xvap.xva_reqattrmap }
  let attrs := xvattr_attrs lrattr masksize
  let crtime := xvattr_crtime lrattr masksize
  let scanstamp := xvattr_scanstamp lrattr masksize
  let a := rd64 buf attrs
  let xoap := xvattr_store xvap XAT_HIDDEN
    (fun x => { x with xoa_hidden := attr_flag a XAT0_HIDDEN }) xoap
  let xoap := xvattr_store xvap XAT_SYSTEM
    (fun x => { x with xoa_system := attr_flag a XAT0_SYSTEM }) xoap
  let xoap := xvattr_store xvap XAT_ARCHIVE
    (fun x => { x with xoa_archive := attr_flag a XAT0_ARCHIVE }) xoap
  let xoap := xvattr_store xvap XAT_READONLY
    (fun x => { x with xoa_readonly := attr_flag a XAT0_READONLY }) xoap
  let xoap := xvattr_store xvap XAT_IMMUTABLE
    (fun x => { x with xoa_immutable := attr_flag a XAT0_IMMUTABLE }) xoap
  let xoap := xvattr_store xvap XAT_NOUNLINK
    (fun x => { x with xoa_nounlink := attr_flag a XAT0_NOUNLINK }) xoap
  let xoap := xvattr_store xvap XAT_APPENDONLY
    (fun x => { x with xoa_appendonly := attr_flag a XAT0_APPENDONLY }) xoap
  let xoap := xvattr_store xvap XAT_NODUMP
    (fun x => { x with xoa_nodump := attr_flag a XAT0_NODUMP }) xoap
  let xoap := xvattr_store xvap XAT_OPAQUE
    (fun x => { x with xoa_opaque := attr_flag a XAT0_OPAQUE }) xoap
  let xoap := xvattr_store xvap XAT_AV_MODIFIED
    (fun x => { x with xoa_av_modified := attr_flag a XAT0_AV_MODIFIED }) xoap
  let xoap := xvattr_store xvap XAT_AV_QUARANTINED
    (fun x => { x with xoa_av_quarantined := attr_flag a XAT0_AV_QUARANTINED }) xoap
  let xoap := xvattr_store xvap XAT_CREATETIME
    (fun x => { x with xoa_createtime := ZFS_TIME_DECODE buf crtime }) xoap
  let xoap := xvattr_store xvap XAT_AV_SCANSTAMP
    (fun x => { x with
      xoa_av_scanstamp :=
        (List.range AV_SCANSTAMP_SZ).map (fun i => rd8 buf (scanstamp + i)) }) xoap
  { xvap with xva_xoptattrs := xoap }

/-- `zfs_replay_xvattr` (lines 79-132).  `lrattr` is the offset of the
attribute block.  With `debug` the `ASSERT` of line 95 is compiled in and a
failing assertion ends the call (`none`). -/
def zfs_replay_xvattr (debug : Bool) (buf : Buf) (lrattr : Nat) (xvap : xvattr) :
    Option xvattr :=
  let xvap := { xvap with
    xva_vattr := { xvap.xva_vattr with va_mask := xvap.xva_vattr.va_mask ||| AT_XVATTR } }
  match xva_getxoptattr xvap with
  | none =>
    some { xvap with xva_vattr := { xvap.xva_vattr with
      va_mask := xvap.xva_vattr.va_mask &&& (4294967295 ^^^ AT_XVATTR) } }
  | some xoap =>
    if debug && decide (rd32 buf lrattr ≠ xvap.xva_mapsize) then none else
    some (zfs_replay_xvattr_decode buf lrattr xvap xoap)

/-! ## Identity contexts -/

/-- A pending identity `zfs_fuid_t`: all three fields are `uint64_t`. -/
structure zfs_fuid where
  z_id : Nat
  z_domidx : Nat
  z_logfuid : Nat
  deriving DecidableEq, Repr

/-- The identity context `zfs_fuid_info_t`.  `z_domain_table` is `NULL`
(`none`) or an array of string pointers; a pointer is an offset into the
record, `none` being `NULL`. -/
structure zfs_fuid_info where
  z_fuids : List zfs_fuid
  z_fuid_owner : Nat
  z_fuid_group : Nat
  z_domain_table : Option (List (Option Nat))
  z_domain_cnt : Nat
  deriving DecidableEq, Repr

/-- Modelled from the spec: `zfs_fuid_info_alloc` of `zfs_fuid.c` (not in the
sources): a zeroed context with empty lists. -/
def zfs_fuid_info_alloc : zfs_fuid_info := ⟨[], 0, 0, none, 0⟩

/-- The value `-1` stored into the `uint64_t` field `z_id`. -/
def FUID_UNRESOLVED : Nat := 18446744073709551615

/-- `zfs_replay_domain_cnt` (lines 135-150). -/
def zfs_replay_domain_cnt (uid gid : Nat) : Nat :=
  let domcnt := 0
  let uid_idx := FUID_INDEX uid
  let gid_idx := FUID_INDEX gid
  let domcnt := if uid_idx ≠ 0 then domcnt + 1 else domcnt
  let domcnt := if gid_idx > 0 ∧ gid_idx ≠ uid_idx then domcnt + 1 else domcnt
  domcnt

/-- The loop of `zfs_replay_fuid_domain_common`: `n` iterations remain, `i` is
the loop counter. -/
def fuid_domain_loop (buf : Buf) :
    Nat → Nat → List (Option Nat) → Nat → List (Option Nat) × Nat
  | 0, _, table, start => (table, start)
  | n + 1, i, table, start =>
    fuid_domain_loop buf n (i + 1) (table.set i (some start)) (start + strlen buf start + 1)

/-- `zfs_replay_fuid_domain_common` (lines 152-164): the context with its
domain table filled, and the cursor after the last string.  `domcnt` is a C
`int`; the model covers the non-negative counts. -/
def zfs_replay_fuid_domain_common (buf : Buf) (fuid_infop : zfs_fuid_info) (start : Nat)
    (domcnt : Nat) : zfs_fuid_info × Nat :=
  let r := fuid_domain_loop buf domcnt 0 (fuid_infop.z_domain_table.getD []) start
  ({ fuid_infop with z_domain_table := fuid_infop.z_domain_table.map (fun _ => r.1) }, r.2)

/-- `zfs_replay_fuid_ugid` (lines 169-181). -/
def zfs_replay_fuid_ugid (fuid_infop : zfs_fuid_info) (uid gid : Nat) : zfs_fuid_info :=
  let fuid_infop :=
    if IS_EPHEMERAL uid then { fuid_infop with z_fuid_owner := uid } else fuid_infop
  let fuid_infop :=
    if IS_EPHEMERAL gid then { fuid_infop with z_fuid_group := gid } else fuid_infop
  fuid_infop

/-- `zfs_replay_fuid_domain` (lines 186-208).  `buf_p` is the cursor `buf`,
`end_v` the value `*end` holds on entry; the result is the context and the
value of `*end` on return. -/
def zfs_replay_fuid_domain (buf : Buf) (buf_p : Nat) (end_v : Option Nat) (uid gid : Nat) :
    zfs_fuid_info × Option Nat :=
  let fuid_infop := zfs_fuid_info_alloc
  let domcnt := zfs_replay_domain_cnt uid gid
  if domcnt = 0 then (fuid_infop, end_v) else
  let fuid_infop := { fuid_infop with z_domain_table := some (List.replicate domcnt none) }
  let fuid_infop := zfs_replay_fuid_ugid fuid_infop uid gid
  let fuid_infop := { fuid_infop with z_domain_cnt := domcnt }
  let r := zfs_replay_fuid_domain_common buf fuid_infop buf_p domcnt
  (r.1, some r.2)

/-- The loop of lines 228-237: `n` identities remain, `log_fuid` is the read
cursor. -/
def fuids_loop (buf : Buf) : Nat → Nat → List zfs_fuid → List zfs_fuid × Nat
  | 0, log_fuid, l => (l, log_fuid)
  | n + 1, log_fuid, l =>
    fuids_loop buf n (log_fuid + 8)
      (l ++ [{ z_logfuid := rd64 buf log_fuid, z_id := FUID_UNRESOLVED, z_domidx := 0 }])

/-- `zfs_replay_fuids` (lines 214-243): the context and the value of `*end` on
return.  `idcnt` and `domcnt` are C `int`s; the model covers the non-negative
counts. -/
def zfs_replay_fuids (buf : Buf) (start : Nat) (idcnt domcnt : Nat) (uid gid : Nat) :
    zfs_fuid_info × Nat :=
  let log_fuid := start
  let fuid_infop := zfs_fuid_info_alloc
  let fuid_infop := { fuid_infop with z_domain_cnt := domcnt }
  let fuid_infop := { fuid_infop with z_domain_table := some (List.replicate domcnt none) }
  let r := fuids_loop buf idcnt log_fuid fuid_infop.z_fuids
  let fuid_infop := { fuid_infop with z_fuids := r.1 }
  let log_fuid := r.2
  let fuid_infop := zfs_replay_fuid_ugid fuid_infop uid gid
  zfs_replay_fuid_domain_common buf fuid_infop log_fuid domcnt

/-! ## Byte-order conversion of the attribute block -/

/-- The start of the three 64-bit words `zfs_replay_swap_attrs` converts
(lines 255-256): `(caddr_t)(lrattr + 1) + sizeof (uint32_t) * (masksize - 1)`. -/
def swap_attrs_words (lrattr masksize : Nat) : Nat :=
  lrattr + sizeof_lr_attr_t + 4 * u32_pred masksize

/-- `zfs_replay_swap_attrs` (lines 246-257).  The word count
`lr_attr_masksize` is read between the first and the second conversion, from
the block as the first conversion left it. -/
def zfs_replay_swap_attrs (buf : Buf) (lrattr : Nat) : Buf :=
  let buf := byteswap_uint32_array buf lrattr sizeof_lr_attr_t
  let buf := byteswap_uint32_array buf (lrattr + sizeof_lr_attr_t)
    (u32_pred (rd32 buf lrattr) * 4)
  let buf := byteswap_uint64_array buf (swap_attrs_words lrattr (rd32 buf lrattr)) (3 * 8)
  buf

/-! ## The object store and the replay context -/

/-- The `vsecattr_t` handed to the access-control primitives.  `vsa_aclentp`
is an offset into the record. -/
structure vsecattr where
  vsa_mask : Nat
  /-- A C `int`, kept as its 32-bit pattern. -/
  vsa_aclcnt : Nat
  vsa_aclentp : Option Nat
  vsa_aclentsz : Nat
  vsa_aclflags : Nat
  deriving DecidableEq, Repr

/-- Modelled from the spec: the `vsecattr` mask bits of `sys/vnode.h`. -/
def VSA_ACE : Nat := 0x10
def VSA_ACECNT : Nat := 0x20
def VSA_ACE_ACLFLAGS : Nat := 0x80

/-- Modelled from the spec: `ZPL_VERSION_INITIAL` of `sys/fs/zfs.h`. -/
def ZPL_VERSION_INITIAL : Nat := 1

/-- One call out of `zfs_replay.c`.  A znode is named by the object id it was
looked up with; a string argument is its offset in the record (`none` is a
`NULL` pointer).  The attribute argument is the whole `xvattr_t` whose first
member `xva_vattr` the C code passes. -/
inductive Call where
  | zfs_zget (obj : Nat)
  | dmu_object_info (obj : Nat)
  | VN_RELE (obj : Nat)
  | VN_RELE_vp
  | VOP_CREATE (dzp : Nat) (name : Option Nat) (xva : xvattr) (vflg : Nat)
      (vsecp : Option vsecattr)
  | VOP_MKDIR (dzp : Nat) (name : Option Nat) (xva : xvattr) (vflg : Nat)
      (vsecp : Option vsecattr)
  | zfs_make_xattrdir (dzp : Nat) (xva : xvattr)
  | VOP_SYMLINK (dzp : Nat) (name : Option Nat) (xva : xvattr) (link : Option Nat)
      (vflg : Nat)
  | VOP_REMOVE (dzp : Nat) (name : Option Nat) (vflg : Nat)
  | VOP_RMDIR (dzp : Nat) (name : Option Nat) (vflg : Nat)
  | VOP_LINK (dzp : Nat) (zp : Nat) (name : Option Nat) (vflg : Nat)
  | VOP_RENAME (sdzp : Nat) (sname : Option Nat) (tdzp : Nat) (tname : Option Nat)
      (vflg : Nat)
  | vn_rdwr (zp : Nat) (data : Nat) (length : Nat) (offset : Nat)
  | VOP_WRITE (zp : Nat) (data : Nat) (length : Nat) (offset : Nat) (vflg : Nat)
  | VOP_SPACE (zp : Nat) (l_start : Nat) (l_len : Nat) (offset : Nat)
  | VOP_SETATTR (zp : Nat) (xva : xvattr)
  | VOP_SETSECATTR (zp : Nat) (vsa : vsecattr)
  | zfs_fuid_info_alloc
  | zfs_fuid_info_free (fuidp : zfs_fuid_info)
  deriving DecidableEq, Repr

/-- What the object store answers to a call: the status, whether it stored a
vnode through the `vpp` argument, and its own next state. -/
structure Reply (σ : Type) where
  status : Nat
  vp : Bool
  store : σ

/-- The collaborators of the replay code: the object store `ext` (it sees its
own state, the record, the identity-context slot and the call), and the helper
functions of other files. -/
structure Env (σ : Type) where
  ext : σ → Buf → Option zfs_fuid_info → Call → Reply σ
  zfs_cmpldev : Nat → Nat
  zfs_ace_byteswap : Buf → Nat → Nat → Buf
  zfs_oldace_byteswap : Buf → Nat → Nat → Buf
  /-- Whether `zfs_fuid_info_free` (of `zfs_fuid.c`) returns when it is handed
  a `NULL` context; if not, the call does not return. -/
  zfs_fuid_info_free_null : Bool

/-- The filesystem context `zfsvfs_t` as the replay code sees it, with the
trace of the calls made so far and the status each of them returned. -/
structure World (σ : Type) where
  store : σ
  z_fuid_replay : Option zfs_fuid_info
  z_version : Nat
  trace : List Call
  /-- The status of every call of the trace, in the same order. -/
  replies : List Nat

/-- The conditional compilation of the file. -/
structure Build where
  HAVE_ZPL : Bool
  DEBUG : Bool
  LINUX_PORT : Bool
  deriving DecidableEq, Repr

/-- The outcome of a handler: the returned status (`none` when the call does
not return: a failed `ASSERT` or a `NULL` dereference), the context and the
record buffer afterwards. -/
structure Ret (σ : Type) where
  error : Option Nat
  world : World σ
  buf : Buf

variable {σ : Type}

/-- Make a call into the object store and record it. -/
def call (env : Env σ) (w : World σ) (buf : Buf) (c : Call) : Reply σ × World σ :=
  let r := env.ext w.store buf w.z_fuid_replay c
  (r, { w with store := r.store, trace := w.trace ++ [c], replies := w.replies ++ [r.status] })

/-- Record a call that does not go to the object store (allocation and
release of an identity context). -/
def note (w : World σ) (c : Call) : World σ :=
  { w with trace := w.trace ++ [c], replies := w.replies ++ [0] }

/-- The calls that apply a mutation to the object store. -/
def Call.isPrimitive : Call → Bool
  | .VOP_CREATE .. => true
  | .VOP_MKDIR .. => true
  | .zfs_make_xattrdir .. => true
  | .VOP_SYMLINK .. => true
  | .VOP_REMOVE .. => true
  | .VOP_RMDIR .. => true
  | .VOP_LINK .. => true
  | .VOP_RENAME .. => true
  | .vn_rdwr .. => true
  | .VOP_WRITE .. => true
  | .VOP_SPACE .. => true
  | .VOP_SETATTR .. => true
  | .VOP_SETSECATTR .. => true
  | _ => false

/-- The calls that release an object reference. -/
def Call.isRelease : Call → Bool
  | .VN_RELE _ => true
  | .VN_RELE_vp => true
  | _ => false

/-- The calls that look an object up by id. -/
def Call.isLookup : Call → Bool
  | .zfs_zget _ => true
  | .dmu_object_info _ => true
  | _ => false

/-! ## Fields of the fixed record structures -/

/-- The field `lr_common.lrc_txtype`, first word of every record. -/
def lrc_txtype (buf : Buf) : Nat := rd64 buf 0

namespace lr_create_t
def lr_doid (buf : Buf) : Nat := rd64 buf 32
def lr_foid (buf : Buf) : Nat := rd64 buf 40
def lr_mode (buf : Buf) : Nat := rd64 buf 48
def lr_uid (buf : Buf) : Nat := rd64 buf 56
def lr_gid (buf : Buf) : Nat := rd64 buf 64
def lr_gen (buf : Buf) : Nat := rd64 buf 72
def lr_crtime : Nat := 80
def lr_rdev (buf : Buf) : Nat := rd64 buf 96
end lr_create_t

namespace lr_acl_create_t
def lr_aclcnt (buf : Buf) : Nat := rd64 buf 104
def lr_domcnt (buf : Buf) : Nat := rd64 buf 112
def lr_fuidcnt (buf : Buf) : Nat := rd64 buf 120
def lr_acl_bytes (buf : Buf) : Nat := rd64 buf 128
def lr_acl_flags (buf : Buf) : Nat := rd64 buf 136
end lr_acl_create_t

namespace lr_remove_t
def lr_doid (buf : Buf) : Nat := rd64 buf 32
end lr_remove_t

namespace lr_link_t
def lr_doid (buf : Buf) : Nat := rd64 buf 32
def lr_link_obj (buf : Buf) : Nat := rd64 buf 40
end lr_link_t

namespace lr_rename_t
def lr_sdoid (buf : Buf) : Nat := rd64 buf 32
def lr_tdoid (buf : Buf) : Nat := rd64 buf 40
end lr_rename_t

namespace lr_write_t
def lr_foid (buf : Buf) : Nat := rd64 buf 32
def lr_offset (buf : Buf) : Nat := rd64 buf 40
def lr_length (buf : Buf) : Nat := rd64 buf 48
end lr_write_t

namespace lr_truncate_t
def lr_foid (buf : Buf) : Nat := rd64 buf 32
def lr_offset (buf : Buf) : Nat := rd64 buf 40
def lr_length (buf : Buf) : Nat := rd64 buf 48
end lr_truncate_t

namespace lr_setattr_t
def lr_foid (buf : Buf) : Nat := rd64 buf 32
def lr_mask (buf : Buf) : Nat := rd64 buf 40
def lr_mode (buf : Buf) : Nat := rd64 buf 48
def lr_uid (buf : Buf) : Nat := rd64 buf 56
def lr_gid (buf : Buf) : Nat := rd64 buf 64
def lr_size (buf : Buf) : Nat := rd64 buf 72
def lr_atime : Nat := 80
def lr_mtime : Nat := 96
end lr_setattr_t

namespace lr_acl_v0_t
def lr_foid (buf : Buf) : Nat := rd64 buf 32
def lr_aclcnt (buf : Buf) : Nat := rd64 buf 40
end lr_acl_v0_t

namespace lr_acl_t
def lr_foid (buf : Buf) : Nat := rd64 buf 32
def lr_aclcnt (buf : Buf) : Nat := rd64 buf 40
def lr_domcnt (buf : Buf) : Nat := rd64 buf 48
def lr_fuidcnt (buf : Buf) : Nat := rd64 buf 56
def lr_acl_bytes (buf : Buf) : Nat := rd64 buf 64
def lr_acl_flags (buf : Buf) : Nat := rd64 buf 72
end lr_acl_t

/-! ## The handlers -/

/-- `zfs_replay_error` (lines 71-76). -/
def zfs_replay_error (w : World σ) (buf : Buf) (_byteswap : Bool) : Ret σ :=
  ⟨some ENOTSUP, w, buf⟩

/-- The attribute descriptor of a create record (lines 436-448 and 305-317):
`xva_init`, `zfs_init_vattr` with the mask `AT_TYPE | AT_MODE | AT_UID | AT_GID`,
then the creation time and the generation in `va_ctime` and `va_nblocks`. -/
def zfs_replay_create_xva (env : Env σ) (buf : Buf) : xvattr :=
  let xva := xva_init
  let va := zfs_init_vattr env.zfs_cmpldev (AT_TYPE ||| AT_MODE ||| AT_UID ||| AT_GID)
    (lr_create_t.lr_mode buf) (lr_create_t.lr_uid buf) (lr_create_t.lr_gid buf)
    (lr_create_t.lr_rdev buf) (lr_create_t.lr_foid buf)
  let va := { va with va_ctime := ZFS_TIME_DECODE buf lr_create_t.lr_crtime }
  let va := { va with va_nblocks := lr_create_t.lr_gen buf }
  let xva := { xva with xva_vattr := va }
  xva

/-- The byte-order conversion at the head of `zfs_replay_create`
(lines 425-430). -/
def zfs_replay_create_swap (buf : Buf) : Buf :=
  let buf := byteswap_uint64_array buf 0 sizeof_lr_create_t
  let txtype := int_cast (lrc_txtype buf)
  if txtype = TX_CREATE_ATTR ∨ txtype = TX_MKDIR_ATTR then
    zfs_replay_swap_attrs buf sizeof_lr_create_t
  else buf

/-- The exit path `out:` of `zfs_replay_create` (lines 530-539). -/
def zfs_replay_create_out (env : Env σ) (w : World σ) (buf : Buf) (dzp : Nat)
    (error : Nat) (vp : Bool) : Ret σ :=
  let w := if error = 0 ∧ vp = true then (call env w buf .VN_RELE_vp).2 else w
  let w := (call env w buf (.VN_RELE dzp)).2
  let w := match w.z_fuid_replay with
    | some fuidp => note w (.zfs_fuid_info_free fuidp)
    | none => w
  let w := { w with z_fuid_replay := none }
  ⟨some error, w, buf⟩

/-- The `HAVE_ZPL` block of the cases `TX_CREATE_ATTR` and `TX_MKDIR_ATTR`
(lines 476-483 and 497-504): the attribute block is decoded, then the domain
table behind it.  The result is the descriptor, `name` and the context; `none`
when the assertion inside `zfs_replay_xvattr` fails. -/
def zfs_replay_create_attr (b : Build) (w : World σ) (buf : Buf) (xva : xvattr) :
    Option (xvattr × Option Nat × World σ) :=
  let lrsize := sizeof_lr_create_t
  let lrattr := sizeof_lr_create_t
  let xvatlen := ZIL_XVAT_SIZE (rd32 buf lrattr)
  match zfs_replay_xvattr b.DEBUG buf (0 + lrsize) xva with
  | none => none
  | some xva =>
    let start := sizeof_lr_create_t + xvatlen
    let w := note w .zfs_fuid_info_alloc
    let d := zfs_replay_fuid_domain buf start (some start)
      (lr_create_t.lr_uid buf) (lr_create_t.lr_gid buf)
    let w := { w with z_fuid_replay := some d.1 }
    let start := d.2
    some (xva, start, w)

/-- The part of `zfs_replay_create` that runs once the parent is held and the
target id is found free (lines 454-539): the case-insensitive flag, the
identity context of the kinds without attributes, the switch on the kind and
the exit path.  `error` is the `ENOENT` of the probe of the target id. -/
def zfs_replay_create_switch (b : Build) (env : Env σ) (w : World σ) (buf : Buf)
    (dzp : Nat) (xva : xvattr) (error : Nat) : Ret σ :=
  let name : Option Nat := none
  let vflg := 0
  let start : Option Nat := none
  let vflg := if lrc_txtype buf &&& TX_CI ≠ 0 then vflg ||| FIGNORECASE else vflg
  let txtype := int_cast (lrc_txtype buf)
  let sw : Option Nat × World σ :=
    if txtype ≠ TX_SYMLINK ∧ txtype ≠ TX_MKDIR_ATTR ∧ txtype ≠ TX_CREATE_ATTR then
      let start := some sizeof_lr_create_t
      let w := note w .zfs_fuid_info_alloc
      let d := zfs_replay_fuid_domain buf sizeof_lr_create_t start
        (lr_create_t.lr_uid buf) (lr_create_t.lr_gid buf)
      (d.2, { w with z_fuid_replay := some d.1 })
    else (start, w)
  let start := sw.1
  let w := sw.2
  if txtype = TX_CREATE_ATTR ∨ txtype = TX_CREATE then
    if txtype = TX_CREATE_ATTR ∧ b.DEBUG = true then ⟨none, w, buf⟩ else
    let pre : Option (xvattr × Option Nat × Option Nat × World σ) :=
      if txtype = TX_CREATE_ATTR ∧ b.HAVE_ZPL = true then
        (zfs_replay_create_attr b w buf xva).map (fun t => (t.1, t.2.1, t.2.1, t.2.2))
      else some (xva, start, name, w)
    match pre with
    | none => ⟨none, w, buf⟩
    | some (xva, start, name, w) =>
      let name := if name = none then start else name
      let r := call env w buf (.VOP_CREATE dzp name xva vflg none)
      zfs_replay_create_out env r.2 buf dzp r.1.status r.1.vp
  else if txtype = TX_MKDIR_ATTR ∨ txtype = TX_MKDIR then
    if txtype = TX_MKDIR_ATTR ∧ b.DEBUG = true then ⟨none, w, buf⟩ else
    let pre : Option (xvattr × Option Nat × Option Nat × World σ) :=
      if txtype = TX_MKDIR_ATTR ∧ b.HAVE_ZPL = true then
        (zfs_replay_create_attr b w buf xva).map (fun t => (t.1, t.2.1, t.2.1, t.2.2))
      else some (xva, start, name, w)
    match pre with
    | none => ⟨none, w, buf⟩
    | some (xva, _, name, w) =>
      let name := if name = none then some sizeof_lr_create_t else name
      let r := call env w buf (.VOP_MKDIR dzp name xva vflg none)
      zfs_replay_create_out env r.2 buf dzp r.1.status r.1.vp
  else if txtype = TX_MKXATTR then
    if b.HAVE_ZPL = true then
      let r := call env w buf (.zfs_make_xattrdir dzp xva)
      zfs_replay_create_out env r.2 buf dzp r.1.status r.1.vp
    else zfs_replay_create_out env w buf dzp error false
  else if txtype = TX_SYMLINK then
    let name := sizeof_lr_create_t
    let link := name + strlen buf name + 1
    let r := call env w buf (.VOP_SYMLINK dzp (some name) xva (some link) vflg)
    zfs_replay_create_out env r.2 buf dzp r.1.status r.1.vp
  else
    zfs_replay_create_out env w buf dzp ENOTSUP false


/-- `zfs_replay_create` (lines 405-540). -/
def zfs_replay_create (b : Build) (env : Env σ) (w : World σ) (buf : Buf)
    (byteswap : Bool) : Ret σ :=
  let buf := if byteswap then zfs_replay_create_swap buf else buf
  let r := call env w buf (.zfs_zget (lr_create_t.lr_doid buf))
  if r.1.status ≠ 0 then ⟨some r.1.status, r.2, buf⟩ else
  let w := r.2
  let dzp := lr_create_t.lr_doid buf
  let xva := zfs_replay_create_xva env buf
  let r := call env w buf (.dmu_object_info (lr_create_t.lr_foid buf))
  let w := r.2
  let error := r.1.status
  if error ≠ ENOENT then zfs_replay_create_out env w buf dzp error false else
  zfs_replay_create_switch b env w buf dzp xva error

/-- `zfs_replay_remove` (lines 542-575). -/
def zfs_replay_remove (env : Env σ) (w : World σ) (buf : Buf) (byteswap : Bool) : Ret σ :=
  let name := sizeof_lr_remove_t
  let vflg := 0
  let buf := if byteswap then byteswap_uint64_array buf 0 sizeof_lr_remove_t else buf
  let r := call env w buf (.zfs_zget (lr_remove_t.lr_doid buf))
  if r.1.status ≠ 0 then ⟨some r.1.status, r.2, buf⟩ else
  let w := r.2
  let dzp := lr_remove_t.lr_doid buf
  let vflg := if lrc_txtype buf &&& TX_CI ≠ 0 then vflg ||| FIGNORECASE else vflg
  let txtype := int_cast (lrc_txtype buf)
  let ew : Nat × World σ :=
    if txtype = TX_REMOVE then
      let r := call env w buf (.VOP_REMOVE dzp (some name) vflg)
      (r.1.status, r.2)
    else if txtype = TX_RMDIR then
      let r := call env w buf (.VOP_RMDIR dzp (some name) vflg)
      (r.1.status, r.2)
    else (ENOTSUP, w)
  let w := (call env ew.2 buf (.VN_RELE dzp)).2
  ⟨some ew.1, w, buf⟩

/-- `zfs_replay_link` (lines 577-607). -/
def zfs_replay_link (env : Env σ) (w : World σ) (buf : Buf) (byteswap : Bool) : Ret σ :=
  let name := sizeof_lr_link_t
  let vflg := 0
  let buf := if byteswap then byteswap_uint64_array buf 0 sizeof_lr_link_t else buf
  let r := call env w buf (.zfs_zget (lr_link_t.lr_doid buf))
  if r.1.status ≠ 0 then ⟨some r.1.status, r.2, buf⟩ else
  let w := r.2
  let dzp := lr_link_t.lr_doid buf
  let r := call env w buf (.zfs_zget (lr_link_t.lr_link_obj buf))
  if r.1.status ≠ 0 then
    let w := (call env r.2 buf (.VN_RELE dzp)).2
    ⟨some r.1.status, w, buf⟩
  else
  let w := r.2
  let zp := lr_link_t.lr_link_obj buf
  let vflg := if lrc_txtype buf &&& TX_CI ≠ 0 then vflg ||| FIGNORECASE else vflg
  let r := call env w buf (.VOP_LINK dzp zp (some name) vflg)
  let error := r.1.status
  let w := (call env r.2 buf (.VN_RELE zp)).2
  let w := (call env w buf (.VN_RELE dzp)).2
  ⟨some error, w, buf⟩

/-- `zfs_replay_rename` (lines 609-641).  `tname` is computed on entry, before
the byte-order conversion of the fixed part. -/
def zfs_replay_rename (env : Env σ) (w : World σ) (buf : Buf) (byteswap : Bool) : Ret σ :=
  let sname := sizeof_lr_rename_t
  let tname := sname + strlen buf sname + 1
  let vflg := 0
  let buf := if byteswap then byteswap_uint64_array buf 0 sizeof_lr_rename_t else buf
  let r := call env w buf (.zfs_zget (lr_rename_t.lr_sdoid buf))
  if r.1.status ≠ 0 then ⟨some r.1.status, r.2, buf⟩ else
  let w := r.2
  let sdzp := lr_rename_t.lr_sdoid buf
  let r := call env w buf (.zfs_zget (lr_rename_t.lr_tdoid buf))
  if r.1.status ≠ 0 then
    let w := (call env r.2 buf (.VN_RELE sdzp)).2
    ⟨some r.1.status, w, buf⟩
  else
  let w := r.2
  let tdzp := lr_rename_t.lr_tdoid buf
  let vflg := if lrc_txtype buf &&& TX_CI ≠ 0 then vflg ||| FIGNORECASE else vflg
  let r := call env w buf (.VOP_RENAME sdzp (some sname) tdzp (some tname) vflg)
  let error := r.1.status
  let w := (call env r.2 buf (.VN_RELE tdzp)).2
  let w := (call env w buf (.VN_RELE sdzp)).2
  ⟨some error, w, buf⟩

/-- `zfs_replay_write` (lines 643-688). -/
def zfs_replay_write (b : Build) (env : Env σ) (w : World σ) (buf : Buf)
    (byteswap : Bool) : Ret σ :=
  let data := sizeof_lr_write_t
  let vflg := 0
  let buf := if byteswap then byteswap_uint64_array buf 0 sizeof_lr_write_t else buf
  let r := call env w buf (.zfs_zget (lr_write_t.lr_foid buf))
  if r.1.status ≠ 0 then
    let error := r.1.status
    let error := if error = ENOENT then 0 else error
    ⟨some error, r.2, buf⟩
  else
  let w := r.2
  let zp := lr_write_t.lr_foid buf
  let r :=
    if b.LINUX_PORT = true then
      call env w buf
        (.VOP_WRITE zp data (lr_write_t.lr_length buf) (lr_write_t.lr_offset buf) vflg)
    else
      call env w buf (.vn_rdwr zp data (lr_write_t.lr_length buf) (lr_write_t.lr_offset buf))
  let error := r.1.status
  let w := (call env r.2 buf (.VN_RELE zp)).2
  ⟨some error, w, buf⟩

/-- `zfs_replay_truncate` (lines 690-725). -/
def zfs_replay_truncate (env : Env σ) (w : World σ) (buf : Buf) (byteswap : Bool) : Ret σ :=
  let buf := if byteswap then byteswap_uint64_array buf 0 sizeof_lr_truncate_t else buf
  let r := call env w buf (.zfs_zget (lr_truncate_t.lr_foid buf))
  if r.1.status ≠ 0 then
    let error := r.1.status
    let error := if error = ENOENT then 0 else error
    ⟨some error, r.2, buf⟩
  else
  let w := r.2
  let zp := lr_truncate_t.lr_foid buf
  let r := call env w buf
    (.VOP_SPACE zp (lr_truncate_t.lr_offset buf) (lr_truncate_t.lr_length buf)
      (lr_truncate_t.lr_offset buf))
  let error := r.1.status
  let w := (call env r.2 buf (.VN_RELE zp)).2
  ⟨some error, w, buf⟩

/-- The byte-order conversion at the head of `zfs_replay_setattr`
(lines 739-745). -/
def zfs_replay_setattr_swap (z_version : Nat) (buf : Buf) : Buf :=
  let buf := byteswap_uint64_array buf 0 sizeof_lr_setattr_t
  if lr_setattr_t.lr_mask buf &&& AT_XVATTR ≠ 0 ∧ z_version ≥ ZPL_VERSION_INITIAL then
    zfs_replay_swap_attrs buf sizeof_lr_setattr_t
  else buf

/-- Lines 758-777 of `zfs_replay_setattr`: the attribute descriptor of the
record and the cursor `start` behind the fixed part and the attribute block;
`none` when the assertion inside `zfs_replay_xvattr` fails. -/
def zfs_replay_setattr_xva (b : Build) (env : Env σ) (buf : Buf) : Option (xvattr × Nat) :=
  let xva := xva_init
  let vap := zfs_init_vattr env.zfs_cmpldev (lr_setattr_t.lr_mask buf)
    (lr_setattr_t.lr_mode buf) (lr_setattr_t.lr_uid buf) (lr_setattr_t.lr_gid buf) 0
    (lr_setattr_t.lr_foid buf)
  let vap := { vap with va_size := lr_setattr_t.lr_size buf }
  let vap := { vap with va_atime := ZFS_TIME_DECODE buf lr_setattr_t.lr_atime }
  let vap := { vap with va_mtime := ZFS_TIME_DECODE buf lr_setattr_t.lr_mtime }
  let xva := { xva with xva_vattr := vap }
  let start := sizeof_lr_setattr_t
  if b.HAVE_ZPL = true then
    if xva.xva_vattr.va_mask &&& AT_XVATTR ≠ 0 then
      (zfs_replay_xvattr b.DEBUG buf start xva).map
        (fun x => (x, start + ZIL_XVAT_SIZE (rd32 buf start)))
    else
      some ({ xva with xva_vattr := { xva.xva_vattr with
        va_mask := xva.xva_vattr.va_mask &&& (4294967295 ^^^ AT_XVATTR) } }, start)
  else some (xva, start)

/-- Lines 779-788 of `zfs_replay_setattr`: the identity context is decoded
into the slot, the attributes are set, the context is released, the object is
released. -/
def zfs_replay_setattr_apply (env : Env σ) (w : World σ) (buf : Buf) (zp : Nat)
    (xva : xvattr) (start : Nat) : Ret σ :=
  let w := note w .zfs_fuid_info_alloc
  let d := zfs_replay_fuid_domain buf start (some start)
    (lr_setattr_t.lr_uid buf) (lr_setattr_t.lr_gid buf)
  let w := { w with z_fuid_replay := some d.1 }
  let r := call env w buf (.VOP_SETATTR zp xva)
  let error := r.1.status
  let w := r.2
  let w := note w (.zfs_fuid_info_free d.1)
  let w := { w with z_fuid_replay := none }
  let w := (call env w buf (.VN_RELE zp)).2
  ⟨some error, w, buf⟩

/-- `zfs_replay_setattr` (lines 727-789). -/
def zfs_replay_setattr (b : Build) (env : Env σ) (w : World σ) (buf : Buf)
    (byteswap : Bool) : Ret σ :=
  let buf := if byteswap then zfs_replay_setattr_swap w.z_version buf else buf
  let r := call env w buf (.zfs_zget (lr_setattr_t.lr_foid buf))
  if r.1.status ≠ 0 then
    let error := r.1.status
    let error := if error = ENOENT then 0 else error
    ⟨some error, r.2, buf⟩
  else
  let w := r.2
  let zp := lr_setattr_t.lr_foid buf
  match zfs_replay_setattr_xva b env buf with
  | none => ⟨none, w, buf⟩
  | some (xva, start) => zfs_replay_setattr_apply env w buf zp xva start

/-- `zfs_replay_acl_v0` (lines 792-828). -/
def zfs_replay_acl_v0 (env : Env σ) (w : World σ) (buf : Buf) (byteswap : Bool) : Ret σ :=
  let ace := sizeof_lr_acl_v0_t
  let buf :=
    if byteswap then
      let buf := byteswap_uint64_array buf 0 sizeof_lr_acl_v0_t
      env.zfs_oldace_byteswap buf ace (lr_acl_v0_t.lr_aclcnt buf)
    else buf
  let r := call env w buf (.zfs_zget (lr_acl_v0_t.lr_foid buf))
  if r.1.status ≠ 0 then
    let error := r.1.status
    let error := if error = ENOENT then 0 else error
    ⟨some error, r.2, buf⟩
  else
  let w := r.2
  let zp := lr_acl_v0_t.lr_foid buf
  let vsa : vsecattr :=
    { vsa_mask := VSA_ACE ||| VSA_ACECNT
      vsa_aclcnt := lr_acl_v0_t.lr_aclcnt buf % 4294967296
      vsa_aclentsz := sizeof_ace_t * (lr_acl_v0_t.lr_aclcnt buf % 4294967296) % 4294967296
      vsa_aclflags := 0
      vsa_aclentp := some ace }
  let r := call env w buf (.VOP_SETSECATTR zp vsa)
  let error := r.1.status
  let w := (call env r.2 buf (.VN_RELE zp)).2
  ⟨some error, w, buf⟩

/-- The byte-order conversion at the head of `zfs_replay_acl` (lines 852-860). -/
def zfs_replay_acl_swap (env : Env σ) (buf : Buf) : Buf :=
  let ace := sizeof_lr_acl_t
  let buf := byteswap_uint64_array buf 0 sizeof_lr_acl_t
  let buf := env.zfs_ace_byteswap buf ace (lr_acl_t.lr_acl_bytes buf)
  if lr_acl_t.lr_fuidcnt buf ≠ 0 then
    byteswap_uint64_array buf (ace + ZIL_ACE_LENGTH (lr_acl_t.lr_acl_bytes buf))
      (lr_acl_t.lr_fuidcnt buf * 8 % 18446744073709551616)
  else buf

/-- `zfs_replay_acl` (lines 844-898). -/
def zfs_replay_acl (env : Env σ) (w : World σ) (buf : Buf) (byteswap : Bool) : Ret σ :=
  let ace := sizeof_lr_acl_t
  let buf := if byteswap then zfs_replay_acl_swap env buf else buf
  let r := call env w buf (.zfs_zget (lr_acl_t.lr_foid buf))
  if r.1.status ≠ 0 then
    let error := r.1.status
    let error := if error = ENOENT then 0 else error
    ⟨some error, r.2, buf⟩
  else
  let w := r.2
  let zp := lr_acl_t.lr_foid buf
  let vsa : vsecattr :=
    { vsa_mask := VSA_ACE ||| VSA_ACECNT ||| VSA_ACE_ACLFLAGS
      vsa_aclcnt := lr_acl_t.lr_aclcnt buf % 4294967296
      vsa_aclentp := some ace
      vsa_aclentsz := lr_acl_t.lr_acl_bytes buf % 4294967296
      vsa_aclflags := lr_acl_t.lr_acl_flags buf % 4294967296 }
  let w :=
    if lr_acl_t.lr_fuidcnt buf ≠ 0 then
      let fuidstart := ace + ZIL_ACE_LENGTH (lr_acl_t.lr_acl_bytes buf)
      let w := note w .zfs_fuid_info_alloc
      let d := zfs_replay_fuids buf fuidstart (int_cast (lr_acl_t.lr_fuidcnt buf)).toNat
        (int_cast (lr_acl_t.lr_domcnt buf)).toNat 0 0
      { w with z_fuid_replay := some d.1 }
    else w
  let r := call env w buf (.VOP_SETSECATTR zp vsa)
  let error := r.1.status
  let w := r.2
  let w := match w.z_fuid_replay with
    | some fuidp => note w (.zfs_fuid_info_free fuidp)
    | none => w
  let w := { w with z_fuid_replay := none }
  let w := (call env w buf (.VN_RELE zp)).2
  ⟨some error, w, buf⟩

/-- The byte-order conversion at the head of `zfs_replay_create_acl`
(lines 282-300): the converted record, and the offset `aclstart` at which the
entry array is converted. -/
def zfs_replay_create_acl_swap (env : Env σ) (buf : Buf) : Buf × Nat :=
  let xvatlen := 0
  let buf := byteswap_uint64_array buf 0 sizeof_lr_acl_create_t
  let txtype := int_cast (lrc_txtype buf)
  let bx : Buf × Nat :=
    if txtype = TX_CREATE_ACL_ATTR ∨ txtype = TX_MKDIR_ACL_ATTR then
      let lrattr := sizeof_lr_acl_create_t
      let buf := zfs_replay_swap_attrs buf lrattr
      (buf, ZIL_XVAT_SIZE (rd32 buf lrattr))
    else (buf, xvatlen)
  let buf := bx.1
  let xvatlen := bx.2
  let aclstart := sizeof_lr_acl_create_t + xvatlen
  let buf := env.zfs_ace_byteswap buf aclstart (lr_acl_create_t.lr_acl_bytes buf)
  let buf :=
    if lr_acl_create_t.lr_fuidcnt buf ≠ 0 then
      byteswap_uint64_array buf
        (aclstart + ZIL_ACE_LENGTH (lr_acl_create_t.lr_acl_bytes buf))
        (lr_acl_create_t.lr_fuidcnt buf * 8 % 18446744073709551616)
    else buf
  (buf, aclstart)

/-- The exit path `bail:` of `zfs_replay_create_acl` (lines 392-401): the
identity context is released without a test for `NULL`. -/
def zfs_replay_create_acl_bail (env : Env σ) (w : World σ) (buf : Buf) (dzp : Nat)
    (error : Nat) (vp : Bool) : Ret σ :=
  let w := if error = 0 ∧ vp = true then (call env w buf .VN_RELE_vp).2 else w
  let w := (call env w buf (.VN_RELE dzp)).2
  match w.z_fuid_replay with
  | some fuidp =>
    let w := note w (.zfs_fuid_info_free fuidp)
    let w := { w with z_fuid_replay := none }
    ⟨some error, w, buf⟩
  | none =>
    if env.zfs_fuid_info_free_null = true then ⟨some error, w, buf⟩ else ⟨none, w, buf⟩

/-- The call `zfs_replay_fuids(fuidstart, &name, lr_fuidcnt, lr_domcnt, lr_uid,
lr_gid)` of `zfs_replay_create_acl`, stored into `z_fuid_replay`: the new
`name` and the context. -/
def zfs_replay_create_acl_fuids (w : World σ) (buf : Buf) (fuidstart : Nat) :
    Option Nat × World σ :=
  let w := note w .zfs_fuid_info_alloc
  let d := zfs_replay_fuids buf fuidstart
    (int_cast (lr_acl_create_t.lr_fuidcnt buf)).toNat
    (int_cast (lr_acl_create_t.lr_domcnt buf)).toNat
    (lr_create_t.lr_uid buf) (lr_create_t.lr_gid buf)
  (some d.2, { w with z_fuid_replay := some d.1 })

/-- The two cases of the switch of `zfs_replay_create_acl` that share a
primitive (lines 326-357 with `mkdir = false`, lines 358-387 with
`mkdir = true`); `plain` tells that the type code is the one without
attributes, which enters at the first `case` label. -/
def zfs_replay_create_acl_case (b : Build) (env : Env σ) (w : World σ) (buf : Buf)
    (dzp : Nat) (xva : xvattr) (vflg : Nat) (plain mkdir : Bool) : Ret σ :=
  let name : Option Nat := none
  let xvatlen := 0
  let nw : Option Nat × World σ :=
    if plain = true then
      let aclstart := sizeof_lr_acl_create_t
      let fuidstart := aclstart + ZIL_ACE_LENGTH (lr_acl_create_t.lr_acl_bytes buf)
      zfs_replay_create_acl_fuids w buf fuidstart
    else (name, w)
  let name := nw.1
  let w := nw.2
  let pre : Option (xvattr × Nat) :=
    if name = none then
      let lrattr := sizeof_lr_acl_create_t
      let xvatlen := ZIL_XVAT_SIZE (rd32 buf lrattr)
      let xva :=
        if mkdir = true then xva
        else { xva with xva_vattr := { xva.xva_vattr with
          va_mask := xva.xva_vattr.va_mask ||| AT_XVATTR } }
      (zfs_replay_xvattr b.DEBUG buf lrattr xva).map (fun x => (x, xvatlen))
    else some (xva, xvatlen)
  match pre with
  | none => ⟨none, w, buf⟩
  | some (xva, xvatlen) =>
    let vsec : vsecattr :=
      { vsa_mask := VSA_ACE ||| VSA_ACE_ACLFLAGS
        vsa_aclentp := some (sizeof_lr_acl_create_t + xvatlen)
        vsa_aclcnt := lr_acl_create_t.lr_aclcnt buf % 4294967296
        vsa_aclentsz := lr_acl_create_t.lr_acl_bytes buf % 4294967296
        vsa_aclflags := lr_acl_create_t.lr_acl_flags buf % 4294967296 }
    let nw : Option Nat × World σ :=
      if w.z_fuid_replay = none then
        let fuidstart := sizeof_lr_acl_create_t + xvatlen
          + ZIL_ACE_LENGTH (lr_acl_create_t.lr_acl_bytes buf)
        zfs_replay_create_acl_fuids w buf fuidstart
      else (name, w)
    let name := nw.1
    let w := nw.2
    let r :=
      if mkdir = true then call env w buf (.VOP_MKDIR dzp name xva vflg (some vsec))
      else call env w buf (.VOP_CREATE dzp name xva vflg (some vsec))
    zfs_replay_create_acl_bail env r.2 buf dzp r.1.status r.1.vp

/-- `zfs_replay_create_acl` (lines 264-402). -/
def zfs_replay_create_acl (b : Build) (env : Env σ) (w : World σ) (buf : Buf)
    (byteswap : Bool) : Ret σ :=
  let vflg := 0
  let buf := if byteswap then (zfs_replay_create_acl_swap env buf).1 else buf
  let r := call env w buf (.zfs_zget (lr_create_t.lr_doid buf))
  if r.1.status ≠ 0 then ⟨some r.1.status, r.2, buf⟩ else
  let w := r.2
  let dzp := lr_create_t.lr_doid buf
  let xva := zfs_replay_create_xva env buf
  let r := call env w buf (.dmu_object_info (lr_create_t.lr_foid buf))
  let w := r.2
  let error := r.1.status
  if error ≠ ENOENT then zfs_replay_create_acl_bail env w buf dzp error false else
  let vflg := if lrc_txtype buf &&& TX_CI ≠ 0 then vflg ||| FIGNORECASE else vflg
  let txtype := int_cast (lrc_txtype buf)
  if txtype = TX_CREATE_ACL ∨ txtype = TX_CREATE_ACL_ATTR then
    zfs_replay_create_acl_case b env w buf dzp xva vflg (decide (txtype = TX_CREATE_ACL)) false
  else if txtype = TX_MKDIR_ACL ∨ txtype = TX_MKDIR_ACL_ATTR then
    zfs_replay_create_acl_case b env w buf dzp xva vflg (decide (txtype = TX_MKDIR_ACL)) true
  else
    zfs_replay_create_acl_bail env w buf dzp ENOTSUP false

/-! ## The dispatch vector -/

/-- The functions that appear in `zfs_replay_vector`. -/
inductive Handler where
  | zfs_replay_error
  | zfs_replay_create
  | zfs_replay_remove
  | zfs_replay_link
  | zfs_replay_rename
  | zfs_replay_write
  | zfs_replay_truncate
  | zfs_replay_setattr
  deriving DecidableEq, Repr

/-- The initialisers of `zfs_replay_vector` (lines 904-925), in the order the
compiler sees them: the lines commented out with `//` are not initialisers. -/
def zfs_replay_vector_init : List Handler :=
  [ .zfs_replay_error,
    .zfs_replay_create,
    .zfs_replay_create,
    .zfs_replay_create,
    .zfs_replay_create,
    .zfs_replay_remove,
    .zfs_replay_remove,
    .zfs_replay_link,
    .zfs_replay_rename,
    .zfs_replay_write,
    .zfs_replay_truncate,
    .zfs_replay_setattr,
    .zfs_replay_create,
    .zfs_replay_create ]

/-- The array `zfs_replay_vector[TX_MAX_TYPE]`: initialiser `i` fills element
`i`, the elements without initialiser are `NULL` (`none`). -/
def zfs_replay_vector (t : Nat) : Option Handler :=
  if t < TX_MAX_TYPE then zfs_replay_vector_init.get? t else none

/-- Run a handler. -/
def Handler.run (b : Build) (env : Env σ) (w : World σ) (buf : Buf) (byteswap : Bool) :
    Handler → Ret σ
  | .zfs_replay_error => ZfsReplay.zfs_replay_error w buf byteswap
  | .zfs_replay_create => ZfsReplay.zfs_replay_create b env w buf byteswap
  | .zfs_replay_remove => ZfsReplay.zfs_replay_remove env w buf byteswap
  | .zfs_replay_link => ZfsReplay.zfs_replay_link env w buf byteswap
  | .zfs_replay_rename => ZfsReplay.zfs_replay_rename env w buf byteswap
  | .zfs_replay_write => ZfsReplay.zfs_replay_write b env w buf byteswap
  | .zfs_replay_truncate => ZfsReplay.zfs_replay_truncate env w buf byteswap
  | .zfs_replay_setattr => ZfsReplay.zfs_replay_setattr b env w buf byteswap

/-- The call `zfs_replay_vector[t](arg1, arg2, byteswap)`; calling a `NULL`
element does not return. -/
def zfs_replay_vector_call (b : Build) (env : Env σ) (t : Nat) (w : World σ) (buf : Buf)
    (byteswap : Bool) : Ret σ :=
  match zfs_replay_vector t with
  | some h => h.run b env w buf byteswap
  | none => ⟨none, w, buf⟩

/-! ## Concrete records and a concrete object store -/

/-- The eight bytes of a 64-bit word in host order. -/
def le64 (x : Nat) : List Nat :=
  (List.range 8).map (fun i => x / 256 ^ i % 256)

/-- The four bytes of a 32-bit word in host order. -/
def le32 (x : Nat) : List Nat :=
  (List.range 4).map (fun i => x / 256 ^ i % 256)

/-- A record: the 64-bit words of its fixed part, then its trailing bytes. -/
def mkRecord (words : List Nat) (tail : List Nat) : Buf :=
  (words.map le64).flatten ++ tail

/-- An object store that holds the objects listed in its state: a lookup of a
listed id succeeds, any other lookup reports `ENOENT`; every other call
succeeds and the creating calls hand back a vnode. -/
def listStore : Env (List Nat) where
  ext := fun store _ _ c =>
    match c with
    | .zfs_zget obj => ⟨if obj ∈ store then 0 else ENOENT, false, store⟩
    | .dmu_object_info obj => ⟨if obj ∈ store then 0 else ENOENT, false, store⟩
    | _ => ⟨0, true, store⟩
  zfs_cmpldev := id
  zfs_ace_byteswap := fun buf _ _ => buf
  zfs_oldace_byteswap := fun buf _ _ => buf
  zfs_fuid_info_free_null := false

/-- A replay context over `listStore` with an empty identity-context slot and
an empty trace. -/
def listWorld (objs : List Nat) : World (List Nat) :=
  { store := objs, z_fuid_replay := none, z_version := 3, trace := [], replies := [] }

/-- The build of the port: `HAVE_ZPL` undefined, assertions compiled out,
`LINUX_PORT` defined. -/
def portBuild : Build := { HAVE_ZPL := false, DEBUG := false, LINUX_PORT := true }

/-- A create record (`TX_CREATE`): parent 7, target 9, mode `0100644`, owner
and group 0, name `"a"`. -/
def recCreate : Buf :=
  mkRecord [1, 0, 0, 0, 7, 9, 0o100644, 0, 0, 0, 0, 0, 0] [97, 0]

/-! ## Vocabulary of the statements -/

/-- The calls a handler made: the trace after the call, without the trace
before it. -/
def newCalls (w : World σ) (r : Ret σ) : List Call :=
  r.world.trace.drop w.trace.length

/-- The create record as `zfs_replay_create` reads it: converted when the swap
flag is set. -/
def createRecord (buf : Buf) (byteswap : Bool) : Buf :=
  if byteswap then zfs_replay_create_swap buf else buf

/-- The parent lookup of `zfs_replay_create` (line 433). -/
def createParentLookup (env : Env σ) (w : World σ) (lr : Buf) : Reply σ × World σ :=
  call env w lr (.zfs_zget (lr_create_t.lr_doid lr))

/-- The probe of the target id of `zfs_replay_create` (line 450), made after a
successful parent lookup. -/
def createTargetProbe (env : Env σ) (w : World σ) (lr : Buf) : Reply σ × World σ :=
  call env (createParentLookup env w lr).2 lr (.dmu_object_info (lr_create_t.lr_foid lr))

/-- The calls that release the identity context found in the slot, if any. -/
def freeSlot (slot : Option zfs_fuid_info) : List Call :=
  match slot with
  | some fuidp => [.zfs_fuid_info_free fuidp]
  | none => []

/-- The write record as `zfs_replay_write` reads it. -/
def writeRecord (buf : Buf) (byteswap : Bool) : Buf :=
  if byteswap then byteswap_uint64_array buf 0 sizeof_lr_write_t else buf

/-- The truncate record as `zfs_replay_truncate` reads it. -/
def truncateRecord (buf : Buf) (byteswap : Bool) : Buf :=
  if byteswap then byteswap_uint64_array buf 0 sizeof_lr_truncate_t else buf

/-- The setattr record as `zfs_replay_setattr` reads it. -/
def setattrRecord (z_version : Nat) (buf : Buf) (byteswap : Bool) : Buf :=
  if byteswap then zfs_replay_setattr_swap z_version buf else buf

/-- The version-0 ACL record as `zfs_replay_acl_v0` reads it (lines 800-803). -/
def aclV0Record (env : Env σ) (buf : Buf) (byteswap : Bool) : Buf :=
  if byteswap then
    env.zfs_oldace_byteswap (byteswap_uint64_array buf 0 sizeof_lr_acl_v0_t)
      sizeof_lr_acl_v0_t
      (lr_acl_v0_t.lr_aclcnt (byteswap_uint64_array buf 0 sizeof_lr_acl_v0_t))
  else buf

/-- The ACL record as `zfs_replay_acl` reads it. -/
def aclRecord (env : Env σ) (buf : Buf) (byteswap : Bool) : Buf :=
  if byteswap then zfs_replay_acl_swap env buf else buf

/-- The remove or rmdir record as `zfs_replay_remove` reads it. -/
def removeRecord (buf : Buf) (byteswap : Bool) : Buf :=
  if byteswap then byteswap_uint64_array buf 0 sizeof_lr_remove_t else buf

/-- The link record as `zfs_replay_link` reads it. -/
def linkRecord (buf : Buf) (byteswap : Bool) : Buf :=
  if byteswap then byteswap_uint64_array buf 0 sizeof_lr_link_t else buf

/-- The rename record as `zfs_replay_rename` reads it. -/
def renameRecord (buf : Buf) (byteswap : Bool) : Buf :=
  if byteswap then byteswap_uint64_array buf 0 sizeof_lr_rename_t else buf

/-- The status the object store gives to the lookup of `obj`, asked in the
context `w` with the record `lr`. -/
def lookupStatus (env : Env σ) (w : World σ) (lr : Buf) (obj : Nat) : Nat :=
  (call env w lr (.zfs_zget obj)).1.status

/-- The context after the lookup of `obj`. -/
def afterLookup (env : Env σ) (w : World σ) (lr : Buf) (obj : Nat) : World σ :=
  (call env w lr (.zfs_zget obj)).2

/-- A handler call that dropped its record: it returned success, its only
call was the lookup of `obj` (so no primitive ran and no reference was
released), and the identity-context slot is what it was. -/
def DroppedRecord (w : World σ) (r : Ret σ) (obj : Nat) : Prop :=
  r.error = some 0 ∧
    newCalls w r = [.zfs_zget obj] ∧
    (∀ c ∈ newCalls w r, c.isPrimitive = false ∧ c.isRelease = false) ∧
    r.world.z_fuid_replay = w.z_fuid_replay

/-- A write record (`TX_WRITE`): target 42, offset 0, length 2, payload
`"hi"`. -/
def recWrite : Buf :=
  mkRecord ([9, 0, 0, 0, 42, 0, 2, 0] ++ List.replicate 16 0) [104, 105]

/-- A truncate record (`TX_TRUNCATE`): target 42, offset 16, length 0. -/
def recTruncate : Buf :=
  mkRecord [10, 0, 0, 0, 42, 16, 0] []

/-- A setattr record (`TX_SETATTR`): target 42, mask `AT_MODE`, mode `0600`. -/
def recSetattr : Buf :=
  mkRecord [11, 0, 0, 0, 42, 2, 0o600, 0, 0, 0, 0, 0, 0, 0] []

/-- A version-0 ACL record (`TX_ACL_V0`): target 42, no entries. -/
def recAclV0 : Buf :=
  mkRecord [12, 0, 0, 0, 42, 0] []

/-- An ACL record (`TX_ACL`): target 42, no entries, no identities. -/
def recAcl : Buf :=
  mkRecord [13, 0, 0, 0, 42, 0, 0, 0, 0, 0] []

/-- A handler call that failed on a lookup: it returned the status `e`, ran no
primitive, and the identity-context slot is what it was. -/
def FailedLookup (w : World σ) (r : Ret σ) (e : Nat) : Prop :=
  r.error = some e ∧
    (∀ c ∈ newCalls w r, c.isPrimitive = false) ∧
    r.world.z_fuid_replay = w.z_fuid_replay

/-- A remove record (`TX_REMOVE`): parent 7, name `"a"`. -/
def recRemove : Buf :=
  mkRecord [5, 0, 0, 0, 7] [97, 0]

/-- A link record (`TX_LINK`): parent 7, object 9, name `"a"`. -/
def recLink : Buf :=
  mkRecord [7, 0, 0, 0, 7, 9] [97, 0]

/-- A rename record (`TX_RENAME`): source parent 7, target parent 8, source
name `"a"`, target name `"b"`. -/
def recRename : Buf :=
  mkRecord [8, 0, 0, 0, 7, 8] [97, 0, 98, 0]

/-- The name argument of a call that takes a name. -/
def Call.nameArg : Call → Option (Option Nat)
  | .VOP_CREATE _ name _ _ _ => some name
  | .VOP_MKDIR _ name _ _ _ => some name
  | .VOP_SYMLINK _ name _ _ _ => some name
  | .VOP_REMOVE _ name _ => some name
  | .VOP_RMDIR _ name _ => some name
  | .VOP_LINK _ _ name _ => some name
  | .VOP_RENAME _ sname _ _ _ => some sname
  | _ => none

/-- The trailing bytes of a record whose owner has domain index 1: the domain
string `"D"`, then the name `"x"`. -/
def tailDomainName : List Nat := [68, 0, 120, 0]

/-- A mkdir record (`TX_MKDIR`): parent 7, target 9, mode `040755`, owner
`(1 << 32) | 5` (domain index 1), group 0, domain table `"D"`, name `"x"`. -/
def recMkdirDomain : Buf :=
  mkRecord [2, 0, 0, 0, 7, 9, 0o40755, 4294967301, 0, 0, 0, 0, 0] tailDomainName

/-- The same record with the type code `TX_CREATE` and mode `0100644`. -/
def recCreateDomain : Buf :=
  mkRecord [1, 0, 0, 0, 7, 9, 0o100644, 4294967301, 0, 0, 0, 0, 0] tailDomainName

/-- The offsets at which `n` consecutive NUL-terminated strings begin, the
first one at `p`. -/
def stringStarts (buf : Buf) : Nat → Nat → List Nat
  | 0, _ => []
  | n + 1, p => p :: stringStarts buf n (p + strlen buf p + 1)

/-- The offset after `n` consecutive NUL-terminated strings, the first one at
`p`: `p` plus the sum of `strlen + 1` over the strings. -/
def stringsEnd (buf : Buf) : Nat → Nat → Nat
  | 0, p => p
  | n + 1, p => stringsEnd buf n (p + strlen buf p + 1)

/-- The bytes of a string table: every string followed by its NUL. -/
def packStrings (strs : List (List Nat)) : List Nat :=
  (strs.map (fun s => s ++ [0])).flatten

/-- The offsets of the strings of a table that begins at `p`. -/
def packedOffsets : Nat → List (List Nat) → List Nat
  | _, [] => []
  | p, s :: ss => p :: packedOffsets (p + s.length + 1) ss

/-- The size of a string table: the sum of `strlen + 1` over its strings. -/
def packedLength (strs : List (List Nat)) : Nat :=
  (strs.map (fun s => s.length + 1)).sum

/-- The fixed part of `recMkdirDomain`. -/
def hdrMkdirDomain : Buf :=
  mkRecord [2, 0, 0, 0, 7, 9, 0o40755, 4294967301, 0, 0, 0, 0, 0] []

/-- The eleven boolean attributes: the bit of each in the bitmap and in the
attribute-flags word, and its field in `xoptattr_t`. -/
def boolAttrs : List (Nat × (xoptattr → Nat)) :=
  [ (XAT0_HIDDEN, xoptattr.xoa_hidden),
    (XAT0_SYSTEM, xoptattr.xoa_system),
    (XAT0_ARCHIVE, xoptattr.xoa_archive),
    (XAT0_READONLY, xoptattr.xoa_readonly),
    (XAT0_IMMUTABLE, xoptattr.xoa_immutable),
    (XAT0_NOUNLINK, xoptattr.xoa_nounlink),
    (XAT0_APPENDONLY, xoptattr.xoa_appendonly),
    (XAT0_NODUMP, xoptattr.xoa_nodump),
    (XAT0_OPAQUE, xoptattr.xoa_opaque),
    (XAT0_AV_MODIFIED, xoptattr.xoa_av_modified),
    (XAT0_AV_QUARANTINED, xoptattr.xoa_av_quarantined) ]

/-- The layout of an attribute block with `m` bitmap words: the bitmap starts
at offset 4, the attribute-flags word follows it. -/
def layoutFlags (lrattr m : Nat) : Nat := lrattr + 4 + 4 * m

/-- The creation timestamp follows the attribute-flags word. -/
def layoutCrtime (lrattr m : Nat) : Nat := layoutFlags lrattr m + 8

/-- The scan-stamp blob follows the creation timestamp. -/
def layoutScanstamp (lrattr m : Nat) : Nat := layoutCrtime lrattr m + 16

/-- The scan-stamp blob of a block. -/
def layoutBlob (buf : Buf) (lrattr m : Nat) : List Nat :=
  (List.range AV_SCANSTAMP_SZ).map (fun i => rd8 buf (layoutScanstamp lrattr m + i))

/-- An attribute block from its parts: the word count, the bitmap words, the
attribute-flags word, the two words of the creation time, the scan-stamp. -/
def mkAttrBlock (masksize : Nat) (bitmap : List Nat) (flags : Nat) (crtime : Nat × Nat)
    (stamp : List Nat) : Buf :=
  le32 masksize ++ (bitmap.map le32).flatten ++ le64 flags ++ le64 crtime.1
    ++ le64 crtime.2 ++ stamp

/-- A block with one bitmap word that requests `hidden`, and whose
attribute-flags word has `hidden` set. -/
def blockOneWord : Buf :=
  mkAttrBlock 1 [XAT0_HIDDEN] XAT0_HIDDEN (0, 0) (List.replicate 32 0)

/-- A block with three bitmap words (`XVA_MAPSIZE`) that requests `immutable`
and the creation time; the attribute-flags word has `immutable` and `hidden`
set, the creation time is `(5, 6)`. -/
def blockThreeWords : Buf :=
  mkAttrBlock 3 [XAT0_IMMUTABLE ||| XAT0_CREATETIME, 0, 0] (XAT0_IMMUTABLE ||| XAT0_HIDDEN)
    (5, 6) (List.replicate 32 7)

/-- A descriptor of the type `xvattr_t` that `xva_init` has prepared, whatever
was stored into its attributes and its maps since: it carries the magic and
the map size `XVA_MAPSIZE`, and its requested-attribute map is the array of
`XVA_MAPSIZE` words.  Every descriptor the handlers pass is one. -/
def xva_initialised (xvap : xvattr) : Bool :=
  decide (xvap.xva_magic = XVA_MAGIC) && decide (xvap.xva_mapsize = XVA_MAPSIZE) &&
    decide (xvap.xva_reqattrmap.length = XVA_MAPSIZE)

/-- The eight bytes of a 64-bit word in the other byte order. -/
def be64 (x : Nat) : List Nat := (le64 x).reverse

/-- The four bytes of a 32-bit word in the other byte order. -/
def be32 (x : Nat) : List Nat := (le32 x).reverse

/-- The fixed words of a create record with attributes (`TX_CREATE_ATTR`):
parent 7, target 9, mode `0100644`. -/
def wordsCreateAttr : List Nat := [15, 0, 0, 0, 7, 9, 0o100644, 0, 0, 0, 0, 0, 0]

/-- The create record with attributes in host order: the fixed words, the
attribute block of three bitmap words, the name `"a"`. -/
def recCreateAttrHost : Buf :=
  mkRecord wordsCreateAttr (blockThreeWords ++ [97, 0])

/-- The same record as a writer of the other byte order leaves it: every word
of the fixed part, of the bitmap, the attribute-flags word and the creation
time are in the other order; the scan-stamp and the name are bytes. -/
def recCreateAttrForeign : Buf :=
  (wordsCreateAttr.map be64).flatten ++
    (be32 3 ++ be32 (XAT0_IMMUTABLE ||| XAT0_CREATETIME) ++ be32 0 ++ be32 0
      ++ be64 (XAT0_IMMUTABLE ||| XAT0_HIDDEN) ++ be64 5 ++ be64 6 ++ List.replicate 32 7)
    ++ [97, 0]

/-- The type codes of the create records that carry an attribute block, as
the swap path of `zfs_replay_create` tests them (line 428). -/
def createHasAttrs (buf : Buf) : Bool :=
  decide (int_cast (lrc_txtype buf) = TX_CREATE_ATTR ∨
    int_cast (lrc_txtype buf) = TX_MKDIR_ATTR)

/-- The test of the swap path of `zfs_replay_setattr` for an attribute block
(lines 742-743). -/
def setattrHasAttrs (z_version : Nat) (buf : Buf) : Bool :=
  decide (lr_setattr_t.lr_mask buf &&& AT_XVATTR ≠ 0 ∧ z_version ≥ ZPL_VERSION_INITIAL)

/-- The primitives a handler ran, in order. -/
def primitives (w : World σ) (r : Ret σ) : List Call :=
  (newCalls w r).filter Call.isPrimitive

/-- The flags argument the handlers build from the type code (lines 454-455):
`FIGNORECASE` when the `TX_CI` bit is set, else 0. -/
def ciFlag (lr : Buf) : Nat :=
  if lrc_txtype lr &&& TX_CI ≠ 0 then 0 ||| FIGNORECASE else 0

/-- The identity context of a create record without attributes and the cursor
behind its domain table (lines 466-469). -/
def plainContext (lr : Buf) : zfs_fuid_info × Option Nat :=
  zfs_replay_fuid_domain lr sizeof_lr_create_t (some sizeof_lr_create_t)
    (lr_create_t.lr_uid lr) (lr_create_t.lr_gid lr)

/-- The context `w` after an identity context was allocated and put into the
slot. -/
def withContext (w : World σ) (ctx : zfs_fuid_info) : World σ :=
  { note w .zfs_fuid_info_alloc with z_fuid_replay := some ctx }

/-- The context in which `zfs_replay_create` calls the primitive of a plain
create or mkdir record: both lookups are done and the identity context of the
record is in the slot. -/
def createCallWorld (env : Env σ) (w : World σ) (lr : Buf) : World σ :=
  withContext (createTargetProbe env w lr).2 (plainContext lr).1

/-- The calls of the exit path of `zfs_replay_create` and
`zfs_replay_create_acl`: the release of the new vnode after a successful
primitive, the release of the parent, the release of the identity context. -/
def exitCalls (dzp : Nat) (status : Nat) (vp : Bool) (slot : Option zfs_fuid_info) :
    List Call :=
  (if status = 0 ∧ vp = true then [Call.VN_RELE_vp] else []) ++ [Call.VN_RELE dzp]
    ++ freeSlot slot

/-- A remove record whose type code carries the case-insensitive bit:
`TX_REMOVE | TX_CI`, parent 7, name `"a"`. -/
def recRemoveCI : Buf :=
  mkRecord [9223372036854775813, 0, 0, 0, 7] [97, 0]

/-- A mkdir record whose type code carries the case-insensitive bit:
`TX_MKDIR | TX_CI`, parent 7, target 9, mode `040755`, name `"a"`. -/
def recMkdirCI : Buf :=
  mkRecord [9223372036854775810, 0, 0, 0, 7, 9, 0o40755, 0, 0, 0, 0, 0, 0] [97, 0]

/-- The handlers of the file. -/
inductive FileHandler where
  | create
  | create_acl
  | remove
  | link
  | rename
  | write
  | truncate
  | setattr
  | acl_v0
  | acl
  deriving DecidableEq, Repr

/-- Run a handler of the file. -/
def FileHandler.run (b : Build) (env : Env σ) (w : World σ) (buf : Buf) (byteswap : Bool) :
    FileHandler → Ret σ
  | .create => zfs_replay_create b env w buf byteswap
  | .create_acl => zfs_replay_create_acl b env w buf byteswap
  | .remove => zfs_replay_remove env w buf byteswap
  | .link => zfs_replay_link env w buf byteswap
  | .rename => zfs_replay_rename env w buf byteswap
  | .write => zfs_replay_write b env w buf byteswap
  | .truncate => zfs_replay_truncate env w buf byteswap
  | .setattr => zfs_replay_setattr b env w buf byteswap
  | .acl_v0 => zfs_replay_acl_v0 env w buf byteswap
  | .acl => zfs_replay_acl env w buf byteswap

/-- The allocation of an identity context. -/
def Call.isAlloc : Call → Bool
  | .zfs_fuid_info_alloc => true
  | _ => false

/-- The release of an identity context. -/
def Call.isFree : Call → Bool
  | .zfs_fuid_info_free _ => true
  | _ => false

/-- The number of identity contexts allocated by the calls `l`. -/
def allocs (l : List Call) : Nat := (l.filter Call.isAlloc).length

/-- The number of identity contexts released by the calls `l`. -/
def frees (l : List Call) : Nat := (l.filter Call.isFree).length

/-- The identity context did not outlive the handler call: the slot is empty,
and the call released as many contexts as it allocated, at most one. -/
def ContextReleased (w : World σ) (r : Ret σ) : Prop :=
  r.world.z_fuid_replay = none ∧
    allocs (newCalls w r) = frees (newCalls w r) ∧
    allocs (newCalls w r) ≤ 1

/-- A point inside a handler call that started in `w`: the calls made so far
released no identity context, and allocated one exactly if the slot is
occupied. -/
def Armed (w w' : World σ) : Prop :=
  ∃ pre, w'.trace = w.trace ++ pre ∧ frees pre = 0 ∧
    allocs pre = (if w'.z_fuid_replay.isSome then 1 else 0)

/-- The create-with-ACL record as `zfs_replay_create_acl` reads it. -/
def createAclRecord (env : Env σ) (buf : Buf) (byteswap : Bool) : Buf :=
  if byteswap then (zfs_replay_create_acl_swap env buf).1 else buf

/-- A create-with-ACL record (`TX_CREATE_ACL`): parent 7, target 9, mode
`0100644`, no entries, no identities, no domains, name `"a"`. -/
def recCreateAcl : Buf :=
  mkRecord [14, 0, 0, 0, 7, 9, 0o100644, 0, 0, 0, 0, 0, 0, 0, 0, 0, 0, 0] [97, 0]

/-- The statuses of the calls a handler made, in the order of `newCalls`. -/
def newReplies (w : World σ) (r : Ret σ) : List Nat :=
  r.world.replies.drop w.replies.length

/-- The calls a handler made, each with the status it returned. -/
def newLog (w : World σ) (r : Ret σ) : List (Call × Nat) :=
  (newCalls w r).zip (newReplies w r)

/-- The object references held after one more call: a successful `zfs_zget`
takes a reference to its object, `VN_RELE` gives one back, and giving back a
reference that is not held is an error (`none`). -/
def holdStep (held : Option (List Nat)) (p : Call × Nat) : Option (List Nat) :=
  match held with
  | none => none
  | some l =>
    match p.1 with
    | .zfs_zget obj => if p.2 = 0 then some (obj :: l) else some l
    | .VN_RELE obj => if obj ∈ l then some (l.erase obj) else none
    | _ => some l

/-- The object references held after the calls `log`, starting with none. -/
def heldAfter (log : List (Call × Nat)) : Option (List Nat) :=
  log.foldl holdStep (some [])

/-- Every reference a handler call obtained by a successful lookup was
released exactly once, and no other reference was released. -/
def ReferencesBalanced (w : World σ) (r : Ret σ) : Prop :=
  heldAfter (newLog w r) = some []

/-- A point inside a handler call that started in `w`: the calls made so far
left the references `held`. -/
def Holding (w w' : World σ) (held : List Nat) : Prop :=
  ∃ pre rep, w'.trace = w.trace ++ pre ∧ w'.replies = w.replies ++ rep ∧
    pre.length = rep.length ∧ heldAfter (pre.zip rep) = some held

/-- The calls that take or give back an object reference obtained by a
lookup. -/
def Call.isHoldOp : Call → Bool
  | .zfs_zget _ => true
  | .VN_RELE _ => true
  | _ => false

/-- A rename record (`TX_RENAME`) inside one directory: source parent and
target parent 7, source name `"a"`, target name `"b"`. -/
def recRenameSame : Buf :=
  mkRecord [8, 0, 0, 0, 7, 7] [97, 0, 98, 0]

/-- The number of distinct non-zero values among the domain indices of `uid`
and `gid`, as the spec words the domain count. -/
def distinctNonzeroIndices (uid gid : Nat) : Nat :=
  (([FUID_INDEX uid, FUID_INDEX gid].filter (fun i => decide (i ≠ 0))).dedup).length

/-- The domain count as the spec words it for the compact form, for a
predicate `eph` that tells the ephemeral identities: 1 if the owner is
ephemeral, plus 1 if the group is ephemeral with a domain index different from
the owner's. -/
def countByEphemerality (eph : Nat → Bool) (uid gid : Nat) : Nat :=
  (if eph uid then 1 else 0)
    + (if eph gid ∧ FUID_INDEX gid ≠ FUID_INDEX uid then 1 else 0)

/-- The end of the part of the attribute block at `lrattr` that
`zfs_replay_swap_attrs` converts: the first `8 + 4 * (m - 1) + 24` bytes, `m`
being the word count of the block and `m - 1` the arithmetic on a `uint32_t`. -/
def attrSwapEnd (lr : Buf) (lrattr : Nat) : Nat :=
  lrattr + (8 + 4 * u32_pred (rd32 lr lrattr) + 24)

/-- The end of the part of a create record that its handler converts: the
fixed part and, for the type codes with attributes, the head of the block. -/
def createSwapEnd (lr : Buf) : Nat :=
  if createHasAttrs lr then attrSwapEnd lr sizeof_lr_create_t else sizeof_lr_create_t

/-- The end of the part of a setattr record that its handler converts. -/
def setattrSwapEnd (z_version : Nat) (lr : Buf) : Nat :=
  if setattrHasAttrs z_version lr then attrSwapEnd lr sizeof_lr_setattr_t
  else sizeof_lr_setattr_t

/-- The type codes of the create-with-ACL records that carry an attribute
block, as the swap path of `zfs_replay_create_acl` tests them (lines 285-286). -/
def createAclHasAttrs (buf : Buf) : Bool :=
  decide (int_cast (lrc_txtype buf) = TX_CREATE_ACL_ATTR ∨
    int_cast (lrc_txtype buf) = TX_MKDIR_ACL_ATTR)

/-- The end of the leading part of a create-with-ACL record that its handler
converts with the fixed part: the fixed part and the head of the attribute
block, if there is one. -/
def createAclHeadEnd (lr : Buf) : Nat :=
  if createAclHasAttrs lr then attrSwapEnd lr sizeof_lr_acl_create_t
  else sizeof_lr_acl_create_t

/-- The offset `aclstart` of the entry array of a create-with-ACL record
(line 292). -/
def createAclStart (lr : Buf) : Nat :=
  sizeof_lr_acl_create_t +
    (if createAclHasAttrs lr then ZIL_XVAT_SIZE (rd32 lr sizeof_lr_acl_create_t) else 0)

/-- The end of the list of identity values of a create-with-ACL record, which
follows the entry array (lines 296-298). -/
def createAclSwapEnd (lr : Buf) : Nat :=
  createAclStart lr + ZIL_ACE_LENGTH (lr_acl_create_t.lr_acl_bytes lr)
    + lr_acl_create_t.lr_fuidcnt lr * 8 % 18446744073709551616

/-- The end of the list of identity values of an ACL record, which follows the
entry array (lines 856-858). -/
def aclSwapEnd (lr : Buf) : Nat :=
  sizeof_lr_acl_t + ZIL_ACE_LENGTH (lr_acl_t.lr_acl_bytes lr)
    + lr_acl_t.lr_fuidcnt lr * 8 % 18446744073709551616

/-- The conversion of the entry array, a function of `zfs_acl.c`, stays inside
the entry array: it keeps the length of the record and every byte outside
`[start, start + ZIL_ACE_LENGTH(n))`. -/
def AceSwapConfined (env : Env σ) : Prop :=
  ∀ (buf : Buf) (start n : Nat),
    (env.zfs_ace_byteswap buf start n).length = buf.length ∧
      ∀ i, i < start ∨ start + ZIL_ACE_LENGTH n ≤ i →
        (env.zfs_ace_byteswap buf start n).getD i 0 = buf.getD i 0

/-- An ACL record (`TX_ACL`) of a writer of the other byte order: target 42,
no entries, one identity value, whose eight bytes are `1, ..., 8`. -/
def recAclFuid : Buf :=
  ([13, 0, 0, 0, 42, 0, 0, 1, 0, 0].map be64).flatten ++ [1, 2, 3, 4, 5, 6, 7, 8]

/-- Lines 292-299 of `zfs_replay_create_acl`: the conversion of the entry
array at `aclstart` and of the identity values behind it. -/
def zfs_replay_create_acl_swap_acl (env : Env σ) (buf : Buf) (aclstart : Nat) : Buf :=
  let buf := env.zfs_ace_byteswap buf aclstart (lr_acl_create_t.lr_acl_bytes buf)
  if lr_acl_create_t.lr_fuidcnt buf ≠ 0 then
    byteswap_uint64_array buf
      (aclstart + ZIL_ACE_LENGTH (lr_acl_create_t.lr_acl_bytes buf))
      (lr_acl_create_t.lr_fuidcnt buf * 8 % 18446744073709551616)
  else buf

/-- The statuses the object store returned for the primitives a handler ran,
in order. -/
def primitiveStatuses (w : World σ) (r : Ret σ) : List Nat :=
  ((newLog w r).filter (fun p => p.1.isPrimitive)).map Prod.snd

/-- A handler call that ran exactly one primitive and returned the status of
that primitive, unmodified. -/
def PassedThrough (w : World σ) (r : Ret σ) : Prop :=
  ∃ s, primitiveStatuses w r = [s] ∧ r.error = some s

/-- A handler call whose target lookup failed with the status `e`: no
primitive ran, and the call returned `e`, except that `ENOENT` is returned as
success. -/
def LookupFailed (w : World σ) (r : Ret σ) (e : Nat) : Prop :=
  primitiveStatuses w r = [] ∧ r.error = some (if e = ENOENT then 0 else e)

/-- An object store on a full pool: every lookup and every release succeeds,
every other call fails with the status 28 (`ENOSPC`). -/
def fullStore : Env (List Nat) where
  ext := fun store _ _ c =>
    match c with
    | .zfs_zget _ => ⟨0, false, store⟩
    | .VN_RELE _ => ⟨0, false, store⟩
    | _ => ⟨28, false, store⟩
  zfs_cmpldev := id
  zfs_ace_byteswap := fun buf _ _ => buf
  zfs_oldace_byteswap := fun buf _ _ => buf
  zfs_fuid_info_free_null := false

/-- An object store whose lookups fail with the status 5 (`EIO`). -/
def brokenStore : Env (List Nat) where
  ext := fun store _ _ c =>
    match c with
    | .zfs_zget _ => ⟨5, false, store⟩
    | _ => ⟨0, false, store⟩
  zfs_cmpldev := id
  zfs_ace_byteswap := fun buf _ _ => buf
  zfs_oldace_byteswap := fun buf _ _ => buf
  zfs_fuid_info_free_null := false

/-- Lines 283-293 of `zfs_replay_create_acl`, the swap path up to the
conversion of the entry array: the record after that conversion, and the
offset `aclstart` at which the entry array was converted. -/
def zfs_replay_create_acl_swap_aces (env : Env σ) (buf : Buf) : Buf × Nat :=
  let xvatlen := 0
  let buf := byteswap_uint64_array buf 0 sizeof_lr_acl_create_t
  let txtype := int_cast (lrc_txtype buf)
  let bx : Buf × Nat :=
    if txtype = TX_CREATE_ACL_ATTR ∨ txtype = TX_MKDIR_ACL_ATTR then
      let lrattr := sizeof_lr_acl_create_t
      let buf := zfs_replay_swap_attrs buf lrattr
      (buf, ZIL_XVAT_SIZE (rd32 buf lrattr))
    else (buf, xvatlen)
  let buf := bx.1
  let xvatlen := bx.2
  let aclstart := sizeof_lr_acl_create_t + xvatlen
  (env.zfs_ace_byteswap buf aclstart (lr_acl_create_t.lr_acl_bytes buf), aclstart)

/-- The offset at which the swap path of `zfs_replay_create_acl` converts the
identity values (lines 296-297):
`(caddr_t)aclstart + ZIL_ACE_LENGTH(lracl->lr_acl_bytes)`. -/
def createAclSwapFuidStart (env : Env σ) (buf : Buf) : Nat :=
  (zfs_replay_create_acl_swap_aces env buf).2
    + ZIL_ACE_LENGTH (lr_acl_create_t.lr_acl_bytes (zfs_replay_create_acl_swap_aces env buf).1)

/-- The four kinds of create-with-ACL records. -/
def isCreateAclKind (lr : Buf) : Bool :=
  decide (int_cast (lrc_txtype lr) = TX_CREATE_ACL ∨
    int_cast (lrc_txtype lr) = TX_CREATE_ACL_ATTR ∨
    int_cast (lrc_txtype lr) = TX_MKDIR_ACL ∨
    int_cast (lrc_txtype lr) = TX_MKDIR_ACL_ATTR)

/-- The entry-array argument `vsa_aclentp` of a call that takes a `vsecattr_t`. -/
def Call.aclEntries : Call → Option (Option Nat)
  | .VOP_CREATE _ _ _ _ (some vsec) => some vsec.vsa_aclentp
  | .VOP_MKDIR _ _ _ _ (some vsec) => some vsec.vsa_aclentp
  | .VOP_SETSECATTR _ vsa => some vsa.vsa_aclentp
  | _ => none

/-- The explicit-list identity decode of a create-with-ACL record started at
`fuidstart`: the context and the cursor it returns. -/
def createAclIdentities (lr : Buf) (fuidstart : Nat) : zfs_fuid_info × Nat :=
  zfs_replay_fuids lr fuidstart
    (int_cast (lr_acl_create_t.lr_fuidcnt lr)).toNat
    (int_cast (lr_acl_create_t.lr_domcnt lr)).toNat
    (lr_create_t.lr_uid lr) (lr_create_t.lr_gid lr)

/-- A create-with-ACL record with attributes (`TX_CREATE_ACL_ATTR`) of a writer
of the other byte order: parent 7, target 9, mode `0100644`, one entry of
eight bytes, one identity value, one domain; the attribute block of three
bitmap words, the entry array, the identity value, the domain `"d"` and the
name `"a"` follow the fixed part. -/
def recCreateAclAttrForeign : Buf :=
  ([16, 0, 0, 0, 7, 9, 0o100644, 0, 0, 0, 0, 0, 0, 1, 1, 1, 8, 0].map be64).flatten ++
    (be32 3 ++ be32 (XAT0_IMMUTABLE ||| XAT0_CREATETIME) ++ be32 0 ++ be32 0
      ++ be64 (XAT0_IMMUTABLE ||| XAT0_HIDDEN) ++ be64 5 ++ be64 6 ++ List.replicate 32 7)
    ++ [1, 2, 3, 4, 5, 6, 7, 8] ++ be64 4294967301 ++ [100, 0] ++ [97, 0]

/-- The primitive of a create-with-ACL record: `VOP_MKDIR` for the mkdir
kinds, `VOP_CREATE` for the others. -/
def createAclPrimitive (mkdir : Bool) (dzp : Nat) (name : Option Nat) (xva : xvattr)
    (vflg : Nat) (vsec : vsecattr) : Call :=
  if mkdir = true then .VOP_MKDIR dzp name xva vflg (some vsec)
  else .VOP_CREATE dzp name xva vflg (some vsec)

/-! ## Theorems -/

/-- C1, as stated, fails: in a store where the target id 9 is occupied but the
parent 7 is not, replaying the create record returns `ENOENT`, not success. -/
theorem create_existing_target_missing_parent :
    (listStore.ext [9] recCreate none
        (.dmu_object_info (lr_create_t.lr_foid recCreate))).status = 0 ∧
      (zfs_replay_create portBuild listStore (listWorld [9]) recCreate false).error
        = some ENOENT ∧
      (zfs_replay_create portBuild listStore (listWorld [9]) recCreate false).error
        ≠ some 0 := by
  decide

/-- C1, amended: for every create-family record, swap flag and state in which
the parent lookup succeeds and an object already occupies the target id,
`zfs_replay_create` returns success; the only calls it makes are the two
lookups, the release of the parent and the release of the identity context
that was in the slot, so no create, mkdir, symlink or make-xattrdir primitive
is invoked, and the slot is left empty. -/
theorem create_idempotent (b : Build) (env : Env σ) (w : World σ) (buf : Buf)
    (byteswap : Bool)
    (hparent : (createParentLookup env w (createRecord buf byteswap)).1.status = 0)
    (htarget : (createTargetProbe env w (createRecord buf byteswap)).1.status = 0) :
    (zfs_replay_create b env w buf byteswap).error = some 0 ∧
      newCalls w (zfs_replay_create b env w buf byteswap) =
        [ .zfs_zget (lr_create_t.lr_doid (createRecord buf byteswap)),
          .dmu_object_info (lr_create_t.lr_foid (createRecord buf byteswap)),
          .VN_RELE (lr_create_t.lr_doid (createRecord buf byteswap)) ]
          ++ freeSlot w.z_fuid_replay ∧
      (∀ c ∈ newCalls w (zfs_replay_create b env w buf byteswap), c.isPrimitive = false) ∧
      (zfs_replay_create b env w buf byteswap).world.z_fuid_replay = none := by
  have e : zfs_replay_create b env w buf byteswap =
      zfs_replay_create_out env (createTargetProbe env w (createRecord buf byteswap)).2
        (createRecord buf byteswap) (lr_create_t.lr_doid (createRecord buf byteswap))
        0 false := by
    unfold createParentLookup at hparent
    unfold createTargetProbe createParentLookup at htarget
    simp only [zfs_replay_create, createRecord, createTargetProbe, createParentLookup] at *
    simp [hparent, htarget, ENOENT]
  have hcalls : newCalls w (zfs_replay_create b env w buf byteswap) =
      [ .zfs_zget (lr_create_t.lr_doid (createRecord buf byteswap)),
        .dmu_object_info (lr_create_t.lr_foid (createRecord buf byteswap)),
        .VN_RELE (lr_create_t.lr_doid (createRecord buf byteswap)) ]
        ++ freeSlot w.z_fuid_replay := by
    rw [e]
    simp only [zfs_replay_create_out, newCalls, createTargetProbe, createParentLookup, call,
      note, freeSlot]
    cases h : w.z_fuid_replay <;> simp
  refine ⟨?_, hcalls, ?_, ?_⟩
  · rw [e]; rfl
  · intro c hc
    rw [hcalls] at hc
    cases h : w.z_fuid_replay <;> simp [h, freeSlot] at hc <;>
      rcases hc with hc | hc | hc <;> try (subst hc; rfl)
    rcases hc with hc | hc <;> subst hc <;> rfl
  · rw [e]; rfl

/-- A concrete instance of `create_idempotent`: parent 7 and target 9 both
exist. -/
theorem create_idempotent_witness :
    (zfs_replay_create portBuild listStore (listWorld [7, 9]) recCreate false).error
        = some 0 ∧
      (zfs_replay_create portBuild listStore (listWorld [7, 9]) recCreate false).world.z_fuid_replay
        = none :=
  have h := create_idempotent portBuild listStore (listWorld [7, 9]) recCreate false
    (by decide) (by decide)
  ⟨h.1, h.2.2.2⟩

/-- A call whose only new call is the lookup of `obj`, that returns success
and keeps the slot, is a dropped record. -/
theorem dropped_of_calls (w : World σ) (r : Ret σ) (obj : Nat)
    (h1 : r.error = some 0) (h2 : newCalls w r = [.zfs_zget obj])
    (h3 : r.world.z_fuid_replay = w.z_fuid_replay) : DroppedRecord w r obj := by
  refine ⟨h1, h2, ?_, h3⟩
  intro c hc
  rw [h2] at hc
  simp at hc
  subst hc
  exact ⟨rfl, rfl⟩

/-- C2: out-of-order tolerance.  For a write, truncate, setattr, version-0 ACL
and ACL record, with either swap flag: if the lookup of the target id
(`zfs_zget` on `lr_foid`) reports `ENOENT`, the handler returns success, the
lookup is the only call it makes (no write, free-range, set-attribute or
set-ACL primitive, no release of a reference), and `z_fuid_replay` is what it
was. -/
theorem missing_target_is_dropped (b : Build) (env : Env σ) (w : World σ) (buf : Buf)
    (byteswap : Bool) :
    (lookupStatus env w (writeRecord buf byteswap)
        (lr_write_t.lr_foid (writeRecord buf byteswap)) = ENOENT →
      DroppedRecord w (zfs_replay_write b env w buf byteswap)
        (lr_write_t.lr_foid (writeRecord buf byteswap))) ∧
    (lookupStatus env w (truncateRecord buf byteswap)
        (lr_truncate_t.lr_foid (truncateRecord buf byteswap)) = ENOENT →
      DroppedRecord w (zfs_replay_truncate env w buf byteswap)
        (lr_truncate_t.lr_foid (truncateRecord buf byteswap))) ∧
    (lookupStatus env w (setattrRecord w.z_version buf byteswap)
        (lr_setattr_t.lr_foid (setattrRecord w.z_version buf byteswap)) = ENOENT →
      DroppedRecord w (zfs_replay_setattr b env w buf byteswap)
        (lr_setattr_t.lr_foid (setattrRecord w.z_version buf byteswap))) ∧
    (lookupStatus env w (aclV0Record env buf byteswap)
        (lr_acl_v0_t.lr_foid (aclV0Record env buf byteswap)) = ENOENT →
      DroppedRecord w (zfs_replay_acl_v0 env w buf byteswap)
        (lr_acl_v0_t.lr_foid (aclV0Record env buf byteswap))) ∧
    (lookupStatus env w (aclRecord env buf byteswap)
        (lr_acl_t.lr_foid (aclRecord env buf byteswap)) = ENOENT →
      DroppedRecord w (zfs_replay_acl env w buf byteswap)
        (lr_acl_t.lr_foid (aclRecord env buf byteswap))) := by
  refine ⟨?_, ?_, ?_, ?_, ?_⟩
  · intro h
    simp only [lookupStatus, call, writeRecord] at h
    apply dropped_of_calls <;>
      simp [zfs_replay_write, writeRecord, h, ENOENT, newCalls, call]
  · intro h
    simp only [lookupStatus, call, truncateRecord] at h
    apply dropped_of_calls <;>
      simp [zfs_replay_truncate, truncateRecord, h, ENOENT, newCalls, call]
  · intro h
    simp only [lookupStatus, call, setattrRecord] at h
    apply dropped_of_calls <;>
      simp [zfs_replay_setattr, setattrRecord, h, ENOENT, newCalls, call]
  · intro h
    simp only [lookupStatus, call, aclV0Record] at h
    apply dropped_of_calls <;>
      simp [zfs_replay_acl_v0, aclV0Record, h, ENOENT, newCalls, call]
  · intro h
    simp only [lookupStatus, call, aclRecord] at h
    apply dropped_of_calls <;>
      simp [zfs_replay_acl, aclRecord, h, ENOENT, newCalls, call]

/-- Concrete instances of `missing_target_is_dropped`: object 42 is absent
from the store, and each of the five records names it as target. -/
theorem missing_target_is_dropped_witness :
    DroppedRecord (listWorld [7])
        (zfs_replay_write portBuild listStore (listWorld [7]) recWrite false) 42 ∧
      DroppedRecord (listWorld [7])
        (zfs_replay_truncate listStore (listWorld [7]) recTruncate false) 42 ∧
      DroppedRecord (listWorld [7])
        (zfs_replay_setattr portBuild listStore (listWorld [7]) recSetattr false) 42 ∧
      DroppedRecord (listWorld [7])
        (zfs_replay_acl_v0 listStore (listWorld [7]) recAclV0 false) 42 ∧
      DroppedRecord (listWorld [7])
        (zfs_replay_acl listStore (listWorld [7]) recAcl false) 42 :=
  ⟨(missing_target_is_dropped portBuild listStore (listWorld [7]) recWrite false).1
      (by decide),
    (missing_target_is_dropped portBuild listStore (listWorld [7]) recTruncate false).2.1
      (by decide),
    (missing_target_is_dropped portBuild listStore (listWorld [7]) recSetattr false).2.2.1
      (by decide),
    (missing_target_is_dropped portBuild listStore (listWorld [7]) recAclV0 false).2.2.2.1
      (by decide),
    (missing_target_is_dropped portBuild listStore (listWorld [7]) recAcl false).2.2.2.2
      (by decide)⟩

/-- C10: hard lookup failure.  For a create-family, remove or rmdir, link and
rename record, with either swap flag: if the lookup of the parent (`lr_doid`,
`lr_sdoid`), or for link the lookup of the object (`lr_link_obj`), or for
rename the lookup of the target parent (`lr_tdoid`), fails with status
`e ≠ 0`, the handler returns exactly `e`, runs no primitive, and leaves
`z_fuid_replay` as it was. -/
theorem lookup_failure_is_returned (b : Build) (env : Env σ) (w : World σ) (buf : Buf)
    (byteswap : Bool) (e : Nat) (he : e ≠ 0) :
    (lookupStatus env w (createRecord buf byteswap)
        (lr_create_t.lr_doid (createRecord buf byteswap)) = e →
      FailedLookup w (zfs_replay_create b env w buf byteswap) e) ∧
    (lookupStatus env w (removeRecord buf byteswap)
        (lr_remove_t.lr_doid (removeRecord buf byteswap)) = e →
      FailedLookup w (zfs_replay_remove env w buf byteswap) e) ∧
    (lookupStatus env w (linkRecord buf byteswap)
        (lr_link_t.lr_doid (linkRecord buf byteswap)) = e →
      FailedLookup w (zfs_replay_link env w buf byteswap) e) ∧
    (lookupStatus env w (linkRecord buf byteswap)
        (lr_link_t.lr_doid (linkRecord buf byteswap)) = 0 →
      lookupStatus env
        (afterLookup env w (linkRecord buf byteswap)
          (lr_link_t.lr_doid (linkRecord buf byteswap)))
        (linkRecord buf byteswap) (lr_link_t.lr_link_obj (linkRecord buf byteswap)) = e →
      FailedLookup w (zfs_replay_link env w buf byteswap) e) ∧
    (lookupStatus env w (renameRecord buf byteswap)
        (lr_rename_t.lr_sdoid (renameRecord buf byteswap)) = e →
      FailedLookup w (zfs_replay_rename env w buf byteswap) e) ∧
    (lookupStatus env w (renameRecord buf byteswap)
        (lr_rename_t.lr_sdoid (renameRecord buf byteswap)) = 0 →
      lookupStatus env
        (afterLookup env w (renameRecord buf byteswap)
          (lr_rename_t.lr_sdoid (renameRecord buf byteswap)))
        (renameRecord buf byteswap) (lr_rename_t.lr_tdoid (renameRecord buf byteswap)) = e →
      FailedLookup w (zfs_replay_rename env w buf byteswap) e) := by
  refine ⟨?_, ?_, ?_, ?_, ?_, ?_⟩
  · intro h
    simp only [lookupStatus, call, createRecord] at h
    simp [FailedLookup, zfs_replay_create, createRecord, h, he, newCalls, call, Call.isPrimitive]
  · intro h
    simp only [lookupStatus, call, removeRecord] at h
    simp [FailedLookup, zfs_replay_remove, removeRecord, h, he, newCalls, call, Call.isPrimitive]
  · intro h
    simp only [lookupStatus, call, linkRecord] at h
    simp [FailedLookup, zfs_replay_link, linkRecord, h, he, newCalls, call, Call.isPrimitive]
  · intro h0 h
    simp only [lookupStatus, afterLookup, call, linkRecord] at h0 h
    simp [FailedLookup, zfs_replay_link, linkRecord, h0, h, he, newCalls, call, Call.isPrimitive]
  · intro h
    simp only [lookupStatus, call, renameRecord] at h
    simp [FailedLookup, zfs_replay_rename, renameRecord, h, he, newCalls, call,
      Call.isPrimitive]
  · intro h0 h
    simp only [lookupStatus, afterLookup, call, renameRecord] at h0 h
    simp [FailedLookup, zfs_replay_rename, renameRecord, h0, h, he, newCalls, call,
      Call.isPrimitive]

/-- Concrete instances of `lookup_failure_is_returned`: the store holds
object 7 only, or nothing at all, and the failing lookup reports `ENOENT`. -/
theorem lookup_failure_is_returned_witness :
    FailedLookup (listWorld [])
        (zfs_replay_create portBuild listStore (listWorld []) recCreate false) ENOENT ∧
      FailedLookup (listWorld [])
        (zfs_replay_remove listStore (listWorld []) recRemove false) ENOENT ∧
      FailedLookup (listWorld [])
        (zfs_replay_link listStore (listWorld []) recLink false) ENOENT ∧
      FailedLookup (listWorld [7])
        (zfs_replay_link listStore (listWorld [7]) recLink false) ENOENT ∧
      FailedLookup (listWorld [])
        (zfs_replay_rename listStore (listWorld []) recRename false) ENOENT ∧
      FailedLookup (listWorld [7])
        (zfs_replay_rename listStore (listWorld [7]) recRename false) ENOENT :=
  ⟨(lookup_failure_is_returned portBuild listStore (listWorld []) recCreate false ENOENT
      (by decide)).1 (by decide),
    (lookup_failure_is_returned portBuild listStore (listWorld []) recRemove false ENOENT
      (by decide)).2.1 (by decide),
    (lookup_failure_is_returned portBuild listStore (listWorld []) recLink false ENOENT
      (by decide)).2.2.1 (by decide),
    (lookup_failure_is_returned portBuild listStore (listWorld [7]) recLink false ENOENT
      (by decide)).2.2.2.1 (by decide) (by decide),
    (lookup_failure_is_returned portBuild listStore (listWorld []) recRename false ENOENT
      (by decide)).2.2.2.2.1 (by decide),
    (lookup_failure_is_returned portBuild listStore (listWorld [7]) recRename false ENOENT
      (by decide)).2.2.2.2.2 (by decide) (by decide)⟩

/-- `strlen` and `cstr` only look at the bytes from the cursor on. -/
theorem strlen_append_left (pre l : List Nat) :
    strlen (pre ++ l) pre.length = strlen l 0 := by
  simp [strlen]

/-- The same for `cstr`. -/
theorem cstr_append_left (pre l : List Nat) :
    cstr (pre ++ l) pre.length = cstr l 0 := by
  simp [cstr]

/-- A NUL-free string followed by a NUL is read back whole. -/
theorem cstr_string (s rest : List Nat) (hs : ∀ b ∈ s, b % 256 ≠ 0) :
    cstr (s ++ 0 :: rest) 0 = s := by
  induction s with
  | nil => simp [cstr]
  | cons a t ih =>
    have ha : a % 256 ≠ 0 := hs a (by simp)
    have ht : ∀ b ∈ t, b % 256 ≠ 0 := fun b hb => hs b (by simp [hb])
    have := ih ht
    simp only [cstr, List.drop_zero] at this ⊢
    simp only [List.cons_append, List.takeWhile_cons]
    rw [if_pos (by simpa using ha), this]

/-- `strlen` is the length of `cstr`. -/
theorem strlen_eq_cstr_length (buf : Buf) (p : Nat) : strlen buf p = (cstr buf p).length := rfl

/-- The length of a NUL-free string followed by a NUL. -/
theorem strlen_string (s rest : List Nat) (hs : ∀ b ∈ s, b % 256 ≠ 0) :
    strlen (s ++ 0 :: rest) 0 = s.length := by
  rw [strlen_eq_cstr_length, cstr_string s rest hs]

/-- The loop of `zfs_replay_fuid_domain_common` fills the next `n` slots with
the starts of the next `n` strings and ends after them. -/
theorem fuid_domain_loop_spec (buf : Buf) (n : Nat) :
    ∀ (done : List (Option Nat)) (start : Nat),
      fuid_domain_loop buf n done.length (done ++ List.replicate n none) start =
        (done ++ (stringStarts buf n start).map some, stringsEnd buf n start) := by
  induction n with
  | zero => intro done start; simp [fuid_domain_loop, stringStarts, stringsEnd]
  | succ k ih =>
    intro done start
    have h := ih (done ++ [some start]) (start + strlen buf start + 1)
    simp only [List.length_append, List.length_singleton] at h
    simp only [fuid_domain_loop, stringStarts, stringsEnd]
    have e : (done ++ List.replicate (k + 1) none).set done.length (some start)
        = done ++ [some start] ++ List.replicate k none := by
      simp [List.replicate_succ, List.set_append_right]
    rw [e, h]
    simp

/-- In a buffer that holds a string table at `pre.length`, the string starts
are the offsets of the table and the strings end where the table ends. -/
theorem stringStarts_packed (strs : List (List Nat)) (hz : ∀ s ∈ strs, ∀ b ∈ s, b % 256 ≠ 0) :
    ∀ (pre rest : List Nat),
      stringStarts (pre ++ packStrings strs ++ rest) strs.length pre.length
          = packedOffsets pre.length strs ∧
        stringsEnd (pre ++ packStrings strs ++ rest) strs.length pre.length
          = pre.length + packedLength strs := by
  induction strs with
  | nil => intro pre rest; simp [stringStarts, stringsEnd, packedOffsets, packedLength]
  | cons s ss ih =>
    intro pre rest
    have hs : ∀ b ∈ s, b % 256 ≠ 0 := hz s (by simp)
    have hss : ∀ t ∈ ss, ∀ b ∈ t, b % 256 ≠ 0 := fun t ht => hz t (by simp [ht])
    have hlen : strlen (pre ++ packStrings (s :: ss) ++ rest) pre.length = s.length := by
      have : pre ++ packStrings (s :: ss) ++ rest
          = pre ++ (s ++ 0 :: (packStrings ss ++ rest)) := by
        simp [packStrings]
      rw [this, strlen_append_left, strlen_string s _ hs]
    have hbuf : pre ++ packStrings (s :: ss) ++ rest
        = (pre ++ s ++ [0]) ++ packStrings ss ++ rest := by
      simp [packStrings]
    have h := ih hss (pre ++ s ++ [0]) rest
    simp only [List.length_append, List.length_singleton] at h
    simp only [List.length_cons, stringStarts, stringsEnd, packedOffsets, hlen]
    rw [hbuf]
    refine ⟨?_, ?_⟩
    · rw [h.1]
    · rw [h.2]; simp [packedLength]; omega

/-- In a buffer that holds a string table at `pre.length`, the string at the
`i`-th offset of the table is the `i`-th string. -/
theorem cstr_packed (strs : List (List Nat)) (hz : ∀ s ∈ strs, ∀ b ∈ s, b % 256 ≠ 0) :
    ∀ (pre rest : List Nat) (i : Nat), i < strs.length →
      cstr (pre ++ packStrings strs ++ rest) ((packedOffsets pre.length strs).getD i 0)
        = strs.getD i [] := by
  induction strs with
  | nil => intro pre rest i hi; simp at hi
  | cons s ss ih =>
    intro pre rest i hi
    have hs : ∀ b ∈ s, b % 256 ≠ 0 := hz s (by simp)
    have hss : ∀ t ∈ ss, ∀ b ∈ t, b % 256 ≠ 0 := fun t ht => hz t (by simp [ht])
    cases i with
    | zero =>
      have : pre ++ packStrings (s :: ss) ++ rest
          = pre ++ (s ++ 0 :: (packStrings ss ++ rest)) := by
        simp [packStrings]
      simp only [packedOffsets, List.getD_cons_zero]
      rw [this, cstr_append_left, cstr_string s _ hs]
    | succ j =>
      have hbuf : pre ++ packStrings (s :: ss) ++ rest
          = (pre ++ s ++ [0]) ++ packStrings ss ++ rest := by
        simp [packStrings]
      have h := ih hss (pre ++ s ++ [0]) rest j (by simpa using hi)
      simp only [List.length_append, List.length_singleton] at h
      simp only [packedOffsets, List.getD_cons_succ]
      rw [hbuf]
      exact h

/-- `zfs_replay_fuid_ugid` touches neither the domain table nor the counts
nor the pending identities. -/
theorem fuid_ugid_frame (f : zfs_fuid_info) (uid gid : Nat) :
    (zfs_replay_fuid_ugid f uid gid).z_domain_table = f.z_domain_table ∧
      (zfs_replay_fuid_ugid f uid gid).z_domain_cnt = f.z_domain_cnt ∧
      (zfs_replay_fuid_ugid f uid gid).z_fuids = f.z_fuids := by
  unfold zfs_replay_fuid_ugid
  cases IS_EPHEMERAL uid <;> cases IS_EPHEMERAL gid <;> simp

/-- The compact-form decoder on an arbitrary buffer: with a non-zero count the
table holds the starts of the next `n` strings and the cursor is after them. -/
theorem fuid_domain_general (buf : Buf) (p : Nat) (end_v : Option Nat) (uid gid : Nat)
    (h : zfs_replay_domain_cnt uid gid ≠ 0) :
    (zfs_replay_fuid_domain buf p end_v uid gid).1.z_domain_cnt
        = zfs_replay_domain_cnt uid gid ∧
      (zfs_replay_fuid_domain buf p end_v uid gid).1.z_domain_table
        = some ((stringStarts buf (zfs_replay_domain_cnt uid gid) p).map some) ∧
      (zfs_replay_fuid_domain buf p end_v uid gid).2
        = some (stringsEnd buf (zfs_replay_domain_cnt uid gid) p) := by
  have hl := fuid_domain_loop_spec buf (zfs_replay_domain_cnt uid gid) [] p
  simp only [List.length_nil, List.nil_append] at hl
  simp only [zfs_replay_fuid_domain, h, if_false, zfs_replay_fuid_domain_common]
  have hf := fuid_ugid_frame
    { zfs_fuid_info_alloc with
      z_domain_table := some (List.replicate (zfs_replay_domain_cnt uid gid) none) } uid gid
  simp only [hf.1, Option.getD_some, Option.map_some', hl]
  simp

/-- C4: the compact-form identity decode consumes exactly its strings.  For
every `uid`, `gid` and buffer that holds, at the cursor `pre.length`, the
`n = zfs_replay_domain_cnt uid gid` NUL-terminated strings `strs` (followed by
anything), `zfs_replay_fuid_domain` yields a context with `z_domain_cnt = n`;
when `n > 0` slot `i` of its domain table is the offset of the `i`-th string,
at which the `i`-th string is read back, and the output cursor is the input
cursor plus the sum of `strlen + 1` over the strings; when `n = 0` the
context is the empty one and the cursor is what it was. -/
theorem fuid_domain_decodes_strings (uid gid : Nat) (pre rest : List Nat)
    (strs : List (List Nat)) (end_v : Option Nat)
    (hn : strs.length = zfs_replay_domain_cnt uid gid)
    (hz : ∀ s ∈ strs, ∀ b ∈ s, b % 256 ≠ 0) :
    (zfs_replay_fuid_domain (pre ++ packStrings strs ++ rest) pre.length end_v
        uid gid).1.z_domain_cnt = strs.length ∧
      (strs ≠ [] →
        (zfs_replay_fuid_domain (pre ++ packStrings strs ++ rest) pre.length end_v
            uid gid).1.z_domain_table = some ((packedOffsets pre.length strs).map some) ∧
          (zfs_replay_fuid_domain (pre ++ packStrings strs ++ rest) pre.length end_v
            uid gid).2 = some (pre.length + packedLength strs)) ∧
      (∀ i, i < strs.length →
        cstr (pre ++ packStrings strs ++ rest) ((packedOffsets pre.length strs).getD i 0)
          = strs.getD i []) ∧
      (strs = [] →
        zfs_replay_fuid_domain (pre ++ packStrings strs ++ rest) pre.length end_v uid gid
          = (zfs_fuid_info_alloc, end_v)) := by
  have hp := stringStarts_packed strs hz pre rest
  refine ⟨?_, ?_, cstr_packed strs hz pre rest, ?_⟩
  · by_cases h0 : zfs_replay_domain_cnt uid gid = 0
    · simp [zfs_replay_fuid_domain, h0, hn, zfs_fuid_info_alloc]
    · rw [(fuid_domain_general _ _ end_v uid gid h0).1, hn]
  · intro hne
    have h0 : zfs_replay_domain_cnt uid gid ≠ 0 := by
      rw [← hn]; simpa using hne
    have hg := fuid_domain_general (pre ++ packStrings strs ++ rest) pre.length end_v
      uid gid h0
    rw [← hn] at hg
    rw [hg.2.1, hg.2.2, hp.1, hp.2]
    exact ⟨rfl, rfl⟩
  · intro he
    have h0 : zfs_replay_domain_cnt uid gid = 0 := by rw [← hn, he]; rfl
    simp [zfs_replay_fuid_domain, h0]

/-- A concrete instance of `fuid_domain_decodes_strings`: owner with domain
index 1, the one-string table `"D"` behind the fixed part of a create record,
followed by the name `"x"`. -/
theorem fuid_domain_decodes_strings_witness :
    (zfs_replay_fuid_domain (hdrMkdirDomain ++ packStrings [[68]] ++ [120, 0])
        hdrMkdirDomain.length (some 104) 4294967301 0).1.z_domain_cnt = 1 ∧
      (zfs_replay_fuid_domain (hdrMkdirDomain ++ packStrings [[68]] ++ [120, 0])
        hdrMkdirDomain.length (some 104) 4294967301 0).2
        = some (hdrMkdirDomain.length + packedLength [[68]]) :=
  have h := fuid_domain_decodes_strings 4294967301 0 hdrMkdirDomain [120, 0] [[68]]
    (some 104) (by decide) (by decide)
  ⟨h.1, (h.2.1 (by decide)).2⟩

/-- C3, the code at the failing input: for the `TX_MKDIR` record whose owner
has domain index 1, domain table `"D"` and name `"x"`, the domain table ends
at offset 106 where the name `"x"` begins, and `zfs_replay_create` hands
`VOP_MKDIR` the offset 104, the domain string `"D"`; for the same bytes with
type `TX_CREATE` it hands `VOP_CREATE` the offset 106. -/
theorem mkdir_name_is_first_domain_string :
    zfs_replay_domain_cnt (lr_create_t.lr_uid recMkdirDomain)
        (lr_create_t.lr_gid recMkdirDomain) = 1 ∧
      (zfs_replay_fuid_domain recMkdirDomain sizeof_lr_create_t (some sizeof_lr_create_t)
        (lr_create_t.lr_uid recMkdirDomain) (lr_create_t.lr_gid recMkdirDomain)).2
        = some 106 ∧
      cstr recMkdirDomain 106 = [120] ∧
      cstr recMkdirDomain 104 = [68] ∧
      (newCalls (listWorld [7])
          (zfs_replay_create portBuild listStore (listWorld [7]) recMkdirDomain
            false)).filterMap Call.nameArg = [some 104] ∧
      (newCalls (listWorld [7])
          (zfs_replay_create portBuild listStore (listWorld [7]) recCreateDomain
            false)).filterMap Call.nameArg = [some 106] := by
  decide

/-- The loop of `zfs_replay_fuids` appends one pending identity per 64-bit
word and advances the cursor by 8 bytes per word. -/
theorem fuids_loop_spec (buf : Buf) (n : Nat) :
    ∀ (p : Nat) (l : List zfs_fuid),
      fuids_loop buf n p l =
        (l ++ (List.range n).map
            (fun i => { z_id := FUID_UNRESOLVED, z_domidx := 0,
                        z_logfuid := rd64 buf (p + 8 * i) }),
          p + 8 * n) := by
  induction n with
  | zero => intro p l; simp [fuids_loop]
  | succ k ih =>
    intro p l
    simp only [fuids_loop, ih, List.range_succ_eq_map, List.map_cons, List.map_map]
    refine Prod.ext ?_ ?_
    · simp only [List.append_assoc, List.singleton_append, Nat.mul_zero, Nat.add_zero]
      congr 2
      apply List.map_congr_left
      intro i _
      simp only [Function.comp]
      congr 2
      omega
    · simp only; omega

/-- The strings end at their start plus the sum of `strlen + 1`. -/
theorem stringsEnd_eq_sum (buf : Buf) (n : Nat) :
    ∀ p, stringsEnd buf n p
      = p + ((stringStarts buf n p).map (fun s => strlen buf s + 1)).sum := by
  induction n with
  | zero => intro p; simp [stringsEnd, stringStarts]
  | succ k ih =>
    intro p
    simp only [stringsEnd, stringStarts, ih, List.map_cons, List.sum_cons]
    omega

/-- C5: the explicit-list identity decode.  For every `idcnt`, `domcnt` and
buffer, `zfs_replay_fuids` produces a context whose pending identity list has
exactly `idcnt` entries in buffer order, entry `i` having as logged value the
`i`-th 64-bit word at the start cursor, as output id the unresolved sentinel
`-1` and as domain slot 0; its domain table has `domcnt` slots, slot `j` being
the start of the `j`-th NUL-terminated string from byte offset `8 * idcnt`
on; and the output cursor is `start + 8 * idcnt` plus the sum of `strlen + 1`
over those strings. -/
theorem fuids_decodes_list (buf : Buf) (start idcnt domcnt uid gid : Nat) :
    (zfs_replay_fuids buf start idcnt domcnt uid gid).1.z_fuids
        = (List.range idcnt).map
            (fun i => { z_id := FUID_UNRESOLVED, z_domidx := 0,
                        z_logfuid := rd64 buf (start + 8 * i) }) ∧
      (zfs_replay_fuids buf start idcnt domcnt uid gid).1.z_fuids.length = idcnt ∧
      (zfs_replay_fuids buf start idcnt domcnt uid gid).1.z_domain_cnt = domcnt ∧
      (zfs_replay_fuids buf start idcnt domcnt uid gid).1.z_domain_table
        = some ((stringStarts buf domcnt (start + 8 * idcnt)).map some) ∧
      (stringStarts buf domcnt (start + 8 * idcnt)).length = domcnt ∧
      (zfs_replay_fuids buf start idcnt domcnt uid gid).2
        = start + 8 * idcnt
          + ((stringStarts buf domcnt (start + 8 * idcnt)).map
              (fun s => strlen buf s + 1)).sum := by
  have hl := fuid_domain_loop_spec buf domcnt [] (start + 8 * idcnt)
  simp only [List.length_nil, List.nil_append] at hl
  have hlen : ∀ n p, (stringStarts buf n p).length = n := by
    intro n
    induction n with
    | zero => intro p; rfl
    | succ k ih => intro p; simp [stringStarts, ih]
  have hf := fun f => fuid_ugid_frame f uid gid
  simp only [zfs_replay_fuids, zfs_replay_fuid_domain_common, fuids_loop_spec,
    (hf _).1, (hf _).2.1, (hf _).2.2, Option.getD_some, Option.map_some', hl,
    zfs_fuid_info_alloc, List.nil_append, ← stringsEnd_eq_sum]
  simp [hlen]

/-- C9, the code at the failing inputs.  The array has initialisers for the
elements 0 to 13 only: the elements 12 (`TX_ACL_V0`) and 13 (`TX_ACL`) are
`zfs_replay_create`, the elements 14 to 19, among them 15 (`TX_CREATE_ATTR`)
and 18 (`TX_MKDIR_ATTR`), are `NULL`.  Calling element 12 on a version-0 ACL
record looks up the object named at offset 32 and returns that lookup's
`ENOENT`; calling element 15 or 14 does not return. -/
theorem vector_entries_shifted :
    zfs_replay_vector 12 = some Handler.zfs_replay_create ∧
      zfs_replay_vector 13 = some Handler.zfs_replay_create ∧
      zfs_replay_vector 14 = none ∧
      zfs_replay_vector 15 = none ∧
      zfs_replay_vector 16 = none ∧
      zfs_replay_vector 17 = none ∧
      zfs_replay_vector 18 = none ∧
      zfs_replay_vector 19 = none ∧
      (zfs_replay_vector_call portBuild listStore 12 (listWorld []) recAclV0 false).error
        = some ENOENT ∧
      newCalls (listWorld [])
          (zfs_replay_vector_call portBuild listStore 12 (listWorld []) recAclV0 false)
        = [.zfs_zget 42] ∧
      (zfs_replay_vector_call portBuild listStore 15 (listWorld [7]) recCreate false).error
        = none ∧
      (zfs_replay_vector_call portBuild listStore 14 (listWorld [7]) recCreate false).error
        = none := by
  decide

/-- Two buffers that agree on the bytes `[p, p + n)` agree on every 32-bit
word inside that range. -/
theorem rd32_congr (buf buf' : Buf) (p n : Nat)
    (h : ∀ i, i < n → rd8 buf (p + i) = rd8 buf' (p + i)) (k : Nat) (hk : k + 4 ≤ n) :
    rd32 buf (p + k) = rd32 buf' (p + k) := by
  simp only [rd32, Nat.add_assoc]
  rw [h k (by omega), h (k + 1) (by omega), h (k + 2) (by omega), h (k + 3) (by omega)]

/-- The same for 64-bit words. -/
theorem rd64_congr (buf buf' : Buf) (p n : Nat)
    (h : ∀ i, i < n → rd8 buf (p + i) = rd8 buf' (p + i)) (k : Nat) (hk : k + 8 ≤ n) :
    rd64 buf (p + k) = rd64 buf' (p + k) := by
  simp only [rd64, Nat.add_assoc]
  rw [rd32_congr buf buf' p n h k (by omega), rd32_congr buf buf' p n h (k + 4) (by omega)]

/-- With three bitmap words the loop of lines 97-99 replaces the three words
of the map by the three words of the block's bitmap, whatever the map held. -/
theorem copy_bitmap_three (buf : Buf) (p : Nat) (map : List Nat) (hl : map.length = 3) :
    copy_bitmap buf (p + 4) 3 0 map
      = [rd32 buf (p + 4), rd32 buf (p + 8), rd32 buf (p + 12)] := by
  rcases map with _ | ⟨a, _ | ⟨b, _ | ⟨c, _ | ⟨d, t⟩⟩⟩⟩ <;> simp at hl
  simp [copy_bitmap, List.set, Nat.add_assoc]

/-- A mask with `AT_XVATTR` or-ed in is not zero and has `AT_XVATTR` set. -/
theorem or_xvattr_ne_zero (x : Nat) :
    (x ||| AT_XVATTR) ≠ 0 ∧ (x ||| AT_XVATTR) &&& AT_XVATTR ≠ 0 := by
  have hb : (x ||| AT_XVATTR).testBit 16 = true := by
    rw [Nat.testBit_or]
    have : AT_XVATTR.testBit 16 = true := by decide
    simp [this]
  have hb2 : ((x ||| AT_XVATTR) &&& AT_XVATTR).testBit 16 = true := by
    rw [Nat.testBit_and, hb]
    decide
  constructor
  · intro h; rw [h] at hb; simp at hb
  · intro h; rw [h] at hb2; simp at hb2

/-- For an attribute of bitmap word 0 and a descriptor with the magic and at
least one map word, `XVA_ISSET_REQ` is the attribute's bit in word 0 of the
requested-attribute map. -/
theorem isset_req_word0 (xvap : xvattr) (attr : Nat) (hi : XVA_INDEX attr = 0)
    (hmagic : xvap.xva_magic = XVA_MAGIC) (hsize : 0 < xvap.xva_mapsize) :
    XVA_ISSET_REQ xvap attr
      = decide (xvap.xva_reqattrmap.getD 0 0 &&& XVA_ATTRBIT attr ≠ 0) := by
  have h1 := (or_xvattr_ne_zero xvap.xva_vattr.va_mask).1
  simp [XVA_ISSET_REQ, hi, hmagic, hsize, h1]

/-- A field of the result of one store statement. -/
theorem store_apply {α : Type} (g : xoptattr → α) (xvap : xvattr) (attr : Nat)
    (store : xoptattr → xoptattr) (x : xoptattr) :
    g (xvattr_store xvap attr store x)
      = if XVA_ISSET_REQ xvap attr then g (store x) else g x := by
  unfold xvattr_store
  split <;> rfl

/-- The requested-attribute predicate after the bitmap copy of a block of
three words, for an attribute of bitmap word 0. -/
theorem isset_after_copy (buf : Buf) (p : Nat) (xvap : xvattr) (attr : Nat)
    (hi : XVA_INDEX attr = 0) (hmagic : xvap.xva_magic = XVA_MAGIC)
    (hsize : 0 < xvap.xva_mapsize) (hl : xvap.xva_reqattrmap.length = 3) :
    XVA_ISSET_REQ
        { xvap with xva_reqattrmap := copy_bitmap buf (p + 4) 3 0 xvap.xva_reqattrmap } attr
      = decide (rd32 buf (p + 4) &&& XVA_ATTRBIT attr ≠ 0) := by
  have h := isset_req_word0
    { xvap with xva_reqattrmap := copy_bitmap buf (p + 4) 3 0 xvap.xva_reqattrmap }
    attr hi hmagic hsize
  rw [h]
  simp only [copy_bitmap_three buf p _ hl, List.getD_cons_zero]

/-- The optional attributes decoded from a block of three bitmap words, field
by field. -/
theorem decode_three_words (buf : Buf) (p : Nat) (xvap : xvattr) (xoap : xoptattr)
    (hm : rd32 buf p = 3) (hmagic : xvap.xva_magic = XVA_MAGIC)
    (hsize : 0 < xvap.xva_mapsize) (hl : xvap.xva_reqattrmap.length = 3) :
    (∀ ba ∈ boolAttrs,
      ba.2 (zfs_replay_xvattr_decode buf p xvap xoap).xva_xoptattrs
        = if rd32 buf (p + 4) &&& ba.1 ≠ 0 then attr_flag (rd64 buf (p + 16)) ba.1
          else ba.2 xoap) ∧
      (zfs_replay_xvattr_decode buf p xvap xoap).xva_xoptattrs.xoa_createtime
        = (if rd32 buf (p + 4) &&& XAT0_CREATETIME ≠ 0 then ZFS_TIME_DECODE buf (p + 24)
          else xoap.xoa_createtime) ∧
      (zfs_replay_xvattr_decode buf p xvap xoap).xva_xoptattrs.xoa_av_scanstamp
        = (if rd32 buf (p + 4) &&& XAT0_AV_SCANSTAMP ≠ 0 then
            (List.range AV_SCANSTAMP_SZ).map (fun i => rd8 buf (p + 40 + i))
          else xoap.xoa_av_scanstamp) := by
  have hI := fun attr hi => isset_after_copy buf p xvap attr hi hmagic hsize hl
  have ha : xvattr_attrs p 3 = p + 16 := by simp [xvattr_attrs, sizeof_lr_attr_t]
  have hc : xvattr_crtime p 3 = p + 24 := by simp [xvattr_crtime, ha]
  have hs : xvattr_scanstamp p 3 = p + 40 := by simp [xvattr_scanstamp, hc]
  refine ⟨?_, ?_, ?_⟩
  · intro ba hba
    simp only [boolAttrs, List.mem_cons, List.mem_singleton, List.not_mem_nil, or_false] at hba
    rcases hba with h | h | h | h | h | h | h | h | h | h | h <;> subst h <;>
      simp only [zfs_replay_xvattr_decode, hm, ha, hc, hs,
        store_apply xoptattr.xoa_hidden, store_apply xoptattr.xoa_system,
        store_apply xoptattr.xoa_archive, store_apply xoptattr.xoa_readonly,
        store_apply xoptattr.xoa_immutable, store_apply xoptattr.xoa_nounlink,
        store_apply xoptattr.xoa_appendonly, store_apply xoptattr.xoa_nodump,
        store_apply xoptattr.xoa_opaque, store_apply xoptattr.xoa_av_modified,
        store_apply xoptattr.xoa_av_quarantined, ite_self,
        hI XAT_HIDDEN (by decide), hI XAT_SYSTEM (by decide), hI XAT_ARCHIVE (by decide), hI XAT_READONLY (by decide), hI XAT_IMMUTABLE (by decide), hI XAT_NOUNLINK (by decide), hI XAT_APPENDONLY (by decide), hI XAT_NODUMP (by decide), hI XAT_OPAQUE (by decide), hI XAT_AV_MODIFIED (by decide), hI XAT_AV_QUARANTINED (by decide),
        (by decide : XVA_ATTRBIT XAT_HIDDEN = XAT0_HIDDEN), (by decide : XVA_ATTRBIT XAT_SYSTEM = XAT0_SYSTEM), (by decide : XVA_ATTRBIT XAT_ARCHIVE = XAT0_ARCHIVE), (by decide : XVA_ATTRBIT XAT_READONLY = XAT0_READONLY), (by decide : XVA_ATTRBIT XAT_IMMUTABLE = XAT0_IMMUTABLE), (by decide : XVA_ATTRBIT XAT_NOUNLINK = XAT0_NOUNLINK), (by decide : XVA_ATTRBIT XAT_APPENDONLY = XAT0_APPENDONLY), (by decide : XVA_ATTRBIT XAT_NODUMP = XAT0_NODUMP), (by decide : XVA_ATTRBIT XAT_OPAQUE = XAT0_OPAQUE), (by decide : XVA_ATTRBIT XAT_AV_MODIFIED = XAT0_AV_MODIFIED), (by decide : XVA_ATTRBIT XAT_AV_QUARANTINED = XAT0_AV_QUARANTINED),
        decide_eq_true_eq]
  · simp only [zfs_replay_xvattr_decode, hm, ha, hc, hs,
      store_apply xoptattr.xoa_createtime, ite_self,
      hI XAT_CREATETIME (by decide),
      (by decide : XVA_ATTRBIT XAT_CREATETIME = XAT0_CREATETIME), decide_eq_true_eq]
  · simp only [zfs_replay_xvattr_decode, hm, ha, hc, hs,
      store_apply xoptattr.xoa_av_scanstamp, ite_self,
      hI XAT_AV_SCANSTAMP (by decide),
      (by decide : XVA_ATTRBIT XAT_AV_SCANSTAMP = XAT0_AV_SCANSTAMP), decide_eq_true_eq]

/-- When the assertion of line 95 holds, `zfs_replay_xvattr` returns the
descriptor decoded by lines 97-131, with `AT_XVATTR` set in the mask. -/
theorem xvattr_returns (debug : Bool) (buf : Buf) (p : Nat) (xvap : xvattr)
    (hm : rd32 buf p = xvap.xva_mapsize) :
    zfs_replay_xvattr debug buf p xvap =
      some (zfs_replay_xvattr_decode buf p
        { xvap with xva_vattr :=
            { xvap.xva_vattr with va_mask := xvap.xva_vattr.va_mask ||| AT_XVATTR } }
        xvap.xva_xoptattrs) := by
  have h2 := (or_xvattr_ne_zero xvap.xva_vattr.va_mask).2
  simp only [zfs_replay_xvattr, xva_getxoptattr]
  rw [if_pos h2]
  simp [hm]

/-- What `xva_initialised` says, field by field. -/
theorem xva_initialised_iff (xvap : xvattr) :
    xva_initialised xvap = true ↔
      xvap.xva_magic = XVA_MAGIC ∧ xvap.xva_mapsize = XVA_MAPSIZE ∧
        xvap.xva_reqattrmap.length = XVA_MAPSIZE := by
  simp [xva_initialised, and_assoc]

/-- C7: sparse attribute decode.  For every attribute block whose declared
bitmap word count equals the destination's map size, and every initial output
descriptor, that is every descriptor prepared by `xva_init` (`XVA_MAGIC`, map
size and map array of `XVA_MAPSIZE` words) with any attributes, mask and maps
stored into it: `zfs_replay_xvattr` returns, and after it each of the eleven
boolean attributes whose bit is set in the record's bitmap equals whether its
`XAT0_*` bit is set in the record's attribute-flags word (the 64-bit word that
follows the bitmap), the creation time (if its bit is set) is the decoded
2-word timestamp, the scan-stamp (if its bit is set) is the record's blob, and
every attribute whose bit is clear keeps the value it had. -/
theorem xvattr_sparse_decode (debug : Bool) (buf : Buf) (p : Nat) (xvap : xvattr)
    (hm : rd32 buf p = xvap.xva_mapsize) (hinit : xva_initialised xvap = true) :
    ∃ out, zfs_replay_xvattr debug buf p xvap = some out ∧
      (∀ ba ∈ boolAttrs,
        (rd32 buf (p + 4) &&& ba.1 ≠ 0 →
          ba.2 out.xva_xoptattrs
            = attr_flag (rd64 buf (layoutFlags p (rd32 buf p))) ba.1) ∧
        (rd32 buf (p + 4) &&& ba.1 = 0 →
          ba.2 out.xva_xoptattrs = ba.2 xvap.xva_xoptattrs)) ∧
      (rd32 buf (p + 4) &&& XAT0_CREATETIME ≠ 0 →
        out.xva_xoptattrs.xoa_createtime
          = ZFS_TIME_DECODE buf (layoutCrtime p (rd32 buf p))) ∧
      (rd32 buf (p + 4) &&& XAT0_CREATETIME = 0 →
        out.xva_xoptattrs.xoa_createtime = xvap.xva_xoptattrs.xoa_createtime) ∧
      (rd32 buf (p + 4) &&& XAT0_AV_SCANSTAMP ≠ 0 →
        out.xva_xoptattrs.xoa_av_scanstamp = layoutBlob buf p (rd32 buf p)) ∧
      (rd32 buf (p + 4) &&& XAT0_AV_SCANSTAMP = 0 →
        out.xva_xoptattrs.xoa_av_scanstamp = xvap.xva_xoptattrs.xoa_av_scanstamp) := by
  obtain ⟨hmagic, hsize, hlen⟩ := (xva_initialised_iff xvap).1 hinit
  have h3 : rd32 buf p = 3 := by rw [hm, hsize]; rfl
  rw [h3]
  have hd := decode_three_words buf p
    { xvap with xva_vattr :=
        { xvap.xva_vattr with va_mask := xvap.xva_vattr.va_mask ||| AT_XVATTR } }
    xvap.xva_xoptattrs h3 hmagic (by show 0 < xvap.xva_mapsize; rw [hsize]; decide) hlen
  refine ⟨_, xvattr_returns debug buf p xvap hm, ?_, ?_, ?_, ?_, ?_⟩
  · intro ba hba
    have h := hd.1 ba hba
    constructor
    · intro hb
      rw [h, if_pos hb]
      rfl
    · intro hb
      rw [h, if_neg (by simpa using hb)]
  · intro hb
    rw [hd.2.1, if_pos hb]
    rfl
  · intro hb
    rw [hd.2.1, if_neg (by simpa using hb)]
  · intro hb
    rw [hd.2.2, if_pos hb]
    simp [layoutBlob, layoutScanstamp, layoutCrtime, layoutFlags, XVA_MAPSIZE, Nat.add_assoc]
  · intro hb
    rw [hd.2.2, if_neg (by simpa using hb)]

/-- A concrete instance of `xvattr_sparse_decode` (scenario C): the block
requests `immutable` and the creation time only; the flags word also has
`hidden` set, which is not requested. -/
theorem xvattr_sparse_decode_witness :
    ∃ out, zfs_replay_xvattr true blockThreeWords 0 xva_init = some out ∧
      out.xva_xoptattrs.xoa_immutable = 1 ∧
      out.xva_xoptattrs.xoa_hidden = 0 ∧
      out.xva_xoptattrs.xoa_createtime = (5, 6) ∧
      out.xva_xoptattrs.xoa_av_scanstamp = List.replicate 32 0 := by
  obtain ⟨out, h, hb, hc, _, _, hs⟩ :=
    xvattr_sparse_decode true blockThreeWords 0 xva_init (by decide) (by decide)
  refine ⟨out, h, ?_, ?_, ?_, ?_⟩
  · exact ((hb (XAT0_IMMUTABLE, xoptattr.xoa_immutable) (by simp [boolAttrs])).1
      (by decide)).trans (by decide)
  · exact ((hb (XAT0_HIDDEN, xoptattr.xoa_hidden) (by simp [boolAttrs])).2
      (by decide)).trans (by decide)
  · exact (hc (by decide)).trans (by decide)
  · exact (hs (by decide)).trans (by decide)

/-- The pointer `attrs` of `zfs_replay_xvattr` is the position right behind
the bitmap for the word count 3 and for no other. -/
theorem xvattr_attrs_eq_layout_iff (p m : Nat) :
    xvattr_attrs p m = layoutFlags p m ↔ m = 3 := by
  simp only [xvattr_attrs, layoutFlags, sizeof_lr_attr_t]
  omega

/-- The three 64-bit words `zfs_replay_swap_attrs` converts start right behind
the bitmap, for every word count from 1 on. -/
theorem swap_attrs_words_eq_layout (p m : Nat) (h1 : 1 ≤ m) (h2 : m < 4294967296) :
    swap_attrs_words p m = layoutFlags p m := by
  simp only [swap_attrs_words, layoutFlags, sizeof_lr_attr_t, u32_pred]
  omega

/-- C6: the code misses the layout for every word count but 3.  The pointer
of line 101, `(uint64_t *)(lrattr + lr_attr_masksize - 1)`, counts in units of
`sizeof (lr_attr_t)` and is the position right behind the `m`-word bitmap
(offset `4 + 4 * m`) only for `m = 3`, while `zfs_replay_swap_attrs` converts
the three 64-bit words at that position for every `m >= 1`.  At the block
`blockOneWord` (one bitmap word, which requests `hidden`; the attribute-flags
word at offset 8 has `hidden` set) and the descriptor `xva_init`, in a build
without assertions, `zfs_replay_xvattr` takes the flags word from offset 0 and
stores `hidden = 0`. -/
theorem xvattr_flags_word_misread :
    (∀ p m, xvattr_attrs p m = layoutFlags p m ↔ m = 3) ∧
      (∀ p m, 1 ≤ m → m < 4294967296 → swap_attrs_words p m = layoutFlags p m) ∧
      rd32 blockOneWord 0 = 1 ∧
      layoutFlags 0 (rd32 blockOneWord 0) = 8 ∧
      swap_attrs_words 0 (rd32 blockOneWord 0) = 8 ∧
      xvattr_attrs 0 (rd32 blockOneWord 0) = 0 ∧
      rd32 blockOneWord 4 &&& XAT0_HIDDEN ≠ 0 ∧
      attr_flag (rd64 blockOneWord (layoutFlags 0 (rd32 blockOneWord 0))) XAT0_HIDDEN = 1 ∧
      (zfs_replay_xvattr false blockOneWord 0 xva_init).map
          (fun out => out.xva_xoptattrs.xoa_hidden) = some 0 :=
  ⟨xvattr_attrs_eq_layout_iff, swap_attrs_words_eq_layout, by decide, by decide, by decide,
    by decide, by decide, by decide, by decide⟩

/-- The bitmap copy of three words reads the block's bytes 4 to 15 only. -/
theorem copy_bitmap_three_congr (buf buf' : Buf) (p : Nat) (map : List Nat)
    (h : ∀ i, i < 72 → rd8 buf (p + i) = rd8 buf' (p + i)) :
    copy_bitmap buf (p + 4) 3 0 map = copy_bitmap buf' (p + 4) 3 0 map := by
  have h4 := rd32_congr buf buf' p 72 h 4 (by omega)
  have h8 := rd32_congr buf buf' p 72 h 8 (by omega)
  have h12 := rd32_congr buf buf' p 72 h 12 (by omega)
  simp only [copy_bitmap, Nat.add_assoc, Nat.reduceAdd] at *
  rw [h4, h8, h12]

/-- The attribute block layout for the word count `XVA_MAPSIZE = 3`, the
count the assertion of line 95 admits for an initialised descriptor.
`zfs_replay_xvattr` takes the attribute-flags word
from the position right after the 3-word bitmap (offset `4 + 4 * 3`, where
`zfs_replay_swap_attrs` converts its three 64-bit words), the creation time
from the next 16 bytes and the scan-stamp right after it; the scan-stamp ends
at `ZIL_XVAT_SIZE(3)`, and the call reads no byte outside
`[0, ZIL_XVAT_SIZE(3))` of the block: two buffers that agree there give the
same result. -/
theorem xvattr_layout_three_words (debug : Bool) (buf buf' : Buf) (p : Nat) (xvap : xvattr)
    (hm : rd32 buf p = XVA_MAPSIZE)
    (hagree : ∀ i, i < ZIL_XVAT_SIZE XVA_MAPSIZE → rd8 buf (p + i) = rd8 buf' (p + i)) :
    xvattr_attrs p (rd32 buf p) = layoutFlags p (rd32 buf p) ∧
      xvattr_attrs p (rd32 buf p) = swap_attrs_words p (rd32 buf p) ∧
      xvattr_crtime p (rd32 buf p) = layoutCrtime p (rd32 buf p) ∧
      xvattr_scanstamp p (rd32 buf p) = layoutScanstamp p (rd32 buf p) ∧
      xvattr_scanstamp p (rd32 buf p) + AV_SCANSTAMP_SZ = p + ZIL_XVAT_SIZE (rd32 buf p) ∧
      zfs_replay_xvattr debug buf p xvap = zfs_replay_xvattr debug buf' p xvap := by
  have h72 : ZIL_XVAT_SIZE XVA_MAPSIZE = 72 := by decide
  rw [h72] at hagree
  have h0 := rd32_congr buf buf' p 72 hagree 0 (by omega)
  simp only [Nat.add_zero] at h0
  have hm' : rd32 buf' p = 3 := by rw [← h0, hm]; rfl
  have hm3 : rd32 buf p = 3 := by rw [hm]; rfl
  have ha : xvattr_attrs p 3 = p + 16 := by simp [xvattr_attrs, sizeof_lr_attr_t]
  have hc : xvattr_crtime p 3 = p + 24 := by simp [xvattr_crtime, ha]
  have hs : xvattr_scanstamp p 3 = p + 40 := by simp [xvattr_scanstamp, hc]
  refine ⟨?_, ?_, ?_, ?_, ?_, ?_⟩
  · rw [hm3, ha]; simp [layoutFlags]
  · rw [hm3, ha]; simp [swap_attrs_words, sizeof_lr_attr_t, u32_pred]
  · rw [hm3, hc]; simp [layoutCrtime, layoutFlags]
  · rw [hm3, hs]; simp [layoutScanstamp, layoutCrtime, layoutFlags]
  · rw [hm3, hs]; simp [ZIL_XVAT_SIZE, AV_SCANSTAMP_SZ, sizeof_lr_attr_t, u32_pred]
  · have hcb := fun map => copy_bitmap_three_congr buf buf' p map hagree
    have h16 := rd64_congr buf buf' p 72 hagree 16 (by omega)
    have h24 := rd64_congr buf buf' p 72 hagree 24 (by omega)
    have h32 := rd64_congr buf buf' p 72 hagree 32 (by omega)
    have hst : (List.range AV_SCANSTAMP_SZ).map (fun i => rd8 buf (p + 40 + i))
        = (List.range AV_SCANSTAMP_SZ).map (fun i => rd8 buf' (p + 40 + i)) := by
      apply List.map_congr_left
      intro i hi
      have hi' : i < 32 := by simpa [AV_SCANSTAMP_SZ] using hi
      have := hagree (40 + i) (by omega)
      simpa [Nat.add_assoc] using this
    simp only [zfs_replay_xvattr, zfs_replay_xvattr_decode, hm3, hm', ha, hc, hs,
      ZFS_TIME_DECODE, hcb, h16, h24, Nat.add_assoc, Nat.reduceAdd] at *
    simp only [h32, hst]

/-- A concrete instance of `xvattr_layout_three_words`: a block of three
bitmap words, alone and followed by other bytes. -/
theorem xvattr_layout_three_words_witness :
    xvattr_attrs 0 (rd32 blockThreeWords 0) = layoutFlags 0 (rd32 blockThreeWords 0) ∧
      xvattr_scanstamp 0 (rd32 blockThreeWords 0) + AV_SCANSTAMP_SZ
        = 0 + ZIL_XVAT_SIZE (rd32 blockThreeWords 0) ∧
      zfs_replay_xvattr false blockThreeWords 0 xva_init
        = zfs_replay_xvattr false (blockThreeWords ++ [1, 2, 3]) 0 xva_init :=
  have h := xvattr_layout_three_words false blockThreeWords (blockThreeWords ++ [1, 2, 3]) 0
    xva_init (by decide) (by decide)
  ⟨h.1, h.2.2.2.2.1, h.2.2.2.2.2⟩

/-- Reversing the 8-byte words twice puts every byte back. -/
theorem swapIdx8_involutive (off size i : Nat) :
    swapIdx 8 off size (swapIdx 8 off size i) = i := by
  unfold swapIdx
  split_ifs <;> omega

/-- A byte of a buffer that holds the region comes from inside the buffer. -/
theorem swapIdx8_lt (off size i n : Nat) (h : off + size ≤ n) (hi : i < n) :
    swapIdx 8 off size i < n := by
  unfold swapIdx
  split_ifs <;> omega

/-- The conversion keeps the length of the buffer. -/
theorem byteswap_array_length (w : Nat) (buf : Buf) (off size : Nat) :
    (byteswap_array w buf off size).length = buf.length := by
  simp [byteswap_array]

/-- The byte at offset `i` after the conversion. -/
theorem byteswap_array_getD (w : Nat) (buf : Buf) (off size i : Nat) (hi : i < buf.length) :
    (byteswap_array w buf off size).getD i 0 = buf.getD (swapIdx w off size i) 0 := by
  simp [byteswap_array, List.getD_eq_getElem?_getD, List.getElem?_map, List.getElem?_range hi]

/-- `byteswap_uint64_array` over a region inside the buffer is an involution. -/
theorem byteswap_uint64_array_twice (buf : Buf) (off size : Nat)
    (h : off + size ≤ buf.length) :
    byteswap_uint64_array (byteswap_uint64_array buf off size) off size = buf := by
  unfold byteswap_uint64_array
  apply List.ext_getElem
  · simp [byteswap_array_length]
  · intro i h1 h2
    have hi : i < buf.length := h2
    have hs := swapIdx8_lt off size i buf.length h hi
    have e1 := byteswap_array_getD 8 (byteswap_array 8 buf off size) off size i
      (by rw [byteswap_array_length]; exact hi)
    have e2 := byteswap_array_getD 8 buf off size (swapIdx 8 off size i) hs
    rw [swapIdx8_involutive] at e2
    rw [e2] at e1
    simpa [List.getD_eq_getElem?_getD, List.getElem?_eq_getElem h1,
      List.getElem?_eq_getElem h2] using e1

/-- C8, as stated, fails for a record with an attribute block.  The create
record with attributes written in the other byte order is converted to its
host-order form by the swap path of `zfs_replay_create`; a second pass swaps
the fixed part back, then reads a type code that is no longer
`TX_CREATE_ATTR` and leaves the attribute block in host order.  Applied twice
to the block alone, `zfs_replay_swap_attrs` does not restore it either: the
second pass reads the word count it has just swapped. -/
theorem normalize_twice_attr_record :
    zfs_replay_create_swap recCreateAttrForeign = recCreateAttrHost ∧
      zfs_replay_create_swap (zfs_replay_create_swap recCreateAttrForeign)
        ≠ recCreateAttrForeign ∧
      zfs_replay_swap_attrs (zfs_replay_swap_attrs recCreateAttrForeign 104) 104
        ≠ recCreateAttrForeign := by
  have h1 : zfs_replay_create_swap recCreateAttrForeign = recCreateAttrHost := by
    set_option maxRecDepth 100000 in decide
  refine ⟨h1, ?_, ?_⟩
  · rw [h1]
    set_option maxRecDepth 100000 in decide
  · set_option maxRecDepth 100000 in decide

/-- C8, amended: byte-order round trip of the fixed part.  For every record
buffer that holds the fixed part, `byteswap_uint64_array` over the fixed part
applied twice returns the original bytes; so the normalization of
`zfs_replay_remove`, `zfs_replay_link`, `zfs_replay_rename`,
`zfs_replay_write` and `zfs_replay_truncate` applied twice is the identity,
and so is the normalization of `zfs_replay_create` and `zfs_replay_setattr`
on the records for which neither pass takes the attribute-block branch. -/
theorem normalize_twice_fixed_part (z_version : Nat) (buf : Buf) :
    (sizeof_lr_remove_t ≤ buf.length → removeRecord (removeRecord buf true) true = buf) ∧
    (sizeof_lr_link_t ≤ buf.length → linkRecord (linkRecord buf true) true = buf) ∧
    (sizeof_lr_rename_t ≤ buf.length → renameRecord (renameRecord buf true) true = buf) ∧
    (sizeof_lr_write_t ≤ buf.length → writeRecord (writeRecord buf true) true = buf) ∧
    (sizeof_lr_truncate_t ≤ buf.length →
      truncateRecord (truncateRecord buf true) true = buf) ∧
    (sizeof_lr_create_t ≤ buf.length →
      createHasAttrs buf = false →
      createHasAttrs (byteswap_uint64_array buf 0 sizeof_lr_create_t) = false →
      createRecord (createRecord buf true) true = buf) ∧
    (sizeof_lr_setattr_t ≤ buf.length →
      setattrHasAttrs z_version buf = false →
      setattrHasAttrs z_version (byteswap_uint64_array buf 0 sizeof_lr_setattr_t) = false →
      setattrRecord z_version (setattrRecord z_version buf true) true = buf) := by
  have key : ∀ size, size ≤ buf.length →
      byteswap_uint64_array (byteswap_uint64_array buf 0 size) 0 size = buf :=
    fun size h => byteswap_uint64_array_twice buf 0 size (by omega)
  refine ⟨?_, ?_, ?_, ?_, ?_, ?_, ?_⟩
  · intro h; simpa [removeRecord] using key _ h
  · intro h; simpa [linkRecord] using key _ h
  · intro h; simpa [renameRecord] using key _ h
  · intro h; simpa [writeRecord] using key _ h
  · intro h; simpa [truncateRecord] using key _ h
  · intro h h1 h2
    simp only [createHasAttrs, decide_eq_false_iff_not] at h1 h2
    simp only [createRecord, if_true, zfs_replay_create_swap, h2, if_false, key _ h, h1]
  · intro h h1 h2
    simp only [setattrHasAttrs, decide_eq_false_iff_not] at h1 h2
    simp only [setattrRecord, if_true, zfs_replay_setattr_swap, h2, if_false, key _ h, h1]

/-- Concrete instances of `normalize_twice_fixed_part`: a remove record, a
write record, a plain create record and a setattr record without the
attribute bit. -/
theorem normalize_twice_fixed_part_witness :
    removeRecord (removeRecord recRemove true) true = recRemove ∧
      writeRecord (writeRecord recWrite true) true = recWrite ∧
      createRecord (createRecord recCreate true) true = recCreate ∧
      setattrRecord 3 (setattrRecord 3 recSetattr true) true = recSetattr :=
  ⟨(normalize_twice_fixed_part 3 recRemove).1 (by decide),
    (normalize_twice_fixed_part 3 recWrite).2.2.2.1
      (by set_option maxRecDepth 100000 in decide),
    (normalize_twice_fixed_part 3 recCreate).2.2.2.2.2.1 (by decide) (by decide) (by decide),
    (normalize_twice_fixed_part 3 recSetattr).2.2.2.2.2.2 (by decide) (by decide)
      (by decide)⟩

/-- An id that is not ephemeral has domain index 0 and fits 32 bits. -/
theorem not_ephemeral (x : Nat) (h : IS_EPHEMERAL x = false) :
    FUID_INDEX x = 0 ∧ x % 4294967296 = x := by
  have h0 : FUID_INDEX x = 0 := by simpa [IS_EPHEMERAL] using h
  refine ⟨h0, ?_⟩
  simp only [FUID_INDEX, Nat.shiftRight_eq_div_pow] at h0
  omega

/-- `zfs_replay_create` past its two lookups. -/
theorem create_reaches_switch (b : Build) (env : Env σ) (w : World σ) (buf : Buf)
    (byteswap : Bool)
    (hparent : (createParentLookup env w (createRecord buf byteswap)).1.status = 0)
    (htarget : (createTargetProbe env w (createRecord buf byteswap)).1.status = ENOENT) :
    zfs_replay_create b env w buf byteswap =
      zfs_replay_create_switch b env (createTargetProbe env w (createRecord buf byteswap)).2
        (createRecord buf byteswap) (lr_create_t.lr_doid (createRecord buf byteswap))
        (zfs_replay_create_xva env (createRecord buf byteswap)) ENOENT := by
  unfold createParentLookup at hparent
  unfold createTargetProbe createParentLookup at htarget
  simp only [zfs_replay_create, createRecord, createTargetProbe, createParentLookup] at *
  simp [hparent, htarget]

/-- The switch of `zfs_replay_create` on a plain create record. -/
theorem create_switch_plain (b : Build) (env : Env σ) (w : World σ) (lr : Buf) (dzp : Nat)
    (xva : xvattr) (error : Nat) (htype : int_cast (lrc_txtype lr) = TX_CREATE) :
    zfs_replay_create_switch b env w lr dzp xva error =
      zfs_replay_create_out env
        (call env (withContext w (plainContext lr).1) lr
          (.VOP_CREATE dzp (plainContext lr).2 xva (ciFlag lr) none)).2
        lr dzp
        (call env (withContext w (plainContext lr).1) lr
          (.VOP_CREATE dzp (plainContext lr).2 xva (ciFlag lr) none)).1.status
        (call env (withContext w (plainContext lr).1) lr
          (.VOP_CREATE dzp (plainContext lr).2 xva (ciFlag lr) none)).1.vp := by
  simp [zfs_replay_create_switch, htype, ciFlag, TX_CREATE, TX_SYMLINK, TX_MKDIR_ATTR,
    TX_CREATE_ATTR, withContext, plainContext]

/-- The switch of `zfs_replay_create` on a plain mkdir record: the name is
the offset `lr + 1`. -/
theorem create_switch_mkdir (b : Build) (env : Env σ) (w : World σ) (lr : Buf) (dzp : Nat)
    (xva : xvattr) (error : Nat) (htype : int_cast (lrc_txtype lr) = TX_MKDIR) :
    zfs_replay_create_switch b env w lr dzp xva error =
      zfs_replay_create_out env
        (call env (withContext w (plainContext lr).1) lr
          (.VOP_MKDIR dzp (some sizeof_lr_create_t) xva (ciFlag lr) none)).2
        lr dzp
        (call env (withContext w (plainContext lr).1) lr
          (.VOP_MKDIR dzp (some sizeof_lr_create_t) xva (ciFlag lr) none)).1.status
        (call env (withContext w (plainContext lr).1) lr
          (.VOP_MKDIR dzp (some sizeof_lr_create_t) xva (ciFlag lr) none)).1.vp := by
  simp [zfs_replay_create_switch, htype, ciFlag, TX_CREATE, TX_MKDIR, TX_SYMLINK,
    TX_MKDIR_ATTR, TX_CREATE_ATTR, withContext, plainContext]

/-- The switch of `zfs_replay_create` on a symlink record: no identity
context, the link target follows the name. -/
theorem create_switch_symlink (b : Build) (env : Env σ) (w : World σ) (lr : Buf) (dzp : Nat)
    (xva : xvattr) (error : Nat) (htype : int_cast (lrc_txtype lr) = TX_SYMLINK) :
    zfs_replay_create_switch b env w lr dzp xva error =
      zfs_replay_create_out env
        (call env w lr
          (.VOP_SYMLINK dzp (some sizeof_lr_create_t) xva
            (some (sizeof_lr_create_t + strlen lr sizeof_lr_create_t + 1)) (ciFlag lr))).2
        lr dzp
        (call env w lr
          (.VOP_SYMLINK dzp (some sizeof_lr_create_t) xva
            (some (sizeof_lr_create_t + strlen lr sizeof_lr_create_t + 1))
            (ciFlag lr))).1.status
        (call env w lr
          (.VOP_SYMLINK dzp (some sizeof_lr_create_t) xva
            (some (sizeof_lr_create_t + strlen lr sizeof_lr_create_t + 1))
            (ciFlag lr))).1.vp := by
  simp [zfs_replay_create_switch, htype, ciFlag, TX_CREATE, TX_MKDIR, TX_SYMLINK,
    TX_MKDIR_ATTR, TX_CREATE_ATTR, TX_MKXATTR]

/-- The exit path of `zfs_replay_create`: what it returns, what it calls and
what it leaves in the slot. -/
theorem create_out_spec (env : Env σ) (w : World σ) (lr : Buf) (dzp status : Nat)
    (vp : Bool) :
    (zfs_replay_create_out env w lr dzp status vp).error = some status ∧
      (zfs_replay_create_out env w lr dzp status vp).world.trace
        = w.trace ++ exitCalls dzp status vp w.z_fuid_replay ∧
      (zfs_replay_create_out env w lr dzp status vp).world.z_fuid_replay = none ∧
      (zfs_replay_create_out env w lr dzp status vp).buf = lr := by
  refine ⟨rfl, ?_, rfl, rfl⟩
  simp only [zfs_replay_create_out, exitCalls, freeSlot, call, note]
  by_cases h : status = 0 ∧ vp = true <;> cases hs : w.z_fuid_replay <;> simp [h, hs]

/-- C11: plain create replay.  For every `TX_CREATE` record with a
non-ephemeral owner and group, replayed without swap when the parent lookup
succeeds and the target id is free: `zfs_replay_create` runs exactly one
primitive, `VOP_CREATE` on the parent `lr_doid`, with the name at the offset
right after the fixed part and with the attributes of `zfs_init_vattr`
(mask `type|mode|uid|gid`, `va_type = IFTOVT(lr_mode)`,
`va_mode = lr_mode & MODEMASK`, `va_uid = lr_uid`, `va_gid = lr_gid`,
`va_nodeid = lr_foid`), and it returns the status of that call. -/
theorem plain_create_replay (b : Build) (env : Env σ) (w : World σ) (buf : Buf)
    (htype : int_cast (lrc_txtype buf) = TX_CREATE)
    (huid : IS_EPHEMERAL (lr_create_t.lr_uid buf) = false)
    (hgid : IS_EPHEMERAL (lr_create_t.lr_gid buf) = false)
    (hparent : (createParentLookup env w buf).1.status = 0)
    (htarget : (createTargetProbe env w buf).1.status = ENOENT) :
    primitives w (zfs_replay_create b env w buf false) =
        [.VOP_CREATE (lr_create_t.lr_doid buf) (some sizeof_lr_create_t)
          (zfs_replay_create_xva env buf) (ciFlag buf) none] ∧
      (zfs_replay_create b env w buf false).error =
        some (call env (createCallWorld env w buf) buf
          (.VOP_CREATE (lr_create_t.lr_doid buf) (some sizeof_lr_create_t)
            (zfs_replay_create_xva env buf) (ciFlag buf) none)).1.status ∧
      (zfs_replay_create_xva env buf).xva_vattr.va_mask
        = AT_TYPE ||| AT_MODE ||| AT_UID ||| AT_GID ∧
      (zfs_replay_create_xva env buf).xva_vattr.va_type = IFTOVT (lr_create_t.lr_mode buf) ∧
      (zfs_replay_create_xva env buf).xva_vattr.va_mode
        = lr_create_t.lr_mode buf &&& MODEMASK ∧
      (zfs_replay_create_xva env buf).xva_vattr.va_uid = lr_create_t.lr_uid buf ∧
      (zfs_replay_create_xva env buf).xva_vattr.va_gid = lr_create_t.lr_gid buf ∧
      (zfs_replay_create_xva env buf).xva_vattr.va_nodeid = lr_create_t.lr_foid buf := by
  have hu := not_ephemeral _ huid
  have hg := not_ephemeral _ hgid
  have hctx : plainContext buf = (zfs_fuid_info_alloc, some sizeof_lr_create_t) := by
    simp [plainContext, zfs_replay_fuid_domain, zfs_replay_domain_cnt, hu.1, hg.1]
  have hrec : createRecord buf false = buf := rfl
  have e := create_reaches_switch b env w buf false (by rw [hrec]; exact hparent)
    (by rw [hrec]; exact htarget)
  rw [hrec, create_switch_plain b env _ buf _ _ _ htype, hctx] at e
  have ho := create_out_spec env
    (call env (withContext (createTargetProbe env w buf).2 zfs_fuid_info_alloc) buf
      (.VOP_CREATE (lr_create_t.lr_doid buf) (some sizeof_lr_create_t)
        (zfs_replay_create_xva env buf) (ciFlag buf) none)).2 buf (lr_create_t.lr_doid buf)
    (call env (withContext (createTargetProbe env w buf).2 zfs_fuid_info_alloc) buf
      (.VOP_CREATE (lr_create_t.lr_doid buf) (some sizeof_lr_create_t)
        (zfs_replay_create_xva env buf) (ciFlag buf) none)).1.status
    (call env (withContext (createTargetProbe env w buf).2 zfs_fuid_info_alloc) buf
      (.VOP_CREATE (lr_create_t.lr_doid buf) (some sizeof_lr_create_t)
        (zfs_replay_create_xva env buf) (ciFlag buf) none)).1.vp
  refine ⟨?_, ?_, ?_, rfl, rfl, ?_, ?_, rfl⟩
  · simp only [primitives, newCalls, e, ho.2.1]
    simp only [call, withContext, note, createTargetProbe, createParentLookup, exitCalls,
      freeSlot, List.append_assoc, List.drop_left']
    split <;> simp [Call.isPrimitive]
  · rw [e, ho.1, createCallWorld, hctx]
  · simp [zfs_replay_create_xva, zfs_init_vattr, AT_TYPE, AT_MODE, AT_UID, AT_GID, vattr_zero]
  · simp [zfs_replay_create_xva, zfs_init_vattr, huid, hu.2]
  · simp [zfs_replay_create_xva, zfs_init_vattr, hgid, hg.2]

/-- A concrete instance of `plain_create_replay` (scenario A): parent 7
exists, target 9 does not, owner and group are 0, the name is `"a"`. -/
theorem plain_create_replay_witness :
    primitives (listWorld [7])
        (zfs_replay_create portBuild listStore (listWorld [7]) recCreate false) =
        [.VOP_CREATE (lr_create_t.lr_doid recCreate) (some sizeof_lr_create_t)
          (zfs_replay_create_xva listStore recCreate) (ciFlag recCreate) none] ∧
      (zfs_replay_create portBuild listStore (listWorld [7]) recCreate false).error
        = some 0 ∧
      cstr recCreate sizeof_lr_create_t = [97] :=
  have h := plain_create_replay portBuild listStore (listWorld [7]) recCreate
    (by decide) (by decide) (by decide) (by decide) (by decide)
  ⟨h.1, h.2.1.trans (by decide), by decide⟩

/-- The `(int)` cast of a type code does not see the `TX_CI` bit. -/
theorem int_cast_ci (t : Nat) : int_cast (t ||| TX_CI) = int_cast t := by
  have h : (t ||| TX_CI) % 4294967296 = t % 4294967296 := by
    have e : (4294967296 : Nat) = 2 ^ 32 := by norm_num
    rw [e]
    apply Nat.eq_of_testBit_eq
    intro i
    simp only [Nat.testBit_mod_two_pow, Nat.testBit_or, TX_CI, Nat.testBit_two_pow]
    by_cases hi : i < 32
    · have : ¬ (63 = i) := by omega
      simp [hi, this]
    · simp [hi]
  simp only [int_cast, h]

/-- The flags argument has `FIGNORECASE` exactly when the type code has
`TX_CI`. -/
theorem ciFlag_iff (lr : Buf) :
    ciFlag lr &&& FIGNORECASE ≠ 0 ↔ lrc_txtype lr &&& TX_CI ≠ 0 := by
  unfold ciFlag
  split <;> rename_i h
  · simp [h, FIGNORECASE]
  · simp [h]

/-- The calls of the exit path are no primitives. -/
theorem exitCalls_no_primitive (dzp status : Nat) (vp : Bool) (slot : Option zfs_fuid_info) :
    ∀ x ∈ exitCalls dzp status vp slot, x.isPrimitive = false := by
  intro x hx
  simp only [exitCalls, freeSlot, List.mem_append] at hx
  rcases hx with (hx | hx) | hx
  · split at hx <;> simp at hx
    subst hx; rfl
  · simp at hx; subst hx; rfl
  · cases slot <;> simp at hx
    subst hx; rfl

/-- A run whose new calls are `pre`, the primitive `c` and `post`, with no
primitive in `pre` and `post`, ran the one primitive `c`. -/
theorem primitives_single (w : World σ) (r : Ret σ) (pre post : List Call) (c : Call)
    (h : r.world.trace = w.trace ++ (pre ++ c :: post))
    (hpre : ∀ x ∈ pre, x.isPrimitive = false)
    (hpost : ∀ x ∈ post, x.isPrimitive = false) (hc : c.isPrimitive = true) :
    primitives w r = [c] := by
  have h1 : List.filter Call.isPrimitive pre = [] := by
    rw [List.filter_eq_nil_iff]; intro x hx; simp [hpre x hx]
  have h2 : List.filter Call.isPrimitive post = [] := by
    rw [List.filter_eq_nil_iff]; intro x hx; simp [hpost x hx]
  simp [primitives, newCalls, h, List.filter_append, List.filter_cons, hc, h1, h2]

/-- The one primitive of a create-family record that reaches the switch with
a kind whose case calls `c` in the context `w'`, reached from the probe by
the calls `pre`. -/
theorem create_primitive (env : Env σ) (w w' : World σ) (lr : Buf) (r : Ret σ) (c : Call)
    (pre : List Call)
    (hr : r = zfs_replay_create_out env (call env w' lr c).2 lr (lr_create_t.lr_doid lr)
      (call env w' lr c).1.status (call env w' lr c).1.vp)
    (hw : w'.trace = w.trace ++ pre) (hpre : ∀ x ∈ pre, x.isPrimitive = false)
    (hc : c.isPrimitive = true) :
    primitives w r = [c] := by
  have ho := create_out_spec env (call env w' lr c).2 lr (lr_create_t.lr_doid lr)
    (call env w' lr c).1.status (call env w' lr c).1.vp
  refine primitives_single w r pre
    (exitCalls (lr_create_t.lr_doid lr) (call env w' lr c).1.status (call env w' lr c).1.vp
      (call env w' lr c).2.z_fuid_replay) c ?_ hpre (exitCalls_no_primitive _ _ _ _) hc
  rw [hr, ho.2.1]
  simp only [call, hw, List.append_assoc, List.singleton_append]

/-- C12: the case-insensitive hint is passed through.  For every create,
mkdir, symlink, remove, rmdir, link and rename record whose lookups succeed
(and, for the create family, whose target id is free), with either swap flag,
the handler runs exactly one primitive, the one of the kind that the
`(int)`-truncated type code names, and hands it the flags `ciFlag`, which
hold `FIGNORECASE` if and only if the `TX_CI` bit of `lrc_txtype` is set;
the truncated type code, on which the switch selects the primitive, is the
same with and without the `TX_CI` bit. -/
theorem ci_hint_passed_through (b : Build) (env : Env σ) (w : World σ) (buf : Buf)
    (byteswap : Bool) :
    ((createParentLookup env w (createRecord buf byteswap)).1.status = 0 →
      (createTargetProbe env w (createRecord buf byteswap)).1.status = ENOENT →
      (int_cast (lrc_txtype (createRecord buf byteswap)) = TX_CREATE →
        primitives w (zfs_replay_create b env w buf byteswap) =
          [.VOP_CREATE (lr_create_t.lr_doid (createRecord buf byteswap))
            (plainContext (createRecord buf byteswap)).2
            (zfs_replay_create_xva env (createRecord buf byteswap))
            (ciFlag (createRecord buf byteswap)) none]) ∧
      (int_cast (lrc_txtype (createRecord buf byteswap)) = TX_MKDIR →
        primitives w (zfs_replay_create b env w buf byteswap) =
          [.VOP_MKDIR (lr_create_t.lr_doid (createRecord buf byteswap))
            (some sizeof_lr_create_t)
            (zfs_replay_create_xva env (createRecord buf byteswap))
            (ciFlag (createRecord buf byteswap)) none]) ∧
      (int_cast (lrc_txtype (createRecord buf byteswap)) = TX_SYMLINK →
        primitives w (zfs_replay_create b env w buf byteswap) =
          [.VOP_SYMLINK (lr_create_t.lr_doid (createRecord buf byteswap))
            (some sizeof_lr_create_t)
            (zfs_replay_create_xva env (createRecord buf byteswap))
            (some (sizeof_lr_create_t
              + strlen (createRecord buf byteswap) sizeof_lr_create_t + 1))
            (ciFlag (createRecord buf byteswap))])) ∧
    (lookupStatus env w (removeRecord buf byteswap)
        (lr_remove_t.lr_doid (removeRecord buf byteswap)) = 0 →
      (int_cast (lrc_txtype (removeRecord buf byteswap)) = TX_REMOVE →
        primitives w (zfs_replay_remove env w buf byteswap) =
          [.VOP_REMOVE (lr_remove_t.lr_doid (removeRecord buf byteswap))
            (some sizeof_lr_remove_t) (ciFlag (removeRecord buf byteswap))]) ∧
      (int_cast (lrc_txtype (removeRecord buf byteswap)) = TX_RMDIR →
        primitives w (zfs_replay_remove env w buf byteswap) =
          [.VOP_RMDIR (lr_remove_t.lr_doid (removeRecord buf byteswap))
            (some sizeof_lr_remove_t) (ciFlag (removeRecord buf byteswap))])) ∧
    (lookupStatus env w (linkRecord buf byteswap)
        (lr_link_t.lr_doid (linkRecord buf byteswap)) = 0 →
      lookupStatus env
        (afterLookup env w (linkRecord buf byteswap)
          (lr_link_t.lr_doid (linkRecord buf byteswap)))
        (linkRecord buf byteswap) (lr_link_t.lr_link_obj (linkRecord buf byteswap)) = 0 →
      primitives w (zfs_replay_link env w buf byteswap) =
        [.VOP_LINK (lr_link_t.lr_doid (linkRecord buf byteswap))
          (lr_link_t.lr_link_obj (linkRecord buf byteswap)) (some sizeof_lr_link_t)
          (ciFlag (linkRecord buf byteswap))]) ∧
    (lookupStatus env w (renameRecord buf byteswap)
        (lr_rename_t.lr_sdoid (renameRecord buf byteswap)) = 0 →
      lookupStatus env
        (afterLookup env w (renameRecord buf byteswap)
          (lr_rename_t.lr_sdoid (renameRecord buf byteswap)))
        (renameRecord buf byteswap) (lr_rename_t.lr_tdoid (renameRecord buf byteswap)) = 0 →
      primitives w (zfs_replay_rename env w buf byteswap) =
        [.VOP_RENAME (lr_rename_t.lr_sdoid (renameRecord buf byteswap))
          (some sizeof_lr_rename_t) (lr_rename_t.lr_tdoid (renameRecord buf byteswap))
          (some (sizeof_lr_rename_t + strlen buf sizeof_lr_rename_t + 1))
          (ciFlag (renameRecord buf byteswap))]) ∧
    (∀ lr : Buf, ciFlag lr &&& FIGNORECASE ≠ 0 ↔ lrc_txtype lr &&& TX_CI ≠ 0) ∧
    (∀ t : Nat, int_cast (t ||| TX_CI) = int_cast t) := by
  refine ⟨?_, ?_, ?_, ?_, ciFlag_iff, int_cast_ci⟩
  · intro hparent htarget
    have e := create_reaches_switch b env w buf byteswap hparent htarget
    have hpre : ∀ x ∈ [Call.zfs_zget (lr_create_t.lr_doid (createRecord buf byteswap)),
        Call.dmu_object_info (lr_create_t.lr_foid (createRecord buf byteswap)),
        Call.zfs_fuid_info_alloc], x.isPrimitive = false := by
      intro x hx
      simp at hx
      rcases hx with h | h | h <;> subst h <;> rfl
    have hpre2 : ∀ x ∈ [Call.zfs_zget (lr_create_t.lr_doid (createRecord buf byteswap)),
        Call.dmu_object_info (lr_create_t.lr_foid (createRecord buf byteswap))],
        x.isPrimitive = false := by
      intro x hx
      simp at hx
      rcases hx with h | h <;> subst h <;> rfl
    refine ⟨?_, ?_, ?_⟩
    · intro htype
      rw [create_switch_plain b env _ _ _ _ _ htype] at e
      exact create_primitive env w _ _ _ _ _ e
        (by simp [withContext, note, createTargetProbe, createParentLookup, call])
        hpre rfl
    · intro htype
      rw [create_switch_mkdir b env _ _ _ _ _ htype] at e
      exact create_primitive env w _ _ _ _ _ e
        (by simp [withContext, note, createTargetProbe, createParentLookup, call])
        hpre rfl
    · intro htype
      rw [create_switch_symlink b env _ _ _ _ _ htype] at e
      exact create_primitive env w _ _ _ _ _ e
        (by simp [createTargetProbe, createParentLookup, call])
        hpre2 rfl
  · intro h
    simp only [lookupStatus, call, removeRecord] at h
    constructor <;> intro htype <;> simp only [removeRecord] at htype <;>
      simp [primitives, newCalls, zfs_replay_remove, removeRecord, h, htype, call, ciFlag,
        Call.isPrimitive, TX_REMOVE, TX_RMDIR, List.filter_cons]
  · intro h0 h
    simp only [lookupStatus, afterLookup, call, linkRecord] at h0 h
    simp [primitives, newCalls, zfs_replay_link, linkRecord, h0, h, call, ciFlag,
      Call.isPrimitive, List.filter_cons]
  · intro h0 h
    simp only [lookupStatus, afterLookup, call, renameRecord] at h0 h
    simp [primitives, newCalls, zfs_replay_rename, renameRecord, h0, h, call, ciFlag,
      Call.isPrimitive, List.filter_cons]

/-- Concrete instances of `ci_hint_passed_through`: a remove record and a
mkdir record whose type codes carry the `TX_CI` bit. -/
theorem ci_hint_passed_through_witness :
    primitives (listWorld [7]) (zfs_replay_remove listStore (listWorld [7]) recRemoveCI false)
        = [.VOP_REMOVE 7 (some 40) FIGNORECASE] ∧
      primitives (listWorld [7])
          (zfs_replay_create portBuild listStore (listWorld [7]) recMkdirCI false)
        = [.VOP_MKDIR 7 (some 104) (zfs_replay_create_xva listStore recMkdirCI) FIGNORECASE
            none] :=
  ⟨(((ci_hint_passed_through portBuild listStore (listWorld [7]) recRemoveCI false).2.1
      (by decide)).1 (by decide)).trans (by decide),
    (((ci_hint_passed_through portBuild listStore (listWorld [7]) recMkdirCI false).1
      (by decide) (by decide)).2.1 (by decide)).trans (by decide)⟩

/-- At its start a handler call with an empty slot is armed. -/
theorem armed_start (w : World σ) (h : w.z_fuid_replay = none) : Armed w w :=
  ⟨[], by simp, rfl, by simp [h, allocs]⟩

/-- A call into the object store keeps a handler call armed. -/
theorem armed_call (env : Env σ) (w w' : World σ) (lr : Buf) (c : Call) (h : Armed w w')
    (ha : c.isAlloc = false) (hf : c.isFree = false) : Armed w (call env w' lr c).2 := by
  obtain ⟨pre, h1, h2, h3⟩ := h
  refine ⟨pre ++ [c], ?_, ?_, ?_⟩
  · simp [call, h1]
  · simp [frees, List.filter_append, hf] at h2 ⊢
    exact h2
  · simp [allocs, List.filter_append, ha, call] at h3 ⊢
    exact h3

/-- Allocating a context into the empty slot keeps a handler call armed. -/
theorem armed_withContext (w w' : World σ) (ctx : zfs_fuid_info) (h : Armed w w')
    (hs : w'.z_fuid_replay = none) : Armed w (withContext w' ctx) := by
  obtain ⟨pre, h1, h2, h3⟩ := h
  refine ⟨pre ++ [.zfs_fuid_info_alloc], ?_, ?_, ?_⟩
  · simp [withContext, note, h1]
  · simp [frees, List.filter_append, Call.isFree] at h2 ⊢
    exact h2
  · simp [allocs, List.filter_append, Call.isAlloc, hs, withContext] at h3 ⊢
    exact h3

/-- The counts of a concatenation. -/
theorem allocs_append (l l' : List Call) : allocs (l ++ l') = allocs l + allocs l' := by
  simp [allocs, List.filter_append]

/-- The same for the releases. -/
theorem frees_append (l l' : List Call) : frees (l ++ l') = frees l + frees l' := by
  simp [frees, List.filter_append]

/-- The exit calls allocate nothing and release what is in the slot. -/
theorem exitCalls_counts (dzp status : Nat) (vp : Bool) (slot : Option zfs_fuid_info) :
    allocs (exitCalls dzp status vp slot) = 0 ∧
      frees (exitCalls dzp status vp slot) = (if slot.isSome then 1 else 0) := by
  cases slot <;> by_cases h : status = 0 ∧ vp = true <;>
    simp [exitCalls, freeSlot, allocs, frees, h, List.filter_cons, Call.isAlloc, Call.isFree]

/-- The exit path of `zfs_replay_create` releases the context of an armed
call. -/
theorem armed_create_out (env : Env σ) (w w' : World σ) (lr : Buf) (dzp status : Nat)
    (vp : Bool) (h : Armed w w') :
    ContextReleased w (zfs_replay_create_out env w' lr dzp status vp) := by
  obtain ⟨pre, h1, h2, h3⟩ := h
  have ho := create_out_spec env w' lr dzp status vp
  have hc := exitCalls_counts dzp status vp w'.z_fuid_replay
  have hn : newCalls w (zfs_replay_create_out env w' lr dzp status vp)
      = pre ++ exitCalls dzp status vp w'.z_fuid_replay := by
    simp [newCalls, ho.2.1, h1]
  refine ⟨ho.2.2.1, ?_, ?_⟩
  · rw [hn, allocs_append, frees_append, hc.1, hc.2, h2, h3]; simp
  · rw [hn, allocs_append, hc.1, h3]; split <;> simp

/-- The attribute block of a create record with attributes: the decode either
fails its assertion or leaves a context in the slot. -/
theorem create_attr_armed (b : Build) (w0 w : World σ) (lr : Buf) (xva : xvattr)
    (h : Armed w0 w) (hs : w.z_fuid_replay = none) :
    zfs_replay_create_attr b w lr xva = none ∨
      ∃ xva' start w', zfs_replay_create_attr b w lr xva = some (xva', start, w') ∧
        Armed w0 w' := by
  simp only [zfs_replay_create_attr, Nat.zero_add]
  cases hx : zfs_replay_xvattr b.DEBUG lr sizeof_lr_create_t xva with
  | none => left; rfl
  | some x =>
    right
    exact ⟨_, _, _, rfl, armed_withContext w0 w _ h hs⟩

/-- The exit path of `zfs_replay_create` after the call `c` made in `w`. -/
theorem create_exit_after_call (env : Env σ) (w0 w : World σ) (lr : Buf) (dzp : Nat)
    (c : Call) (h : Armed w0 w) (ha : c.isAlloc = false) (hf : c.isFree = false) :
    ContextReleased w0
      (zfs_replay_create_out env (call env w lr c).2 lr dzp (call env w lr c).1.status
        (call env w lr c).1.vp) :=
  armed_create_out env w0 _ lr dzp _ _ (armed_call env w0 w lr c h ha hf)

/-- The switch of `zfs_replay_create` on a create or mkdir record with
attributes. -/
theorem create_switch_attr (b : Build) (env : Env σ) (w : World σ) (lr : Buf) (dzp : Nat)
    (xva : xvattr) (error : Nat)
    (htype : int_cast (lrc_txtype lr) = TX_CREATE_ATTR ∨
      int_cast (lrc_txtype lr) = TX_MKDIR_ATTR) :
    zfs_replay_create_switch b env w lr dzp xva error =
      if b.DEBUG = true then ⟨none, w, lr⟩
      else if b.HAVE_ZPL = true then
        match zfs_replay_create_attr b w lr xva with
        | none => ⟨none, w, lr⟩
        | some (xva', start, w') =>
          if int_cast (lrc_txtype lr) = TX_CREATE_ATTR then
            zfs_replay_create_out env
              (call env w' lr (.VOP_CREATE dzp start xva' (ciFlag lr) none)).2 lr dzp
              (call env w' lr (.VOP_CREATE dzp start xva' (ciFlag lr) none)).1.status
              (call env w' lr (.VOP_CREATE dzp start xva' (ciFlag lr) none)).1.vp
          else
            zfs_replay_create_out env
              (call env w' lr (.VOP_MKDIR dzp
                (if start = none then some sizeof_lr_create_t else start) xva' (ciFlag lr)
                none)).2 lr dzp
              (call env w' lr (.VOP_MKDIR dzp
                (if start = none then some sizeof_lr_create_t else start) xva' (ciFlag lr)
                none)).1.status
              (call env w' lr (.VOP_MKDIR dzp
                (if start = none then some sizeof_lr_create_t else start) xva' (ciFlag lr)
                none)).1.vp
      else if int_cast (lrc_txtype lr) = TX_CREATE_ATTR then
        zfs_replay_create_out env
          (call env w lr (.VOP_CREATE dzp none xva (ciFlag lr) none)).2 lr dzp
          (call env w lr (.VOP_CREATE dzp none xva (ciFlag lr) none)).1.status
          (call env w lr (.VOP_CREATE dzp none xva (ciFlag lr) none)).1.vp
      else
        zfs_replay_create_out env
          (call env w lr (.VOP_MKDIR dzp (some sizeof_lr_create_t) xva (ciFlag lr) none)).2
          lr dzp
          (call env w lr
            (.VOP_MKDIR dzp (some sizeof_lr_create_t) xva (ciFlag lr) none)).1.status
          (call env w lr (.VOP_MKDIR dzp (some sizeof_lr_create_t) xva (ciFlag lr) none)).1.vp := by
  rcases htype with htype | htype
  · by_cases hd : b.DEBUG = true <;> by_cases hz : b.HAVE_ZPL = true
    · simp [zfs_replay_create_switch, htype, hd, TX_CREATE_ATTR, TX_SYMLINK, TX_MKDIR_ATTR]
    · simp [zfs_replay_create_switch, htype, hd, TX_CREATE_ATTR, TX_SYMLINK, TX_MKDIR_ATTR]
    · cases ha : zfs_replay_create_attr b w lr xva <;>
        simp [zfs_replay_create_switch, htype, hd, hz, ha, ciFlag, TX_CREATE_ATTR,
          TX_SYMLINK, TX_MKDIR_ATTR]
    · simp [zfs_replay_create_switch, htype, hd, hz, ciFlag, TX_CREATE_ATTR, TX_SYMLINK,
        TX_MKDIR_ATTR]
  · by_cases hd : b.DEBUG = true <;> by_cases hz : b.HAVE_ZPL = true
    · simp [zfs_replay_create_switch, htype, hd, TX_CREATE_ATTR, TX_SYMLINK, TX_MKDIR_ATTR,
        TX_CREATE]
    · simp [zfs_replay_create_switch, htype, hd, TX_CREATE_ATTR, TX_SYMLINK, TX_MKDIR_ATTR,
        TX_CREATE]
    · cases ha : zfs_replay_create_attr b w lr xva <;>
        simp [zfs_replay_create_switch, htype, hd, hz, ha, ciFlag, TX_CREATE_ATTR,
          TX_SYMLINK, TX_MKDIR_ATTR, TX_CREATE]
    · simp [zfs_replay_create_switch, htype, hd, hz, ciFlag, TX_CREATE_ATTR, TX_SYMLINK,
        TX_MKDIR_ATTR, TX_CREATE]

/-- The switch of `zfs_replay_create` on a make-attribute-directory record
and on a record of any other kind. -/
theorem create_switch_other (b : Build) (env : Env σ) (w : World σ) (lr : Buf) (dzp : Nat)
    (xva : xvattr) (error : Nat)
    (h1 : int_cast (lrc_txtype lr) ≠ TX_CREATE) (h2 : int_cast (lrc_txtype lr) ≠ TX_MKDIR)
    (h3 : int_cast (lrc_txtype lr) ≠ TX_SYMLINK)
    (h4 : int_cast (lrc_txtype lr) ≠ TX_CREATE_ATTR)
    (h5 : int_cast (lrc_txtype lr) ≠ TX_MKDIR_ATTR) :
    zfs_replay_create_switch b env w lr dzp xva error =
      if int_cast (lrc_txtype lr) = TX_MKXATTR then
        if b.HAVE_ZPL = true then
          zfs_replay_create_out env
            (call env (withContext w (plainContext lr).1) lr (.zfs_make_xattrdir dzp xva)).2
            lr dzp
            (call env (withContext w (plainContext lr).1) lr
              (.zfs_make_xattrdir dzp xva)).1.status
            (call env (withContext w (plainContext lr).1) lr (.zfs_make_xattrdir dzp xva)).1.vp
        else zfs_replay_create_out env (withContext w (plainContext lr).1) lr dzp error false
      else zfs_replay_create_out env (withContext w (plainContext lr).1) lr dzp ENOTSUP false := by
  simp [zfs_replay_create_switch, h1, h2, h3, h4, h5, withContext, plainContext]

/-- The switch of `zfs_replay_create`, when it returns, has released the
context it allocated. -/
theorem create_switch_released (b : Build) (env : Env σ) (w0 w : World σ) (lr : Buf)
    (dzp : Nat) (xva : xvattr) (error : Nat) (h : Armed w0 w) (hs : w.z_fuid_replay = none)
    (hr : (zfs_replay_create_switch b env w lr dzp xva error).error ≠ none) :
    ContextReleased w0 (zfs_replay_create_switch b env w lr dzp xva error) := by
  have hctx := armed_withContext w0 w (plainContext lr).1 h hs
  by_cases h1 : int_cast (lrc_txtype lr) = TX_CREATE
  · rw [create_switch_plain b env w lr dzp xva error h1]
    exact create_exit_after_call env w0 _ lr dzp _ hctx rfl rfl
  by_cases h2 : int_cast (lrc_txtype lr) = TX_MKDIR
  · rw [create_switch_mkdir b env w lr dzp xva error h2]
    exact create_exit_after_call env w0 _ lr dzp _ hctx rfl rfl
  by_cases h3 : int_cast (lrc_txtype lr) = TX_SYMLINK
  · rw [create_switch_symlink b env w lr dzp xva error h3]
    exact create_exit_after_call env w0 _ lr dzp _ h rfl rfl
  by_cases h45 : int_cast (lrc_txtype lr) = TX_CREATE_ATTR ∨
      int_cast (lrc_txtype lr) = TX_MKDIR_ATTR
  · rw [create_switch_attr b env w lr dzp xva error h45] at hr ⊢
    by_cases hd : b.DEBUG = true
    · rw [if_pos hd] at hr; exact absurd rfl hr
    rw [if_neg hd] at hr ⊢
    by_cases hz : b.HAVE_ZPL = true
    · rw [if_pos hz] at hr ⊢
      rcases create_attr_armed b w0 w lr xva h hs with hn | ⟨xva', start, w', he, ha⟩
      · rw [hn] at hr; exact absurd rfl hr
      · rw [he]
        simp only []
        split
        · exact create_exit_after_call env w0 _ lr dzp _ ha rfl rfl
        · exact create_exit_after_call env w0 _ lr dzp _ ha rfl rfl
    · rw [if_neg hz]
      split
      · exact create_exit_after_call env w0 _ lr dzp _ h rfl rfl
      · exact create_exit_after_call env w0 _ lr dzp _ h rfl rfl
  · have h4 : int_cast (lrc_txtype lr) ≠ TX_CREATE_ATTR := fun e => h45 (Or.inl e)
    have h5 : int_cast (lrc_txtype lr) ≠ TX_MKDIR_ATTR := fun e => h45 (Or.inr e)
    rw [create_switch_other b env w lr dzp xva error h1 h2 h3 h4 h5]
    split
    · split
      · exact create_exit_after_call env w0 _ lr dzp _ hctx rfl rfl
      · exact armed_create_out env w0 _ lr dzp _ _ hctx
    · exact armed_create_out env w0 _ lr dzp _ _ hctx

/-- A handler call that made no allocation and no release and left the slot
empty has released its contexts. -/
theorem released_of_no_context (w : World σ) (r : Ret σ) (hs : r.world.z_fuid_replay = none)
    (h : ∀ c ∈ newCalls w r, c.isAlloc = false ∧ c.isFree = false) :
    ContextReleased w r := by
  have ha : allocs (newCalls w r) = 0 := by
    simp only [allocs, List.length_eq_zero, List.filter_eq_nil_iff]
    intro c hc; simp [(h c hc).1]
  have hf : frees (newCalls w r) = 0 := by
    simp only [frees, List.length_eq_zero, List.filter_eq_nil_iff]
    intro c hc; simp [(h c hc).2]
  exact ⟨hs, by rw [ha, hf], by rw [ha]; exact Nat.zero_le 1⟩

/-- `zfs_replay_create`, when it returns, has released the context it
allocated. -/
theorem create_released (b : Build) (env : Env σ) (w : World σ) (buf : Buf)
    (byteswap : Bool) (hs : w.z_fuid_replay = none)
    (hr : (zfs_replay_create b env w buf byteswap).error ≠ none) :
    ContextReleased w (zfs_replay_create b env w buf byteswap) := by
  have h0 := armed_start w hs
  have h1 := armed_call env w w (createRecord buf byteswap)
    (.zfs_zget (lr_create_t.lr_doid (createRecord buf byteswap))) h0 rfl rfl
  have h2 := armed_call env w _ (createRecord buf byteswap)
    (.dmu_object_info (lr_create_t.lr_foid (createRecord buf byteswap))) h1 rfl rfl
  by_cases hp : (createParentLookup env w (createRecord buf byteswap)).1.status = 0
  · by_cases ht : (createTargetProbe env w (createRecord buf byteswap)).1.status = ENOENT
    · have e := create_reaches_switch b env w buf byteswap hp ht
      rw [e] at hr ⊢
      exact create_switch_released b env w _ _ _ _ _ h2 (by simp [createTargetProbe,
        createParentLookup, call, hs]) hr
    · have e : zfs_replay_create b env w buf byteswap =
          zfs_replay_create_out env (createTargetProbe env w (createRecord buf byteswap)).2
            (createRecord buf byteswap) (lr_create_t.lr_doid (createRecord buf byteswap))
            (createTargetProbe env w (createRecord buf byteswap)).1.status false := by
        unfold createParentLookup at hp
        unfold createTargetProbe createParentLookup at ht
        simp only [zfs_replay_create, createRecord, createTargetProbe, createParentLookup] at *
        simp [hp, ht]
      rw [e]
      exact armed_create_out env w _ _ _ _ _ h2
  · have e : zfs_replay_create b env w buf byteswap =
        ⟨some (createParentLookup env w (createRecord buf byteswap)).1.status,
          (createParentLookup env w (createRecord buf byteswap)).2, createRecord buf byteswap⟩ := by
      unfold createParentLookup at hp
      simp only [zfs_replay_create, createRecord, createParentLookup] at *
      simp [hp]
    rw [e]
    apply released_of_no_context
    · simp [createParentLookup, call, hs]
    · intro c hc
      simp [newCalls, createParentLookup, call] at hc
      subst hc
      exact ⟨rfl, rfl⟩

/-- The handlers that never touch the slot. -/
theorem plain_handlers_released (b : Build) (env : Env σ) (w : World σ) (buf : Buf)
    (byteswap : Bool) (hs : w.z_fuid_replay = none) :
    ContextReleased w (zfs_replay_remove env w buf byteswap) ∧
      ContextReleased w (zfs_replay_link env w buf byteswap) ∧
      ContextReleased w (zfs_replay_rename env w buf byteswap) ∧
      ContextReleased w (zfs_replay_write b env w buf byteswap) ∧
      ContextReleased w (zfs_replay_truncate env w buf byteswap) ∧
      ContextReleased w (zfs_replay_acl_v0 env w buf byteswap) := by
  refine ⟨?_, ?_, ?_, ?_, ?_, ?_⟩
  · simp only [zfs_replay_remove]
    split_ifs <;>
      simp [ContextReleased, newCalls, allocs, frees, List.filter_cons, Call.isAlloc,
        Call.isFree, call, hs]
  · simp only [zfs_replay_link]
    split_ifs <;>
      simp [ContextReleased, newCalls, allocs, frees, List.filter_cons, Call.isAlloc,
        Call.isFree, call, hs]
  · simp only [zfs_replay_rename]
    split_ifs <;>
      simp [ContextReleased, newCalls, allocs, frees, List.filter_cons, Call.isAlloc,
        Call.isFree, call, hs]
  · simp only [zfs_replay_write]
    split_ifs <;>
      simp [ContextReleased, newCalls, allocs, frees, List.filter_cons, Call.isAlloc,
        Call.isFree, call, hs]
  · simp only [zfs_replay_truncate]
    split_ifs <;>
      simp [ContextReleased, newCalls, allocs, frees, List.filter_cons, Call.isAlloc,
        Call.isFree, call, hs]
  · simp only [zfs_replay_acl_v0]
    split_ifs <;>
      simp [ContextReleased, newCalls, allocs, frees, List.filter_cons, Call.isAlloc,
        Call.isFree, call, hs]

/-- `zfs_replay_setattr` in terms of the record it reads. -/
theorem setattr_eq (b : Build) (env : Env σ) (w : World σ) (buf : Buf) (byteswap : Bool) :
    zfs_replay_setattr b env w buf byteswap =
      if lookupStatus env w (setattrRecord w.z_version buf byteswap)
          (lr_setattr_t.lr_foid (setattrRecord w.z_version buf byteswap)) ≠ 0 then
        ⟨some (if lookupStatus env w (setattrRecord w.z_version buf byteswap)
            (lr_setattr_t.lr_foid (setattrRecord w.z_version buf byteswap)) = ENOENT then 0
          else lookupStatus env w (setattrRecord w.z_version buf byteswap)
            (lr_setattr_t.lr_foid (setattrRecord w.z_version buf byteswap))),
          afterLookup env w (setattrRecord w.z_version buf byteswap)
            (lr_setattr_t.lr_foid (setattrRecord w.z_version buf byteswap)),
          setattrRecord w.z_version buf byteswap⟩
      else
        match zfs_replay_setattr_xva b env (setattrRecord w.z_version buf byteswap) with
        | none =>
          ⟨none, afterLookup env w (setattrRecord w.z_version buf byteswap)
            (lr_setattr_t.lr_foid (setattrRecord w.z_version buf byteswap)),
            setattrRecord w.z_version buf byteswap⟩
        | some (xva, start) =>
          zfs_replay_setattr_apply env
            (afterLookup env w (setattrRecord w.z_version buf byteswap)
              (lr_setattr_t.lr_foid (setattrRecord w.z_version buf byteswap)))
            (setattrRecord w.z_version buf byteswap)
            (lr_setattr_t.lr_foid (setattrRecord w.z_version buf byteswap)) xva start :=
  rfl

/-- `zfs_replay_setattr`, when it returns, has released the context it
allocated. -/
theorem setattr_released (b : Build) (env : Env σ) (w : World σ) (buf : Buf)
    (byteswap : Bool) (hs : w.z_fuid_replay = none)
    (hr : (zfs_replay_setattr b env w buf byteswap).error ≠ none) :
    ContextReleased w (zfs_replay_setattr b env w buf byteswap) := by
  rw [setattr_eq] at hr ⊢
  split_ifs at hr ⊢
  · simp [ContextReleased, newCalls, allocs, frees, List.filter_cons, Call.isAlloc,
      Call.isFree, call, afterLookup, hs]
  · simp [ContextReleased, newCalls, allocs, frees, List.filter_cons, Call.isAlloc,
      Call.isFree, call, afterLookup, hs]
  · cases hx : zfs_replay_setattr_xva b env (setattrRecord w.z_version buf byteswap) with
    | none => rw [hx] at hr; exact absurd rfl hr
    | some v =>
      simp only [zfs_replay_setattr_apply]
      simp [ContextReleased, newCalls, allocs, frees, List.filter_cons, Call.isAlloc,
        Call.isFree, call, note, afterLookup]

/-- `zfs_replay_acl` has released the context it allocated. -/
theorem acl_released (env : Env σ) (w : World σ) (buf : Buf)
    (byteswap : Bool) (hs : w.z_fuid_replay = none) :
    ContextReleased w (zfs_replay_acl env w buf byteswap) := by
  simp only [zfs_replay_acl]
  split_ifs <;>
    simp [ContextReleased, newCalls, allocs, frees, List.filter_cons, Call.isAlloc,
      Call.isFree, call, note, hs]

/-- The exit path of `zfs_replay_create_acl`, when it returns, has released
the context of an armed call. -/
theorem armed_acl_bail (env : Env σ) (w w' : World σ) (lr : Buf) (dzp status : Nat)
    (vp : Bool) (h : Armed w w')
    (hr : (zfs_replay_create_acl_bail env w' lr dzp status vp).error ≠ none) :
    ContextReleased w (zfs_replay_create_acl_bail env w' lr dzp status vp) := by
  obtain ⟨pre, h1, h2, h3⟩ := h
  cases hslot : w'.z_fuid_replay with
  | none =>
    have hfree : env.zfs_fuid_info_free_null = true := by
      by_contra hn
      apply hr
      by_cases hv : status = 0 ∧ vp = true <;>
        simp [zfs_replay_create_acl_bail, call, hslot, hn, hv]
    rw [hslot] at h3
    have hp : allocs pre = 0 := by simpa using h3
    by_cases hv : status = 0 ∧ vp = true <;>
      simp [zfs_replay_create_acl_bail, call, hslot, hfree, hv, ContextReleased, newCalls,
        h1, allocs_append, frees_append, hp, h2] <;>
      simp [allocs, frees, List.filter_cons, Call.isAlloc, Call.isFree]
  | some f =>
    rw [hslot] at h3
    have hp : allocs pre = 1 := by simpa using h3
    by_cases hv : status = 0 ∧ vp = true <;>
      simp [zfs_replay_create_acl_bail, call, note, hslot, hv, ContextReleased, newCalls,
        h1, allocs_append, frees_append, hp, h2] <;>
      simp [allocs, frees, List.filter_cons, Call.isAlloc, Call.isFree]

/-- Decoding the explicit identity list into the empty slot keeps a handler
call armed, and occupies the slot. -/
theorem armed_acl_fuids (w0 w : World σ) (lr : Buf) (fuidstart : Nat) (h : Armed w0 w)
    (hs : w.z_fuid_replay = none) :
    Armed w0 (zfs_replay_create_acl_fuids w lr fuidstart).2 ∧
      (zfs_replay_create_acl_fuids w lr fuidstart).2.z_fuid_replay ≠ none ∧
      (zfs_replay_create_acl_fuids w lr fuidstart).1 ≠ none := by
  refine ⟨armed_withContext w0 w _ h hs, ?_, ?_⟩ <;>
    simp [zfs_replay_create_acl_fuids]

/-- A case of the switch of `zfs_replay_create_acl`, when it returns, has
released the context it allocated. -/
theorem create_acl_case_released (b : Build) (env : Env σ) (w0 w : World σ) (lr : Buf)
    (dzp : Nat) (xva : xvattr) (vflg : Nat) (plain mkdir : Bool) (h : Armed w0 w)
    (hs : w.z_fuid_replay = none)
    (hr : (zfs_replay_create_acl_case b env w lr dzp xva vflg plain mkdir).error ≠ none) :
    ContextReleased w0 (zfs_replay_create_acl_case b env w lr dzp xva vflg plain mkdir) := by
  cases plain with
  | true =>
    have hf := armed_acl_fuids w0 w lr
      (sizeof_lr_acl_create_t + ZIL_ACE_LENGTH (lr_acl_create_t.lr_acl_bytes lr)) h hs
    simp only [zfs_replay_create_acl_case, if_true, hf.2.2, if_false, hf.2.1] at hr ⊢
    cases mkdir <;> simp only [Bool.false_eq_true, if_false, if_true] at hr ⊢ <;>
      exact armed_acl_bail env w0 _ lr dzp _ _ (armed_call env w0 _ lr _ hf.1 rfl rfl) hr
  | false =>
    simp only [zfs_replay_create_acl_case, Bool.false_eq_true, if_false, if_true] at hr ⊢
    split at hr
    · exact absurd rfl hr
    · rename_i xva' xvatlen hpre
      have hf := armed_acl_fuids w0 w lr
        (sizeof_lr_acl_create_t + xvatlen
          + ZIL_ACE_LENGTH (lr_acl_create_t.lr_acl_bytes lr)) h hs
      simp only [hs, if_true] at hr ⊢
      cases mkdir <;> simp only [Bool.false_eq_true, if_false, if_true] at hr ⊢ <;>
        exact armed_acl_bail env w0 _ lr dzp _ _ (armed_call env w0 _ lr _ hf.1 rfl rfl) hr

/-- `zfs_replay_create_acl` in terms of the record it reads. -/
theorem create_acl_eq (b : Build) (env : Env σ) (w : World σ) (buf : Buf)
    (byteswap : Bool) :
    zfs_replay_create_acl b env w buf byteswap =
      if (createParentLookup env w (createAclRecord env buf byteswap)).1.status ≠ 0 then
        ⟨some (createParentLookup env w (createAclRecord env buf byteswap)).1.status,
          (createParentLookup env w (createAclRecord env buf byteswap)).2,
          createAclRecord env buf byteswap⟩
      else if (createTargetProbe env w (createAclRecord env buf byteswap)).1.status
          ≠ ENOENT then
        zfs_replay_create_acl_bail env
          (createTargetProbe env w (createAclRecord env buf byteswap)).2
          (createAclRecord env buf byteswap)
          (lr_create_t.lr_doid (createAclRecord env buf byteswap))
          (createTargetProbe env w (createAclRecord env buf byteswap)).1.status false
      else if int_cast (lrc_txtype (createAclRecord env buf byteswap)) = TX_CREATE_ACL ∨
          int_cast (lrc_txtype (createAclRecord env buf byteswap)) = TX_CREATE_ACL_ATTR then
        zfs_replay_create_acl_case b env
          (createTargetProbe env w (createAclRecord env buf byteswap)).2
          (createAclRecord env buf byteswap)
          (lr_create_t.lr_doid (createAclRecord env buf byteswap))
          (zfs_replay_create_xva env (createAclRecord env buf byteswap))
          (ciFlag (createAclRecord env buf byteswap))
          (decide (int_cast (lrc_txtype (createAclRecord env buf byteswap)) = TX_CREATE_ACL))
          false
      else if int_cast (lrc_txtype (createAclRecord env buf byteswap)) = TX_MKDIR_ACL ∨
          int_cast (lrc_txtype (createAclRecord env buf byteswap)) = TX_MKDIR_ACL_ATTR then
        zfs_replay_create_acl_case b env
          (createTargetProbe env w (createAclRecord env buf byteswap)).2
          (createAclRecord env buf byteswap)
          (lr_create_t.lr_doid (createAclRecord env buf byteswap))
          (zfs_replay_create_xva env (createAclRecord env buf byteswap))
          (ciFlag (createAclRecord env buf byteswap))
          (decide (int_cast (lrc_txtype (createAclRecord env buf byteswap)) = TX_MKDIR_ACL))
          true
      else
        zfs_replay_create_acl_bail env
          (createTargetProbe env w (createAclRecord env buf byteswap)).2
          (createAclRecord env buf byteswap)
          (lr_create_t.lr_doid (createAclRecord env buf byteswap)) ENOTSUP false :=
  rfl

/-- `zfs_replay_create_acl`, when it returns, has released the context it
allocated. -/
theorem create_acl_released (b : Build) (env : Env σ) (w : World σ) (buf : Buf)
    (byteswap : Bool) (hs : w.z_fuid_replay = none)
    (hr : (zfs_replay_create_acl b env w buf byteswap).error ≠ none) :
    ContextReleased w (zfs_replay_create_acl b env w buf byteswap) := by
  have h0 := armed_start w hs
  have h1 := armed_call env w w (createAclRecord env buf byteswap)
    (.zfs_zget (lr_create_t.lr_doid (createAclRecord env buf byteswap))) h0 rfl rfl
  have h2 : Armed w (createTargetProbe env w (createAclRecord env buf byteswap)).2 :=
    armed_call env w _ (createAclRecord env buf byteswap)
      (.dmu_object_info (lr_create_t.lr_foid (createAclRecord env buf byteswap))) h1 rfl rfl
  have hs2 : (createTargetProbe env w (createAclRecord env buf byteswap)).2.z_fuid_replay
      = none := by
    simp [createTargetProbe, createParentLookup, call, hs]
  rw [create_acl_eq] at hr ⊢
  split_ifs at hr ⊢
  · apply released_of_no_context
    · simp [createParentLookup, call, hs]
    · intro c hc
      simp [newCalls, createParentLookup, call] at hc
      subst hc
      exact ⟨rfl, rfl⟩
  · exact armed_acl_bail env w _ _ _ _ _ h2 hr
  · exact create_acl_case_released b env w _ _ _ _ _ _ _ h2 hs2 hr
  · exact create_acl_case_released b env w _ _ _ _ _ _ _ h2 hs2 hr
  · exact armed_acl_bail env w _ _ _ _ _ h2 hr

/-- C13: the identity context never persists.  For every handler of the file
(create, create-with-ACL, remove, link, rename, write, truncate, setattr,
ACL-v0, ACL), every build, object store, record and swap flag: if the slot
`z_fuid_replay` is empty when the handler is entered and the handler returns,
the slot is empty on return, and the handler has released as many identity
contexts as it allocated, at most one. -/
theorem context_never_persists (h : FileHandler) (b : Build) (env : Env σ) (w : World σ)
    (buf : Buf) (byteswap : Bool) (hs : w.z_fuid_replay = none)
    (hr : (h.run b env w buf byteswap).error ≠ none) :
    ContextReleased w (h.run b env w buf byteswap) := by
  have hp := plain_handlers_released b env w buf byteswap hs
  cases h with
  | create => exact create_released b env w buf byteswap hs hr
  | create_acl => exact create_acl_released b env w buf byteswap hs hr
  | remove => exact hp.1
  | link => exact hp.2.1
  | rename => exact hp.2.2.1
  | write => exact hp.2.2.2.1
  | truncate => exact hp.2.2.2.2.1
  | setattr => exact setattr_released b env w buf byteswap hs hr
  | acl_v0 => exact hp.2.2.2.2.2
  | acl => exact acl_released env w buf byteswap hs

/-- Concrete instances of `context_never_persists`: a plain create that
allocates and releases a context, a create-with-ACL and a setattr. -/
theorem context_never_persists_witness :
    ContextReleased (listWorld [7])
        (FileHandler.create.run portBuild listStore (listWorld [7]) recCreate false) ∧
      allocs (newCalls (listWorld [7])
        (zfs_replay_create portBuild listStore (listWorld [7]) recCreate false)) = 1 ∧
      ContextReleased (listWorld [7])
        (FileHandler.create_acl.run portBuild listStore (listWorld [7]) recCreateAcl false) ∧
      ContextReleased (listWorld [42])
        (FileHandler.setattr.run portBuild listStore (listWorld [42]) recSetattr false) :=
  ⟨context_never_persists .create portBuild listStore (listWorld [7]) recCreate false rfl
      (by decide),
    by decide,
    context_never_persists .create_acl portBuild listStore (listWorld [7]) recCreateAcl false
      rfl (by decide),
    context_never_persists .setattr portBuild listStore (listWorld [42]) recSetattr false rfl
      (by decide)⟩

/-- The references held after one more call. -/
theorem heldAfter_snoc (log : List (Call × Nat)) (p : Call × Nat) :
    heldAfter (log ++ [p]) = holdStep (heldAfter log) p := by
  simp [heldAfter, List.foldl_append]

/-- At its start a handler call holds nothing. -/
theorem holding_start (w : World σ) : Holding w w [] :=
  ⟨[], [], by simp, by simp, rfl, rfl⟩

/-- The effect of a call into the object store on the references held. -/
theorem holding_call (env : Env σ) (w w' : World σ) (lr : Buf) (c : Call) (held held' : List Nat)
    (h : Holding w w' held)
    (hc : holdStep (some held) (c, (call env w' lr c).1.status) = some held') :
    Holding w (call env w' lr c).2 held' := by
  obtain ⟨pre, rep, h1, h2, h3, h4⟩ := h
  refine ⟨pre ++ [c], rep ++ [(call env w' lr c).1.status], ?_, ?_, ?_, ?_⟩
  · simp [call, h1]
  · simp [call, h2]
  · simp [h3]
  · rw [List.zip_append h3, List.zip_cons_cons, List.zip_nil_right, heldAfter_snoc, h4, hc]

/-- A call that is neither a lookup by `zfs_zget` nor a release keeps the
references held. -/
theorem holding_call_other (env : Env σ) (w w' : World σ) (lr : Buf) (c : Call)
    (held : List Nat) (h : Holding w w' held) (hc : c.isHoldOp = false) :
    Holding w (call env w' lr c).2 held := by
  apply holding_call env w w' lr c held held h
  cases c <;> first | rfl | (simp [Call.isHoldOp] at hc)

/-- Putting an identity context into the slot keeps the references held. -/
theorem holding_withContext (w w' : World σ) (ctx : zfs_fuid_info) (held : List Nat)
    (h : Holding w w' held) : Holding w (withContext w' ctx) held := by
  obtain ⟨pre, rep, h1, h2, h3, h4⟩ := h
  refine ⟨pre ++ [.zfs_fuid_info_alloc], rep ++ [0], ?_, ?_, ?_, ?_⟩
  · simp [withContext, note, h1]
  · simp [withContext, note, h2]
  · simp [h3]
  · rw [List.zip_append h3, List.zip_cons_cons, List.zip_nil_right, heldAfter_snoc, h4]
    rfl

/-- A successful lookup takes a reference. -/
theorem holding_zget (env : Env σ) (w w' : World σ) (lr : Buf) (obj : Nat)
    (held : List Nat) (h : Holding w w' held) :
    Holding w (call env w' lr (.zfs_zget obj)).2
      (if (call env w' lr (.zfs_zget obj)).1.status = 0 then obj :: held else held) := by
  apply holding_call env w w' lr _ held _ h
  simp only [holdStep]
  split <;> rfl

/-- The release of a held reference gives it back. -/
theorem holding_rele (env : Env σ) (w w' : World σ) (lr : Buf) (obj : Nat)
    (held : List Nat) (h : Holding w w' held) (ho : obj ∈ held) :
    Holding w (call env w' lr (.VN_RELE obj)).2 (held.erase obj) := by
  apply holding_call env w w' lr _ held _ h
  simp [holdStep, ho]

/-- A handler call that ends holding nothing is balanced. -/
theorem balanced_of_holding (w : World σ) (r : Ret σ) (h : Holding w r.world []) :
    ReferencesBalanced w r := by
  obtain ⟨pre, rep, h1, h2, h3, h4⟩ := h
  simp [ReferencesBalanced, newLog, newCalls, newReplies, h1, h2, h4]

/-- The handlers without a switch on the kind of primitive keep the
references balanced. -/
theorem plain_handlers_balanced (b : Build) (env : Env σ) (w : World σ) (buf : Buf)
    (byteswap : Bool) :
    ReferencesBalanced w (zfs_replay_remove env w buf byteswap) ∧
      ReferencesBalanced w (zfs_replay_link env w buf byteswap) ∧
      ReferencesBalanced w (zfs_replay_rename env w buf byteswap) ∧
      ReferencesBalanced w (zfs_replay_write b env w buf byteswap) ∧
      ReferencesBalanced w (zfs_replay_truncate env w buf byteswap) ∧
      ReferencesBalanced w (zfs_replay_acl_v0 env w buf byteswap) ∧
      ReferencesBalanced w (zfs_replay_acl env w buf byteswap) := by
  refine ⟨?_, ?_, ?_, ?_, ?_, ?_, ?_⟩
  · simp only [zfs_replay_remove]
    split_ifs <;>
      simp_all [ReferencesBalanced, heldAfter, newLog, newCalls, newReplies, call, holdStep]
  · simp only [zfs_replay_link]
    split_ifs <;>
      simp_all [ReferencesBalanced, heldAfter, newLog, newCalls, newReplies, call, holdStep]
  · simp only [zfs_replay_rename]
    split_ifs <;>
      simp_all [ReferencesBalanced, heldAfter, newLog, newCalls, newReplies, call, holdStep]
  · simp only [zfs_replay_write]
    split_ifs <;>
      simp_all [ReferencesBalanced, heldAfter, newLog, newCalls, newReplies, call, holdStep]
  · simp only [zfs_replay_truncate]
    split_ifs <;>
      simp_all [ReferencesBalanced, heldAfter, newLog, newCalls, newReplies, call, holdStep]
  · simp only [zfs_replay_acl_v0]
    split_ifs <;>
      simp_all [ReferencesBalanced, heldAfter, newLog, newCalls, newReplies, call, holdStep]
  · cases hs : w.z_fuid_replay <;> simp only [zfs_replay_acl] <;> split_ifs <;>
      simp_all [ReferencesBalanced, heldAfter, newLog, newCalls, newReplies, call, note,
        holdStep]

/-- The references held depend on the trace and the statuses only. -/
theorem holding_congr (w w1 w2 : World σ) (held : List Nat) (h : Holding w w1 held)
    (ht : w2.trace = w1.trace) (hp : w2.replies = w1.replies) : Holding w w2 held := by
  obtain ⟨pre, rep, h1, h2, h3, h4⟩ := h
  exact ⟨pre, rep, by rw [ht, h1], by rw [hp, h2], h3, h4⟩

/-- Recording a call that is neither a lookup nor a release keeps the
references held. -/
theorem holding_note (w w' : World σ) (c : Call) (held : List Nat) (h : Holding w w' held)
    (hc : c.isHoldOp = false) : Holding w (note w' c) held := by
  obtain ⟨pre, rep, h1, h2, h3, h4⟩ := h
  refine ⟨pre ++ [c], rep ++ [0], ?_, ?_, ?_, ?_⟩
  · simp [note, h1]
  · simp [note, h2]
  · simp [h3]
  · rw [List.zip_append h3, List.zip_cons_cons, List.zip_nil_right, heldAfter_snoc, h4]
    cases c <;> first | rfl | (simp [Call.isHoldOp] at hc)

/-- The exit path of `zfs_replay_create` gives back the reference to the
parent. -/
theorem holding_create_out (env : Env σ) (w w' : World σ) (lr : Buf) (dzp status : Nat)
    (vp : Bool) (h : Holding w w' [dzp]) :
    ReferencesBalanced w (zfs_replay_create_out env w' lr dzp status vp) := by
  apply balanced_of_holding
  have hv : Holding w
      (if status = 0 ∧ vp = true then (call env w' lr .VN_RELE_vp).2 else w') [dzp] := by
    split
    · exact holding_call_other env w w' lr _ _ h rfl
    · exact h
  have hr := holding_rele env w _ lr dzp [dzp] hv (by simp)
  simp only [List.erase_cons_head] at hr
  simp only [zfs_replay_create_out]
  split
  · exact holding_congr w _ _ [] (holding_note w _ (.zfs_fuid_info_free _) [] hr rfl) rfl rfl
  · exact holding_congr w _ _ [] hr rfl rfl

/-- The exit path of `zfs_replay_create_acl` gives back the reference to the
parent. -/
theorem holding_acl_bail (env : Env σ) (w w' : World σ) (lr : Buf) (dzp status : Nat)
    (vp : Bool) (h : Holding w w' [dzp]) :
    ReferencesBalanced w (zfs_replay_create_acl_bail env w' lr dzp status vp) := by
  apply balanced_of_holding
  have hv : Holding w
      (if status = 0 ∧ vp = true then (call env w' lr .VN_RELE_vp).2 else w') [dzp] := by
    split
    · exact holding_call_other env w w' lr _ _ h rfl
    · exact h
  have hr := holding_rele env w _ lr dzp [dzp] hv (by simp)
  simp only [List.erase_cons_head] at hr
  simp only [zfs_replay_create_acl_bail]
  split
  · exact holding_congr w _ _ [] (holding_note w _ (.zfs_fuid_info_free _) [] hr rfl) rfl rfl
  · split <;> exact hr

/-- The attribute block of a create record with attributes keeps the
references held. -/
theorem holding_create_attr (b : Build) (w0 w : World σ) (lr : Buf) (xva : xvattr)
    (held : List Nat) (h : Holding w0 w held) :
    zfs_replay_create_attr b w lr xva = none ∨
      ∃ xva' start w', zfs_replay_create_attr b w lr xva = some (xva', start, w') ∧
        Holding w0 w' held := by
  simp only [zfs_replay_create_attr, Nat.zero_add]
  cases hx : zfs_replay_xvattr b.DEBUG lr sizeof_lr_create_t xva with
  | none => left; rfl
  | some x =>
    right
    exact ⟨_, _, _, rfl, holding_withContext w0 w _ held h⟩

/-- The exit path of `zfs_replay_create` after the call `c` made while the
parent is held. -/
theorem holding_exit_after_call (env : Env σ) (w0 w : World σ) (lr : Buf) (dzp : Nat)
    (c : Call) (h : Holding w0 w [dzp]) (hc : c.isHoldOp = false) :
    ReferencesBalanced w0
      (zfs_replay_create_out env (call env w lr c).2 lr dzp (call env w lr c).1.status
        (call env w lr c).1.vp) :=
  holding_create_out env w0 _ lr dzp _ _ (holding_call_other env w0 w lr c [dzp] h hc)

/-- The switch of `zfs_replay_create`, when it returns, has given back the
reference to the parent. -/
theorem create_switch_balanced (b : Build) (env : Env σ) (w0 w : World σ) (lr : Buf)
    (dzp : Nat) (xva : xvattr) (error : Nat) (h : Holding w0 w [dzp])
    (hr : (zfs_replay_create_switch b env w lr dzp xva error).error ≠ none) :
    ReferencesBalanced w0 (zfs_replay_create_switch b env w lr dzp xva error) := by
  have hctx := holding_withContext w0 w (plainContext lr).1 [dzp] h
  by_cases h1 : int_cast (lrc_txtype lr) = TX_CREATE
  · rw [create_switch_plain b env w lr dzp xva error h1]
    exact holding_exit_after_call env w0 _ lr dzp _ hctx rfl
  by_cases h2 : int_cast (lrc_txtype lr) = TX_MKDIR
  · rw [create_switch_mkdir b env w lr dzp xva error h2]
    exact holding_exit_after_call env w0 _ lr dzp _ hctx rfl
  by_cases h3 : int_cast (lrc_txtype lr) = TX_SYMLINK
  · rw [create_switch_symlink b env w lr dzp xva error h3]
    exact holding_exit_after_call env w0 _ lr dzp _ h rfl
  by_cases h45 : int_cast (lrc_txtype lr) = TX_CREATE_ATTR ∨
      int_cast (lrc_txtype lr) = TX_MKDIR_ATTR
  · rw [create_switch_attr b env w lr dzp xva error h45] at hr ⊢
    by_cases hd : b.DEBUG = true
    · rw [if_pos hd] at hr; exact absurd rfl hr
    rw [if_neg hd] at hr ⊢
    by_cases hz : b.HAVE_ZPL = true
    · rw [if_pos hz] at hr ⊢
      rcases holding_create_attr b w0 w lr xva [dzp] h with hn | ⟨xva', start, w', he, ha⟩
      · rw [hn] at hr; exact absurd rfl hr
      · rw [he]
        simp only []
        split
        · exact holding_exit_after_call env w0 _ lr dzp _ ha rfl
        · exact holding_exit_after_call env w0 _ lr dzp _ ha rfl
    · rw [if_neg hz]
      split
      · exact holding_exit_after_call env w0 _ lr dzp _ h rfl
      · exact holding_exit_after_call env w0 _ lr dzp _ h rfl
  · have h4 : int_cast (lrc_txtype lr) ≠ TX_CREATE_ATTR := fun e => h45 (Or.inl e)
    have h5 : int_cast (lrc_txtype lr) ≠ TX_MKDIR_ATTR := fun e => h45 (Or.inr e)
    rw [create_switch_other b env w lr dzp xva error h1 h2 h3 h4 h5]
    split
    · split
      · exact holding_exit_after_call env w0 _ lr dzp _ hctx rfl
      · exact holding_create_out env w0 _ lr dzp _ _ hctx
    · exact holding_create_out env w0 _ lr dzp _ _ hctx

/-- `zfs_replay_create`, when it returns, holds no reference. -/
theorem create_balanced (b : Build) (env : Env σ) (w : World σ) (buf : Buf)
    (byteswap : Bool) (hr : (zfs_replay_create b env w buf byteswap).error ≠ none) :
    ReferencesBalanced w (zfs_replay_create b env w buf byteswap) := by
  have h0 := holding_start w
  have h1 := holding_zget env w w (createRecord buf byteswap)
    (lr_create_t.lr_doid (createRecord buf byteswap)) [] h0
  by_cases hp : (createParentLookup env w (createRecord buf byteswap)).1.status = 0
  · have hp' : (call env w (createRecord buf byteswap)
        (.zfs_zget (lr_create_t.lr_doid (createRecord buf byteswap)))).1.status = 0 := hp
    rw [if_pos hp'] at h1
    have h2 := holding_call_other env w _ (createRecord buf byteswap)
      (.dmu_object_info (lr_create_t.lr_foid (createRecord buf byteswap))) _ h1 rfl
    by_cases ht : (createTargetProbe env w (createRecord buf byteswap)).1.status = ENOENT
    · have e := create_reaches_switch b env w buf byteswap hp ht
      rw [e] at hr ⊢
      exact create_switch_balanced b env w _ _ _ _ _ h2 hr
    · have e : zfs_replay_create b env w buf byteswap =
          zfs_replay_create_out env (createTargetProbe env w (createRecord buf byteswap)).2
            (createRecord buf byteswap) (lr_create_t.lr_doid (createRecord buf byteswap))
            (createTargetProbe env w (createRecord buf byteswap)).1.status false := by
        unfold createParentLookup at hp
        unfold createTargetProbe createParentLookup at ht
        simp only [zfs_replay_create, createRecord, createTargetProbe, createParentLookup] at *
        simp [hp, ht]
      rw [e]
      exact holding_create_out env w _ _ _ _ _ h2
  · have e : zfs_replay_create b env w buf byteswap =
        ⟨some (createParentLookup env w (createRecord buf byteswap)).1.status,
          (createParentLookup env w (createRecord buf byteswap)).2, createRecord buf byteswap⟩ := by
      unfold createParentLookup at hp
      simp only [zfs_replay_create, createRecord, createParentLookup] at *
      simp [hp]
    rw [e]
    have hp' : ¬ (call env w (createRecord buf byteswap)
        (.zfs_zget (lr_create_t.lr_doid (createRecord buf byteswap)))).1.status = 0 := hp
    rw [if_neg hp'] at h1
    exact balanced_of_holding w _ h1

/-- Decoding the explicit identity list keeps the references held, and
occupies the slot. -/
theorem holding_acl_fuids (w0 w : World σ) (lr : Buf) (fuidstart : Nat) (held : List Nat)
    (h : Holding w0 w held) :
    Holding w0 (zfs_replay_create_acl_fuids w lr fuidstart).2 held ∧
      (zfs_replay_create_acl_fuids w lr fuidstart).2.z_fuid_replay ≠ none ∧
      (zfs_replay_create_acl_fuids w lr fuidstart).1 ≠ none := by
  refine ⟨holding_withContext w0 w _ held h, ?_, ?_⟩ <;>
    simp [zfs_replay_create_acl_fuids]

/-- A case of the switch of `zfs_replay_create_acl`, when it returns, has given
back the reference to the parent. -/
theorem create_acl_case_balanced (b : Build) (env : Env σ) (w0 w : World σ) (lr : Buf)
    (dzp : Nat) (xva : xvattr) (vflg : Nat) (plain mkdir : Bool) (h : Holding w0 w [dzp])
    (hr : (zfs_replay_create_acl_case b env w lr dzp xva vflg plain mkdir).error ≠ none) :
    ReferencesBalanced w0
      (zfs_replay_create_acl_case b env w lr dzp xva vflg plain mkdir) := by
  cases plain with
  | true =>
    have hf := holding_acl_fuids w0 w lr
      (sizeof_lr_acl_create_t + ZIL_ACE_LENGTH (lr_acl_create_t.lr_acl_bytes lr)) [dzp] h
    simp only [zfs_replay_create_acl_case, if_true, hf.2.2, if_false, hf.2.1] at hr ⊢
    cases mkdir <;> simp only [Bool.false_eq_true, if_false, if_true] at hr ⊢ <;>
      exact holding_acl_bail env w0 _ lr dzp _ _ (holding_call_other env w0 _ lr _ _ hf.1 rfl)
  | false =>
    simp only [zfs_replay_create_acl_case, Bool.false_eq_true, if_false, if_true] at hr ⊢
    split at hr
    · exact absurd rfl hr
    · rename_i xva' xvatlen hpre
      have hf := holding_acl_fuids w0 w lr
        (sizeof_lr_acl_create_t + xvatlen
          + ZIL_ACE_LENGTH (lr_acl_create_t.lr_acl_bytes lr)) [dzp] h
      by_cases hs : w.z_fuid_replay = none
      · simp only [hs, if_true] at hr ⊢
        cases mkdir <;> simp only [Bool.false_eq_true, if_false, if_true] at hr ⊢ <;>
          exact holding_acl_bail env w0 _ lr dzp _ _
            (holding_call_other env w0 _ lr _ _ hf.1 rfl)
      · simp only [hs, if_false] at hr ⊢
        cases mkdir <;> simp only [Bool.false_eq_true, if_false, if_true] at hr ⊢ <;>
          exact holding_acl_bail env w0 _ lr dzp _ _
            (holding_call_other env w0 _ lr _ _ h rfl)

/-- `zfs_replay_create_acl`, when it returns, holds no reference. -/
theorem create_acl_balanced (b : Build) (env : Env σ) (w : World σ) (buf : Buf)
    (byteswap : Bool) (hr : (zfs_replay_create_acl b env w buf byteswap).error ≠ none) :
    ReferencesBalanced w (zfs_replay_create_acl b env w buf byteswap) := by
  have h0 := holding_start w
  have h1 := holding_zget env w w (createAclRecord env buf byteswap)
    (lr_create_t.lr_doid (createAclRecord env buf byteswap)) [] h0
  rw [create_acl_eq] at hr ⊢
  by_cases hp : (createParentLookup env w (createAclRecord env buf byteswap)).1.status = 0
  · have hp' : (call env w (createAclRecord env buf byteswap)
        (.zfs_zget (lr_create_t.lr_doid (createAclRecord env buf byteswap)))).1.status = 0 := hp
    rw [if_pos hp'] at h1
    have h2 : Holding w (createTargetProbe env w (createAclRecord env buf byteswap)).2
        [lr_create_t.lr_doid (createAclRecord env buf byteswap)] :=
      holding_call_other env w _ (createAclRecord env buf byteswap)
        (.dmu_object_info (lr_create_t.lr_foid (createAclRecord env buf byteswap))) _ h1 rfl
    rw [if_neg (not_not.mpr hp)] at hr ⊢
    split_ifs at hr ⊢
    · exact holding_acl_bail env w _ _ _ _ _ h2
    · exact create_acl_case_balanced b env w _ _ _ _ _ _ _ h2 hr
    · exact create_acl_case_balanced b env w _ _ _ _ _ _ _ h2 hr
    · exact holding_acl_bail env w _ _ _ _ _ h2
  · have hp' : ¬ (call env w (createAclRecord env buf byteswap)
        (.zfs_zget (lr_create_t.lr_doid (createAclRecord env buf byteswap)))).1.status = 0 := hp
    rw [if_neg hp'] at h1
    rw [if_pos hp]
    exact balanced_of_holding w _ h1

/-- `zfs_replay_setattr`, when it returns, holds no reference. -/
theorem setattr_balanced (b : Build) (env : Env σ) (w : World σ) (buf : Buf)
    (byteswap : Bool) (hr : (zfs_replay_setattr b env w buf byteswap).error ≠ none) :
    ReferencesBalanced w (zfs_replay_setattr b env w buf byteswap) := by
  rw [setattr_eq] at hr ⊢
  split_ifs at hr ⊢
  · simp_all [ReferencesBalanced, heldAfter, newLog, newCalls, newReplies, call, holdStep,
      afterLookup, lookupStatus]
  · simp_all [ReferencesBalanced, heldAfter, newLog, newCalls, newReplies, call, holdStep,
      afterLookup, lookupStatus]
  · cases hx : zfs_replay_setattr_xva b env (setattrRecord w.z_version buf byteswap) with
    | none => rw [hx] at hr; exact absurd rfl hr
    | some v =>
      simp only [zfs_replay_setattr_apply]
      simp_all [ReferencesBalanced, heldAfter, newLog, newCalls, newReplies, call, note,
        holdStep, afterLookup, lookupStatus]

/-- C14: reference balance.  For every handler of the file (create,
create-with-ACL, remove, link, rename, write, truncate, setattr, ACL-v0, ACL),
every build, object store, record and swap flag: when the handler returns, on
whichever exit path, each reference obtained by a successful `zfs_zget` was
given back by exactly one `VN_RELE`, and no `VN_RELE` was made on an object
that was not held.  For a rename record whose two parent lookups succeed (the
two ids may be equal) the calls are exactly: lookup of the source parent,
lookup of the target parent, `VOP_RENAME` with the source name at the end of
the fixed part and the target name behind the terminator of the source name,
release of the target parent, release of the source parent. -/
theorem references_balanced (h : FileHandler) (b : Build) (env : Env σ) (w : World σ)
    (buf : Buf) (byteswap : Bool) (hr : (h.run b env w buf byteswap).error ≠ none) :
    ReferencesBalanced w (h.run b env w buf byteswap) ∧
      (lookupStatus env w (renameRecord buf byteswap)
          (lr_rename_t.lr_sdoid (renameRecord buf byteswap)) = 0 →
        lookupStatus env
          (afterLookup env w (renameRecord buf byteswap)
            (lr_rename_t.lr_sdoid (renameRecord buf byteswap)))
          (renameRecord buf byteswap) (lr_rename_t.lr_tdoid (renameRecord buf byteswap)) = 0 →
        newCalls w (zfs_replay_rename env w buf byteswap) =
          [.zfs_zget (lr_rename_t.lr_sdoid (renameRecord buf byteswap)),
            .zfs_zget (lr_rename_t.lr_tdoid (renameRecord buf byteswap)),
            .VOP_RENAME (lr_rename_t.lr_sdoid (renameRecord buf byteswap))
              (some sizeof_lr_rename_t)
              (lr_rename_t.lr_tdoid (renameRecord buf byteswap))
              (some (sizeof_lr_rename_t + strlen buf sizeof_lr_rename_t + 1))
              (ciFlag (renameRecord buf byteswap)),
            .VN_RELE (lr_rename_t.lr_tdoid (renameRecord buf byteswap)),
            .VN_RELE (lr_rename_t.lr_sdoid (renameRecord buf byteswap))]) := by
  constructor
  · have hp := plain_handlers_balanced b env w buf byteswap
    cases h with
    | create => exact create_balanced b env w buf byteswap hr
    | create_acl => exact create_acl_balanced b env w buf byteswap hr
    | remove => exact hp.1
    | link => exact hp.2.1
    | rename => exact hp.2.2.1
    | write => exact hp.2.2.2.1
    | truncate => exact hp.2.2.2.2.1
    | setattr => exact setattr_balanced b env w buf byteswap hr
    | acl_v0 => exact hp.2.2.2.2.2.1
    | acl => exact hp.2.2.2.2.2.2
  · intro h0 h1
    simp only [lookupStatus, afterLookup, call, renameRecord] at h0 h1
    simp [newCalls, zfs_replay_rename, renameRecord, h0, h1, call, ciFlag]

/-- Concrete instance of `references_balanced`: a rename of `"a"` to `"b"`
inside the directory 7 takes two references to the directory and gives both
back after the primitive. -/
theorem references_balanced_witness :
    (FileHandler.rename.run portBuild listStore (listWorld [7]) recRenameSame false).error
        ≠ none ∧
      ReferencesBalanced (listWorld [7])
        (FileHandler.rename.run portBuild listStore (listWorld [7]) recRenameSame false) ∧
      newCalls (listWorld [7]) (zfs_replay_rename listStore (listWorld [7]) recRenameSame false)
        = [.zfs_zget 7, .zfs_zget 7, .VOP_RENAME 7 (some 48) 7 (some 50) 0, .VN_RELE 7,
            .VN_RELE 7] ∧
      cstr recRenameSame 48 = [97] ∧ cstr recRenameSame 50 = [98] :=
  ⟨by decide,
    (references_balanced .rename portBuild listStore (listWorld [7]) recRenameSame false
      (by decide)).1,
    ((references_balanced .rename portBuild listStore (listWorld [7]) recRenameSame false
      (by decide)).2 (by decide) (by decide)).trans (by decide),
    by decide, by decide⟩

/-- C15: the domain count as distinct non-zero indices.  For every pair of
identity values, `zfs_replay_domain_cnt uid gid` is the number of distinct
non-zero values among `FUID_INDEX uid` and `FUID_INDEX gid`; it is at most 2,
it is 1 when owner and group share one non-zero index, and it is symmetric in
`uid` and `gid`. -/
theorem domain_cnt_distinct_indices (uid gid : Nat) :
    zfs_replay_domain_cnt uid gid = distinctNonzeroIndices uid gid ∧
      zfs_replay_domain_cnt uid gid ≤ 2 ∧
      (FUID_INDEX uid = FUID_INDEX gid ∧ FUID_INDEX uid ≠ 0 →
        zfs_replay_domain_cnt uid gid = 1) ∧
      zfs_replay_domain_cnt uid gid = zfs_replay_domain_cnt gid uid := by
  simp only [zfs_replay_domain_cnt, distinctNonzeroIndices]
  generalize FUID_INDEX uid = a
  generalize FUID_INDEX gid = b
  by_cases ha : a = 0 <;> by_cases hb : b = 0 <;> by_cases hab : a = b <;>
    simp_all [List.dedup_cons_of_not_mem, List.dedup_cons_of_mem, Nat.pos_iff_ne_zero]
  all_goals first | omega | (split_ifs <;> omega)

/-- A concrete instance of `domain_cnt_distinct_indices`: owner and group of
the same domain 1 count one domain; owner of domain 1 and group of domain 2
count two. -/
theorem domain_cnt_distinct_indices_witness :
    zfs_replay_domain_cnt 4294967301 4294967302 = 1 ∧
      zfs_replay_domain_cnt 4294967301 8589934598 = 2 :=
  ⟨(domain_cnt_distinct_indices 4294967301 4294967302).2.2.1 (by decide),
    (domain_cnt_distinct_indices 4294967301 8589934598).1.trans (by decide)⟩

/-- The spec's count by a predicate `eph` agrees with `zfs_replay_domain_cnt`
on all pairs exactly when `eph` is "the domain index is not zero". -/
theorem countByEphemerality_iff (eph : Nat → Bool) :
    (∀ uid gid, zfs_replay_domain_cnt uid gid = countByEphemerality eph uid gid) ↔
      ∀ x, eph x = decide (FUID_INDEX x ≠ 0) := by
  constructor
  · intro h x
    have hx := h x x
    simp only [zfs_replay_domain_cnt, countByEphemerality] at hx
    by_cases h0 : FUID_INDEX x = 0 <;> cases he : eph x <;> simp_all
  · intro h uid gid
    simp only [zfs_replay_domain_cnt, countByEphemerality, h, Nat.pos_iff_ne_zero,
      decide_eq_true_eq, Nat.zero_add]
    split_ifs <;> omega

/-- C16: the domain count by ephemerality.  For every pair of identity
values the domain count of the compact form is (1 if the owner is Ephemeral,
else 0) + (1 if the group is Ephemeral and its domain index differs from the
owner's, else 0), Ephemeral being `IS_EPHEMERAL`, the predicate of
`zfs_init_vattr` and `zfs_replay_fuid_ugid`; and whenever the owner is
Ephemeral the compact form, for every record and cursor, produces a non-empty
context (a domain table, a domain count of at least 1, not the context
`zfs_fuid_info_alloc` returns) that records the owner's value. -/
theorem domain_cnt_by_ephemerality (buf : Buf) (p : Nat) (e : Option Nat) (uid gid : Nat) :
    zfs_replay_domain_cnt uid gid = countByEphemerality IS_EPHEMERAL uid gid ∧
      (IS_EPHEMERAL uid = true →
        (zfs_replay_fuid_domain buf p e uid gid).1.z_domain_cnt
            = zfs_replay_domain_cnt uid gid ∧
          0 < (zfs_replay_fuid_domain buf p e uid gid).1.z_domain_cnt ∧
          (zfs_replay_fuid_domain buf p e uid gid).1.z_domain_table ≠ none ∧
          (zfs_replay_fuid_domain buf p e uid gid).1 ≠ zfs_fuid_info_alloc ∧
          (zfs_replay_fuid_domain buf p e uid gid).1.z_fuid_owner = uid ∧
          (zfs_replay_fuid_ugid zfs_fuid_info_alloc uid gid).z_fuid_owner = uid) := by
  refine ⟨(countByEphemerality_iff _).2 (fun _ => rfl) uid gid, ?_⟩
  intro he
  have h : FUID_INDEX uid ≠ 0 := by simpa [IS_EPHEMERAL] using he
  have hc : zfs_replay_domain_cnt uid gid ≠ 0 := by
    simp only [zfs_replay_domain_cnt, Nat.zero_add, if_pos h]
    split <;> omega
  have hcnt : (zfs_replay_fuid_domain buf p e uid gid).1.z_domain_cnt
      = zfs_replay_domain_cnt uid gid := by
    simp only [zfs_replay_fuid_domain, if_neg hc, zfs_replay_fuid_domain_common,
      zfs_replay_fuid_ugid]
  refine ⟨hcnt, ?_, ?_, ?_, ?_, ?_⟩
  · rw [hcnt]
    exact Nat.pos_of_ne_zero hc
  · simp only [zfs_replay_fuid_domain, if_neg hc, zfs_replay_fuid_domain_common,
      zfs_replay_fuid_ugid]
    split <;> simp
  · intro hx
    rw [hx] at hcnt
    exact hc hcnt.symm
  · simp only [zfs_replay_fuid_domain, if_neg hc, zfs_replay_fuid_domain_common,
      zfs_replay_fuid_ugid, he, if_true]
    split <;> rfl
  · simp only [zfs_replay_fuid_ugid, he, if_true]
    split <;> rfl

/-- Concrete instances of `domain_cnt_by_ephemerality`: the owner of the mkdir
record `recMkdirDomain` is Ephemeral, with domain index 1, and the group is a
host id; the count is 1 and the context records the owner.  An Ephemeral owner
and an Ephemeral group of another domain count 2. -/
theorem domain_cnt_by_ephemerality_witness :
    IS_EPHEMERAL 4294967301 = true ∧
      zfs_replay_domain_cnt 4294967301 0 = 1 ∧
      zfs_replay_domain_cnt 4294967301 8589934598 = 2 ∧
      (zfs_replay_fuid_domain recMkdirDomain 104 (some 104) 4294967301 0).1.z_fuid_owner
        = 4294967301 :=
  ⟨by decide,
    (domain_cnt_by_ephemerality recMkdirDomain 104 (some 104) 4294967301 0).1.trans
      (by decide),
    (domain_cnt_by_ephemerality recMkdirDomain 104 (some 104) 4294967301 8589934598).1.trans
      (by decide),
    ((domain_cnt_by_ephemerality recMkdirDomain 104 (some 104) 4294967301 0).2
      (by decide)).2.2.2.2.1⟩

/-- C17, as stated, fails: the descriptor `xva_init` requests nothing (its
requested-attribute map is zero, `XVA_ISSET_REQ` is false for `immutable`),
the block `blockThreeWords` has the bit of `immutable` in its bitmap, and
`zfs_replay_xvattr` stores `immutable = 1` all the same: the attribute is not
left untouched, and the map of the result is the bitmap of the block. -/
theorem xvattr_prior_map_overwritten :
    xva_init.xva_reqattrmap = [0, 0, 0] ∧
      XVA_ISSET_REQ xva_init XAT_IMMUTABLE = false ∧
      rd32 blockThreeWords 4 &&& XAT0_IMMUTABLE ≠ 0 ∧
      xva_init.xva_xoptattrs.xoa_immutable = 0 ∧
      (zfs_replay_xvattr true blockThreeWords 0 xva_init).map
          (fun out => out.xva_xoptattrs.xoa_immutable) = some 1 ∧
      (zfs_replay_xvattr true blockThreeWords 0 xva_init).map
          (fun out => out.xva_reqattrmap) = some [XAT0_IMMUTABLE ||| XAT0_CREATETIME, 0, 0] := by
  decide

/-- C17, amended: the attribute copy is gated by the record's bitmap alone.
For every attribute block whose declared word count equals the map size of a
descriptor prepared by `xva_init` (`xva_initialised`), with any attributes,
mask and maps stored into it: `zfs_replay_xvattr` first stores the record's
bitmap into the requested-attribute map, which then holds the three words of
the record's bitmap and nothing of what the caller had there, so that the
whole result is the same for every other prior content `map'` of the map;
each of the eleven booleans, the creation time and the scan-stamp is copied
from the record if its bit is set in the record's bitmap and keeps its value
if that bit is clear. -/
theorem xvattr_gated_by_record_bitmap (debug : Bool) (buf : Buf) (p : Nat) (xvap : xvattr)
    (map' : List Nat) (hm : rd32 buf p = xvap.xva_mapsize)
    (hinit : xva_initialised xvap = true) (hmap : map'.length = XVA_MAPSIZE) :
    ∃ out, zfs_replay_xvattr debug buf p xvap = some out ∧
      zfs_replay_xvattr debug buf p { xvap with xva_reqattrmap := map' } = some out ∧
      out.xva_reqattrmap = [rd32 buf (p + 4), rd32 buf (p + 8), rd32 buf (p + 12)] ∧
      (∀ ba ∈ boolAttrs,
        ba.2 out.xva_xoptattrs
          = if rd32 buf (p + 4) &&& ba.1 ≠ 0 then
              attr_flag (rd64 buf (layoutFlags p (rd32 buf p))) ba.1
            else ba.2 xvap.xva_xoptattrs) ∧
      out.xva_xoptattrs.xoa_createtime
        = (if rd32 buf (p + 4) &&& XAT0_CREATETIME ≠ 0 then
            ZFS_TIME_DECODE buf (layoutCrtime p (rd32 buf p))
          else xvap.xva_xoptattrs.xoa_createtime) ∧
      out.xva_xoptattrs.xoa_av_scanstamp
        = (if rd32 buf (p + 4) &&& XAT0_AV_SCANSTAMP ≠ 0 then layoutBlob buf p (rd32 buf p)
          else xvap.xva_xoptattrs.xoa_av_scanstamp) := by
  obtain ⟨hmagic, hsize, hlen⟩ := (xva_initialised_iff xvap).1 hinit
  have h3 : rd32 buf p = 3 := by rw [hm, hsize]; rfl
  have hlen3 : xvap.xva_reqattrmap.length = 3 := hlen
  have hmap3 : map'.length = 3 := hmap
  rw [h3]
  have hd := decode_three_words buf p
    { xvap with xva_vattr :=
        { xvap.xva_vattr with va_mask := xvap.xva_vattr.va_mask ||| AT_XVATTR } }
    xvap.xva_xoptattrs h3 hmagic (by show 0 < xvap.xva_mapsize; rw [hsize]; decide) hlen
  have hsame : zfs_replay_xvattr_decode buf p
        { xvap with
          xva_reqattrmap := map'
          xva_vattr :=
            { xvap.xva_vattr with va_mask := xvap.xva_vattr.va_mask ||| AT_XVATTR } }
        xvap.xva_xoptattrs
      = zfs_replay_xvattr_decode buf p
        { xvap with xva_vattr :=
            { xvap.xva_vattr with va_mask := xvap.xva_vattr.va_mask ||| AT_XVATTR } }
        xvap.xva_xoptattrs := by
    simp only [zfs_replay_xvattr_decode, h3, copy_bitmap_three buf p _ hlen3,
      copy_bitmap_three buf p _ hmap3]
  refine ⟨_, xvattr_returns debug buf p xvap hm, ?_, ?_, ?_, ?_, ?_⟩
  · rw [xvattr_returns debug buf p { xvap with xva_reqattrmap := map' } hm]
    exact congrArg some hsame
  · simp only [zfs_replay_xvattr_decode, h3]
    exact copy_bitmap_three buf p _ hlen3
  · intro ba hba
    rw [hd.1 ba hba]
    rfl
  · rw [hd.2.1]
    rfl
  · rw [hd.2.2]
    simp [layoutBlob, layoutScanstamp, layoutCrtime, layoutFlags, Nat.add_assoc]

/-- A concrete instance of `xvattr_gated_by_record_bitmap`: the block
`blockThreeWords` decoded into `xva_init` and into a descriptor whose prior
map requested `hidden`: the results are the same, the map holds the bitmap of
the block, `immutable` (bit set in the bitmap) is copied, and `hidden` (bit
clear in the bitmap, set in the flags word) is left at 0. -/
theorem xvattr_gated_by_record_bitmap_witness :
    ∃ out, zfs_replay_xvattr true blockThreeWords 0 xva_init = some out ∧
      zfs_replay_xvattr true blockThreeWords 0
        { xva_init with xva_reqattrmap := [XAT0_HIDDEN, 0, 0] } = some out ∧
      out.xva_reqattrmap = [XAT0_IMMUTABLE ||| XAT0_CREATETIME, 0, 0] ∧
      out.xva_xoptattrs.xoa_immutable = 1 ∧
      out.xva_xoptattrs.xoa_hidden = 0 := by
  obtain ⟨out, h, h', hw, hb, _, _⟩ :=
    xvattr_gated_by_record_bitmap true blockThreeWords 0 xva_init [XAT0_HIDDEN, 0, 0]
      (by decide) (by decide) (by decide)
  refine ⟨out, h, h', hw.trans (by decide), ?_, ?_⟩
  · exact (hb (XAT0_IMMUTABLE, xoptattr.xoa_immutable) (by simp [boolAttrs])).trans
      (by decide)
  · exact (hb (XAT0_HIDDEN, xoptattr.xoa_hidden) (by simp [boolAttrs])).trans (by decide)

/-- The conversion leaves every byte outside the region where it is. -/
theorem byteswap_array_outside (w : Nat) (buf : Buf) (off size i : Nat)
    (h : i < off ∨ off + size ≤ i) :
    (byteswap_array w buf off size).getD i 0 = buf.getD i 0 := by
  have hs : swapIdx w off size i = i := by
    unfold swapIdx
    have := Nat.div_mul_le_self size w
    rw [if_neg (by omega)]
  by_cases hi : i < buf.length
  · rw [byteswap_array_getD w buf off size i hi, hs]
  · have h1 : (byteswap_array w buf off size).length ≤ i := by
      rw [byteswap_array_length]; omega
    rw [List.getD_eq_default _ _ h1, List.getD_eq_default _ _ (by omega)]

/-- Two buffers of one length that agree on every byte from offset `k` on have
the same tail from `k`. -/
theorem drop_eq_of_getD (a b : Buf) (k : Nat) (hl : a.length = b.length)
    (h : ∀ i, k ≤ i → a.getD i 0 = b.getD i 0) : a.drop k = b.drop k := by
  apply List.ext_getElem
  · simp [hl]
  · intro j h1 h2
    have hj := h (k + j) (Nat.le_add_right k j)
    simp only [List.length_drop] at h1 h2
    rw [List.getD_eq_getElem a 0 (by omega), List.getD_eq_getElem b 0 (by omega)] at hj
    simpa using hj

/-- A byte read sees only the byte at its offset. -/
theorem rd8_of_getD (a b : Buf) (i : Nat) (h : a.getD i 0 = b.getD i 0) :
    rd8 a i = rd8 b i := by
  simp only [rd8, h]

/-- A 32-bit word of two buffers that agree on its four bytes. -/
theorem rd32_of_getD (a b : Buf) (p : Nat)
    (h : ∀ i, p ≤ i → i < p + 4 → a.getD i 0 = b.getD i 0) : rd32 a p = rd32 b p := by
  simp only [rd32, rd8, h p (by omega) (by omega), h (p + 1) (by omega) (by omega),
    h (p + 2) (by omega) (by omega), h (p + 3) (by omega) (by omega)]

/-- A 64-bit word of two buffers that agree on its eight bytes. -/
theorem rd64_of_getD (a b : Buf) (p : Nat)
    (h : ∀ i, p ≤ i → i < p + 8 → a.getD i 0 = b.getD i 0) : rd64 a p = rd64 b p := by
  simp only [rd64]
  rw [rd32_of_getD a b p (fun i h1 h2 => h i h1 (by omega)),
    rd32_of_getD a b (p + 4) (fun i h1 h2 => h i (by omega) (by omega))]

/-- `zfs_replay_swap_attrs` keeps the length of the record. -/
theorem swap_attrs_length (buf : Buf) (lrattr : Nat) :
    (zfs_replay_swap_attrs buf lrattr).length = buf.length := by
  simp [zfs_replay_swap_attrs, byteswap_uint32_array, byteswap_uint64_array,
    byteswap_array_length]

/-- The word count of the block after `zfs_replay_swap_attrs` is the one the
function read after its first conversion. -/
theorem swap_attrs_masksize (buf : Buf) (lrattr : Nat) :
    rd32 (zfs_replay_swap_attrs buf lrattr) lrattr
      = rd32 (byteswap_uint32_array buf lrattr sizeof_lr_attr_t) lrattr := by
  simp only [zfs_replay_swap_attrs, byteswap_uint32_array, byteswap_uint64_array,
    swap_attrs_words, sizeof_lr_attr_t]
  have h2 : rd32 (byteswap_array 4
      (byteswap_array 4 buf lrattr 8) (lrattr + 8)
      (u32_pred (rd32 (byteswap_array 4 buf lrattr 8) lrattr) * 4)) lrattr
      = rd32 (byteswap_array 4 buf lrattr 8) lrattr :=
    rd32_of_getD _ _ lrattr (fun i h1 h2 =>
      byteswap_array_outside 4 _ _ _ i (Or.inl (by omega)))
  exact (rd32_of_getD _ _ lrattr (fun i h1 h2 =>
    byteswap_array_outside 8 _ _ _ i (Or.inl (by omega)))).trans h2

/-- `zfs_replay_swap_attrs` changes no byte before the block and no byte
behind the first `8 + 4 * (m - 1) + 24` bytes of the block, `m` being the word
count of the block and `m - 1` the C arithmetic on a `uint32_t`. -/
theorem swap_attrs_outside (buf : Buf) (lrattr i : Nat)
    (h : i < lrattr ∨
      lrattr + (8 + 4 * u32_pred (rd32 (zfs_replay_swap_attrs buf lrattr) lrattr) + 24) ≤ i) :
    (zfs_replay_swap_attrs buf lrattr).getD i 0 = buf.getD i 0 := by
  rw [swap_attrs_masksize] at h
  simp only [byteswap_uint32_array, sizeof_lr_attr_t] at h
  have h2 : rd32 (byteswap_array 4
      (byteswap_array 4 buf lrattr 8) (lrattr + 8)
      (u32_pred (rd32 (byteswap_array 4 buf lrattr 8) lrattr) * 4)) lrattr
      = rd32 (byteswap_array 4 buf lrattr 8) lrattr :=
    rd32_of_getD _ _ lrattr (fun i h1 h2 =>
      byteswap_array_outside 4 _ _ _ i (Or.inl (by omega)))
  simp only [zfs_replay_swap_attrs, byteswap_uint32_array, byteswap_uint64_array,
    swap_attrs_words, sizeof_lr_attr_t, h2]
  rw [byteswap_array_outside 8 _ _ _ i (by omega),
    byteswap_array_outside 4 _ _ _ i (by omega),
    byteswap_array_outside 4 _ _ _ i (by omega)]

/-- The conversion of a create record changes no byte behind the fixed part
and the head of the attribute block. -/
theorem create_swap_outside (buf : Buf) (i : Nat)
    (h : createSwapEnd (createRecord buf true) ≤ i) :
    (createRecord buf true).getD i 0 = buf.getD i 0 ∧
      (createRecord buf true).length = buf.length := by
  by_cases hc : int_cast (lrc_txtype (byteswap_uint64_array buf 0 sizeof_lr_create_t))
        = TX_CREATE_ATTR ∨
      int_cast (lrc_txtype (byteswap_uint64_array buf 0 sizeof_lr_create_t)) = TX_MKDIR_ATTR
  · have hrec : createRecord buf true
        = zfs_replay_swap_attrs (byteswap_uint64_array buf 0 sizeof_lr_create_t)
            sizeof_lr_create_t := by
      simp only [createRecord, zfs_replay_create_swap, if_true]
      rw [if_pos hc]
    have ht : lrc_txtype (createRecord buf true)
        = lrc_txtype (byteswap_uint64_array buf 0 sizeof_lr_create_t) := by
      rw [hrec]
      exact rd64_of_getD _ _ 0 (fun j _ h2 =>
        swap_attrs_outside _ _ j (Or.inl (by simp only [sizeof_lr_create_t]; omega)))
    have ha : createHasAttrs (createRecord buf true) = true := by
      simp only [createHasAttrs, ht, decide_eq_true_eq]
      exact hc
    simp only [createSwapEnd, ha, if_true, attrSwapEnd] at h
    rw [hrec] at h ⊢
    constructor
    · rw [swap_attrs_outside _ _ i (Or.inr h)]
      exact byteswap_array_outside 8 buf 0 _ i (Or.inr (by omega))
    · rw [swap_attrs_length]
      exact byteswap_array_length 8 buf 0 _
  · have hrec : createRecord buf true
        = byteswap_uint64_array buf 0 sizeof_lr_create_t := by
      simp only [createRecord, zfs_replay_create_swap, if_true]
      rw [if_neg hc]
    have ha : createHasAttrs (createRecord buf true) = false := by
      simp only [createHasAttrs, hrec, decide_eq_false_iff_not]
      exact hc
    simp only [createSwapEnd, ha] at h
    rw [hrec]
    exact ⟨byteswap_array_outside 8 buf 0 _ i (Or.inr (by simpa using h)),
      byteswap_array_length 8 buf 0 _⟩

/-- The conversion of a setattr record changes no byte behind the fixed part
and the head of the attribute block. -/
theorem setattr_swap_outside (z_version : Nat) (buf : Buf) (i : Nat)
    (h : setattrSwapEnd z_version (setattrRecord z_version buf true) ≤ i) :
    (setattrRecord z_version buf true).getD i 0 = buf.getD i 0 ∧
      (setattrRecord z_version buf true).length = buf.length := by
  by_cases hc : lr_setattr_t.lr_mask (byteswap_uint64_array buf 0 sizeof_lr_setattr_t)
        &&& AT_XVATTR ≠ 0 ∧ z_version ≥ ZPL_VERSION_INITIAL
  · have hrec : setattrRecord z_version buf true
        = zfs_replay_swap_attrs (byteswap_uint64_array buf 0 sizeof_lr_setattr_t)
            sizeof_lr_setattr_t := by
      simp only [setattrRecord, zfs_replay_setattr_swap, if_true]
      rw [if_pos hc]
    have ht : lr_setattr_t.lr_mask (setattrRecord z_version buf true)
        = lr_setattr_t.lr_mask (byteswap_uint64_array buf 0 sizeof_lr_setattr_t) := by
      rw [hrec]
      exact rd64_of_getD _ _ 40 (fun j _ h2 =>
        swap_attrs_outside _ _ j (Or.inl (by simp only [sizeof_lr_setattr_t]; omega)))
    have ha : setattrHasAttrs z_version (setattrRecord z_version buf true) = true := by
      simp only [setattrHasAttrs, ht, decide_eq_true_eq]
      exact hc
    simp only [setattrSwapEnd, ha, if_true, attrSwapEnd] at h
    rw [hrec] at h ⊢
    constructor
    · rw [swap_attrs_outside _ _ i (Or.inr h)]
      exact byteswap_array_outside 8 buf 0 _ i (Or.inr (by omega))
    · rw [swap_attrs_length]
      exact byteswap_array_length 8 buf 0 _
  · have hrec : setattrRecord z_version buf true
        = byteswap_uint64_array buf 0 sizeof_lr_setattr_t := by
      simp only [setattrRecord, zfs_replay_setattr_swap, if_true]
      rw [if_neg hc]
    have ha : setattrHasAttrs z_version (setattrRecord z_version buf true) = false := by
      simp only [setattrHasAttrs, hrec, decide_eq_false_iff_not]
      exact hc
    simp only [setattrSwapEnd, ha] at h
    rw [hrec]
    exact ⟨byteswap_array_outside 8 buf 0 _ i (Or.inr (by simpa using h)),
      byteswap_array_length 8 buf 0 _⟩

/-- The conversion of an ACL record changes no byte behind the list of
identity values, when the conversion of the entry array stays inside it. -/
theorem acl_swap_outside (env : Env σ) (hconf : AceSwapConfined env) (buf : Buf) (i : Nat)
    (h : aclSwapEnd (aclRecord env buf true) ≤ i) :
    (aclRecord env buf true).getD i 0 = buf.getD i 0 ∧
      (aclRecord env buf true).length = buf.length := by
  have h1l := byteswap_array_length 8 buf 0 sizeof_lr_acl_t
  have h2 := hconf (byteswap_uint64_array buf 0 sizeof_lr_acl_t) sizeof_lr_acl_t
    (lr_acl_t.lr_acl_bytes (byteswap_uint64_array buf 0 sizeof_lr_acl_t))
  have hhdr : ∀ p, p + 8 ≤ sizeof_lr_acl_t →
      rd64 (env.zfs_ace_byteswap (byteswap_uint64_array buf 0 sizeof_lr_acl_t) sizeof_lr_acl_t
        (lr_acl_t.lr_acl_bytes (byteswap_uint64_array buf 0 sizeof_lr_acl_t))) p
      = rd64 (byteswap_uint64_array buf 0 sizeof_lr_acl_t) p := fun p hp =>
    rd64_of_getD _ _ p (fun j _ hj => h2.2 j (Or.inl (by omega)))
  have hbytes := hhdr 64 (by decide)
  have hcnt := hhdr 56 (by decide)
  by_cases hc : lr_acl_t.lr_fuidcnt (byteswap_uint64_array buf 0 sizeof_lr_acl_t) ≠ 0
  · have hrec : aclRecord env buf true
        = byteswap_uint64_array
            (env.zfs_ace_byteswap (byteswap_uint64_array buf 0 sizeof_lr_acl_t) sizeof_lr_acl_t
              (lr_acl_t.lr_acl_bytes (byteswap_uint64_array buf 0 sizeof_lr_acl_t)))
            (sizeof_lr_acl_t + ZIL_ACE_LENGTH
              (lr_acl_t.lr_acl_bytes (byteswap_uint64_array buf 0 sizeof_lr_acl_t)))
            (lr_acl_t.lr_fuidcnt (byteswap_uint64_array buf 0 sizeof_lr_acl_t) * 8
              % 18446744073709551616) := by
      simp only [aclRecord, zfs_replay_acl_swap, if_true, lr_acl_t.lr_fuidcnt,
        lr_acl_t.lr_acl_bytes] at hc hbytes hcnt ⊢
      rw [hcnt, hbytes, if_pos hc]
    have hf : ∀ p, p + 8 ≤ sizeof_lr_acl_t →
        rd64 (aclRecord env buf true) p
          = rd64 (byteswap_uint64_array buf 0 sizeof_lr_acl_t) p := fun p hp => by
      rw [hrec, ← hhdr p hp]
      exact rd64_of_getD _ _ p (fun j _ hj =>
        byteswap_array_outside 8 _ _ _ j (Or.inl (by omega)))
    simp only [aclSwapEnd, lr_acl_t.lr_acl_bytes, lr_acl_t.lr_fuidcnt, hf 64 (by decide),
      hf 56 (by decide)] at h
    rw [hrec]
    constructor
    · rw [byteswap_uint64_array, byteswap_array_outside 8 _ _ _ i
        (Or.inr (by simp only [lr_acl_t.lr_acl_bytes, lr_acl_t.lr_fuidcnt]; omega)),
        h2.2 i (Or.inr (by simp only [lr_acl_t.lr_acl_bytes]; omega))]
      exact byteswap_array_outside 8 buf 0 _ i (Or.inr (by omega))
    · rw [byteswap_uint64_array, byteswap_array_length, h2.1]
      exact h1l
  · have hrec : aclRecord env buf true
        = env.zfs_ace_byteswap (byteswap_uint64_array buf 0 sizeof_lr_acl_t) sizeof_lr_acl_t
            (lr_acl_t.lr_acl_bytes (byteswap_uint64_array buf 0 sizeof_lr_acl_t)) := by
      simp only [aclRecord, zfs_replay_acl_swap, if_true, lr_acl_t.lr_fuidcnt,
        lr_acl_t.lr_acl_bytes] at hc hbytes hcnt ⊢
      rw [hcnt, if_neg hc]
    simp only [aclSwapEnd, lr_acl_t.lr_acl_bytes, lr_acl_t.lr_fuidcnt, hrec] at h hbytes hcnt
    rw [hbytes, hcnt] at h
    rw [hrec]
    constructor
    · rw [h2.2 i (Or.inr (by simp only [lr_acl_t.lr_acl_bytes]; omega))]
      exact byteswap_array_outside 8 buf 0 _ i (Or.inr (by omega))
    · rw [h2.1]
      exact h1l

/-- The conversion of the entry array and of the identity values keeps the
length, every byte before the entry array and every byte behind the identity
values, when the conversion of the entry array stays inside it. -/
theorem create_acl_swap_acl_outside (env : Env σ) (hconf : AceSwapConfined env) (buf : Buf)
    (aclstart : Nat) (ha : sizeof_lr_acl_create_t ≤ aclstart) :
    (zfs_replay_create_acl_swap_acl env buf aclstart).length = buf.length ∧
      (∀ i, i < aclstart →
        (zfs_replay_create_acl_swap_acl env buf aclstart).getD i 0 = buf.getD i 0) ∧
      (∀ i, aclstart + ZIL_ACE_LENGTH (lr_acl_create_t.lr_acl_bytes buf)
          + lr_acl_create_t.lr_fuidcnt buf * 8 % 18446744073709551616 ≤ i →
        (zfs_replay_create_acl_swap_acl env buf aclstart).getD i 0 = buf.getD i 0) := by
  have h2 := hconf buf aclstart (lr_acl_create_t.lr_acl_bytes buf)
  have ha' : 144 ≤ aclstart := ha
  have hhdr : ∀ p, p + 8 ≤ 144 →
      rd64 (env.zfs_ace_byteswap buf aclstart (lr_acl_create_t.lr_acl_bytes buf)) p
        = rd64 buf p := fun p hp =>
    rd64_of_getD _ _ p (fun j _ hj => h2.2 j (Or.inl (by omega)))
  have hbytes := hhdr 128 (by decide)
  have hcnt := hhdr 120 (by decide)
  simp only [zfs_replay_create_acl_swap_acl, lr_acl_create_t.lr_fuidcnt,
    lr_acl_create_t.lr_acl_bytes] at h2 hbytes hcnt ⊢
  rw [hcnt, hbytes]
  split
  · refine ⟨?_, ?_, ?_⟩
    · rw [byteswap_uint64_array, byteswap_array_length, h2.1]
    · intro i hi
      rw [byteswap_uint64_array, byteswap_array_outside 8 _ _ _ i (Or.inl (by omega)),
        h2.2 i (Or.inl hi)]
    · intro i hi
      rw [byteswap_uint64_array, byteswap_array_outside 8 _ _ _ i (Or.inr (by omega)),
        h2.2 i (Or.inr (by omega))]
  · refine ⟨h2.1, fun i hi => h2.2 i (Or.inl hi), fun i hi => h2.2 i (Or.inr (by omega))⟩

/-- The create-with-ACL record as its handler reads it, in two steps. -/
theorem create_acl_record_eq (env : Env σ) (buf : Buf) :
    createAclRecord env buf true =
      if int_cast (lrc_txtype (byteswap_uint64_array buf 0 sizeof_lr_acl_create_t))
            = TX_CREATE_ACL_ATTR ∨
          int_cast (lrc_txtype (byteswap_uint64_array buf 0 sizeof_lr_acl_create_t))
            = TX_MKDIR_ACL_ATTR then
        zfs_replay_create_acl_swap_acl env
          (zfs_replay_swap_attrs (byteswap_uint64_array buf 0 sizeof_lr_acl_create_t)
            sizeof_lr_acl_create_t)
          (sizeof_lr_acl_create_t + ZIL_XVAT_SIZE
            (rd32 (zfs_replay_swap_attrs (byteswap_uint64_array buf 0 sizeof_lr_acl_create_t)
              sizeof_lr_acl_create_t) sizeof_lr_acl_create_t))
      else
        zfs_replay_create_acl_swap_acl env
          (byteswap_uint64_array buf 0 sizeof_lr_acl_create_t) (sizeof_lr_acl_create_t + 0) := by
  simp only [createAclRecord, zfs_replay_create_acl_swap, if_true,
    zfs_replay_create_acl_swap_acl]
  split <;> rfl

/-- The conversion of a create-with-ACL record changes no byte between the
head of the attribute block and the entry array, and no byte behind the list
of identity values, when the conversion of the entry array stays inside it. -/
theorem create_acl_swap_outside (env : Env σ) (hconf : AceSwapConfined env) (buf : Buf)
    (i : Nat) (h1 : createAclHeadEnd (createAclRecord env buf true) ≤ i)
    (h2 : i < createAclStart (createAclRecord env buf true) ∨
      createAclSwapEnd (createAclRecord env buf true) ≤ i) :
    (createAclRecord env buf true).getD i 0 = buf.getD i 0 ∧
      (createAclRecord env buf true).length = buf.length := by
  have hl1 := byteswap_array_length 8 buf 0 sizeof_lr_acl_create_t
  have hs : sizeof_lr_acl_create_t = 144 := rfl
  by_cases hc : int_cast (lrc_txtype (byteswap_uint64_array buf 0 sizeof_lr_acl_create_t))
        = TX_CREATE_ACL_ATTR ∨
      int_cast (lrc_txtype (byteswap_uint64_array buf 0 sizeof_lr_acl_create_t))
        = TX_MKDIR_ACL_ATTR
  · have hrec := create_acl_record_eq env buf
    rw [if_pos hc] at hrec
    generalize hb2 : zfs_replay_swap_attrs (byteswap_uint64_array buf 0 sizeof_lr_acl_create_t)
      sizeof_lr_acl_create_t = b2 at hrec
    have hx : ZIL_XVAT_SIZE (rd32 b2 sizeof_lr_acl_create_t)
        = 8 + 4 * u32_pred (rd32 b2 sizeof_lr_acl_create_t) + 56 := rfl
    have T := create_acl_swap_acl_outside env hconf b2
      (sizeof_lr_acl_create_t + ZIL_XVAT_SIZE (rd32 b2 sizeof_lr_acl_create_t)) (by omega)
    rw [← hrec] at T
    have hf : ∀ p, p + 8 ≤ 144 → rd64 (createAclRecord env buf true) p = rd64 b2 p :=
      fun p hp => rd64_of_getD _ _ p (fun j _ hj => T.2.1 j (by omega))
    have hm : rd32 (createAclRecord env buf true) sizeof_lr_acl_create_t
        = rd32 b2 sizeof_lr_acl_create_t :=
      rd32_of_getD _ _ _ (fun j _ hj => T.2.1 j (by omega))
    have ht : lrc_txtype (createAclRecord env buf true)
        = lrc_txtype (byteswap_uint64_array buf 0 sizeof_lr_acl_create_t) := by
      rw [lrc_txtype, hf 0 (by decide), ← hb2]
      exact rd64_of_getD _ _ 0 (fun j _ hj =>
        swap_attrs_outside _ _ j (Or.inl (by omega)))
    have ha : createAclHasAttrs (createAclRecord env buf true) = true := by
      simp only [createAclHasAttrs, ht, decide_eq_true_eq]
      exact hc
    simp only [createAclHeadEnd, ha, if_true, attrSwapEnd, hm] at h1
    simp only [createAclStart, createAclSwapEnd, ha, if_true, hm, lr_acl_create_t.lr_acl_bytes,
      lr_acl_create_t.lr_fuidcnt, hf 128 (by decide), hf 120 (by decide)] at h2
    have hb : b2.getD i 0 = buf.getD i 0 := by
      rw [← hb2] at h1 ⊢
      rw [swap_attrs_outside _ _ i (Or.inr h1)]
      exact byteswap_array_outside 8 buf 0 _ i (Or.inr (by omega))
    constructor
    · rcases h2 with h2 | h2
      · rw [T.2.1 i h2, hb]
      · rw [T.2.2 i h2, hb]
    · rw [T.1, ← hb2, swap_attrs_length]
      exact hl1
  · have hrec := create_acl_record_eq env buf
    rw [if_neg hc] at hrec
    generalize hb2 : byteswap_uint64_array buf 0 sizeof_lr_acl_create_t = b2 at hrec
    have T := create_acl_swap_acl_outside env hconf b2 (sizeof_lr_acl_create_t + 0) (by omega)
    rw [← hrec] at T
    have hf : ∀ p, p + 8 ≤ 144 → rd64 (createAclRecord env buf true) p = rd64 b2 p :=
      fun p hp => rd64_of_getD _ _ p (fun j _ hj => T.2.1 j (by omega))
    have ha : createAclHasAttrs (createAclRecord env buf true) = false := by
      simp only [createAclHasAttrs, lrc_txtype, hf 0 (by decide), decide_eq_false_iff_not]
      rw [← hb2]
      exact hc
    simp only [createAclHeadEnd, ha] at h1
    simp only [createAclStart, createAclSwapEnd, ha, lr_acl_create_t.lr_acl_bytes,
      lr_acl_create_t.lr_fuidcnt, hf 128 (by decide), hf 120 (by decide)] at h2
    have hb : b2.getD i 0 = buf.getD i 0 := by
      rw [← hb2]
      exact byteswap_array_outside 8 buf 0 _ i (Or.inr (by simpa using h1))
    constructor
    · rcases h2 with h2 | h2
      · rw [T.2.1 i (by simpa using h2), hb]
      · rw [T.2.2 i (by simpa using h2), hb]
    · rw [T.1, ← hb2]
      exact hl1

/-- The handlers without a switch on the kind of primitive hand back the
record as they read it. -/
theorem plain_handlers_buf (b : Build) (env : Env σ) (w : World σ) (buf : Buf)
    (byteswap : Bool) :
    (zfs_replay_remove env w buf byteswap).buf = removeRecord buf byteswap ∧
      (zfs_replay_link env w buf byteswap).buf = linkRecord buf byteswap ∧
      (zfs_replay_rename env w buf byteswap).buf = renameRecord buf byteswap ∧
      (zfs_replay_write b env w buf byteswap).buf = writeRecord buf byteswap ∧
      (zfs_replay_truncate env w buf byteswap).buf = truncateRecord buf byteswap ∧
      (zfs_replay_acl env w buf byteswap).buf = aclRecord env buf byteswap := by
  refine ⟨?_, ?_, ?_, ?_, ?_, ?_⟩
  · simp only [zfs_replay_remove, removeRecord]
    split_ifs <;> rfl
  · simp only [zfs_replay_link, linkRecord]
    split_ifs <;> rfl
  · simp only [zfs_replay_rename, renameRecord]
    split_ifs <;> rfl
  · simp only [zfs_replay_write, writeRecord]
    split_ifs <;> rfl
  · simp only [zfs_replay_truncate, truncateRecord]
    split_ifs <;> rfl
  · simp only [zfs_replay_acl, aclRecord]
    split_ifs <;> rfl

/-- `zfs_replay_setattr` hands back the record as it read it. -/
theorem setattr_buf (b : Build) (env : Env σ) (w : World σ) (buf : Buf) (byteswap : Bool) :
    (zfs_replay_setattr b env w buf byteswap).buf = setattrRecord w.z_version buf byteswap := by
  rw [setattr_eq]
  split_ifs
  all_goals first | rfl | (split <;> rfl)

/-- The switch of `zfs_replay_create` hands back the record it was given. -/
theorem create_switch_buf (b : Build) (env : Env σ) (w : World σ) (lr : Buf)
    (dzp : Nat) (xva : xvattr) (error : Nat) :
    (zfs_replay_create_switch b env w lr dzp xva error).buf = lr := by
  by_cases h1 : int_cast (lrc_txtype lr) = TX_CREATE
  · rw [create_switch_plain b env w lr dzp xva error h1]; rfl
  by_cases h2 : int_cast (lrc_txtype lr) = TX_MKDIR
  · rw [create_switch_mkdir b env w lr dzp xva error h2]; rfl
  by_cases h3 : int_cast (lrc_txtype lr) = TX_SYMLINK
  · rw [create_switch_symlink b env w lr dzp xva error h3]; rfl
  by_cases h45 : int_cast (lrc_txtype lr) = TX_CREATE_ATTR ∨
      int_cast (lrc_txtype lr) = TX_MKDIR_ATTR
  · rw [create_switch_attr b env w lr dzp xva error h45]
    split
    · rfl
    · split
      · split
        · rfl
        · split <;> rfl
      · split <;> rfl
  · have h4 : int_cast (lrc_txtype lr) ≠ TX_CREATE_ATTR := fun e => h45 (Or.inl e)
    have h5 : int_cast (lrc_txtype lr) ≠ TX_MKDIR_ATTR := fun e => h45 (Or.inr e)
    rw [create_switch_other b env w lr dzp xva error h1 h2 h3 h4 h5]
    split
    · split <;> rfl
    · rfl

/-- `zfs_replay_create` hands back the record as it read it. -/
theorem create_buf (b : Build) (env : Env σ) (w : World σ) (buf : Buf) (byteswap : Bool) :
    (zfs_replay_create b env w buf byteswap).buf = createRecord buf byteswap := by
  by_cases hp : (createParentLookup env w (createRecord buf byteswap)).1.status = 0
  · by_cases ht : (createTargetProbe env w (createRecord buf byteswap)).1.status = ENOENT
    · rw [create_reaches_switch b env w buf byteswap hp ht]
      exact create_switch_buf b env _ _ _ _ _
    · unfold createParentLookup at hp
      unfold createTargetProbe createParentLookup at ht
      simp only [zfs_replay_create, createRecord, createTargetProbe, createParentLookup] at *
      simp [hp, ht, zfs_replay_create_out]
  · unfold createParentLookup at hp
    simp only [zfs_replay_create, createRecord, createParentLookup] at *
    simp [hp]

/-- The exit path of `zfs_replay_create_acl` hands back the record it was
given. -/
theorem create_acl_bail_buf (env : Env σ) (w : World σ) (lr : Buf) (dzp status : Nat)
    (vp : Bool) : (zfs_replay_create_acl_bail env w lr dzp status vp).buf = lr := by
  simp only [zfs_replay_create_acl_bail]
  split
  · rfl
  · split <;> rfl

/-- A case of the switch of `zfs_replay_create_acl` hands back the record it
was given. -/
theorem create_acl_case_buf (b : Build) (env : Env σ) (w : World σ) (lr : Buf)
    (dzp : Nat) (xva : xvattr) (vflg : Nat) (plain mkdir : Bool) :
    (zfs_replay_create_acl_case b env w lr dzp xva vflg plain mkdir).buf = lr := by
  simp only [zfs_replay_create_acl_case]
  split
  · rfl
  · split <;> exact create_acl_bail_buf env _ lr dzp _ _

/-- `zfs_replay_create_acl` hands back the record as it read it. -/
theorem create_acl_buf (b : Build) (env : Env σ) (w : World σ) (buf : Buf)
    (byteswap : Bool) :
    (zfs_replay_create_acl b env w buf byteswap).buf = createAclRecord env buf byteswap := by
  rw [create_acl_eq]
  split_ifs
  · rfl
  · exact create_acl_bail_buf env _ _ _ _ _
  · exact create_acl_case_buf b env _ _ _ _ _ _ _
  · exact create_acl_case_buf b env _ _ _ _ _ _ _
  · exact create_acl_bail_buf env _ _ _ _ _

/-- Two records with the same tail from offset `k` hold the same string at
every offset from `k` on. -/
theorem cstr_of_drop (a b : Buf) (k p : Nat) (h : a.drop k = b.drop k) (hp : k ≤ p) :
    cstr a p = cstr b p := by
  have e : ∀ l : Buf, l.drop p = (l.drop k).drop (p - k) := by
    intro l
    rw [List.drop_drop]
    congr 1
    omega
  simp only [cstr, e a, e b, h]

/-- The conversion of the fixed part changes no byte behind it. -/
theorem fixed_swap_drop (buf : Buf) (size k : Nat) (h : size ≤ k) :
    (byteswap_uint64_array buf 0 size).drop k = buf.drop k :=
  drop_eq_of_getD _ _ k (byteswap_array_length 8 buf 0 size)
    (fun i hi => byteswap_array_outside 8 buf 0 size i (Or.inr (by omega)))

/-- C18, as stated, fails for the handler of ACL records: the record
`recAclFuid` has no attribute block and one identity value behind its fixed
part of 80 bytes (its entry array is empty); `zfs_replay_acl`, called with the
swap flag, returns success and has reversed the eight bytes at offset 80,
which are neither in the fixed part nor in an attribute block. -/
theorem normalization_converts_identity_list :
    sizeof_lr_acl_t = 80 ∧
      recAclFuid.drop 80 = [1, 2, 3, 4, 5, 6, 7, 8] ∧
      (zfs_replay_acl listStore (listWorld [42]) recAclFuid true).error = some 0 ∧
      (zfs_replay_acl listStore (listWorld [42]) recAclFuid true).buf.drop 80
        = [8, 7, 6, 5, 4, 3, 2, 1] := by
  set_option maxRecDepth 100000 in decide

/-- C18, amended: normalization leaves opaque data alone.  For every build,
object store, replay context and record, with the swap flag set: the handlers
of remove, link, rename, write and truncate records change no byte behind the
fixed part (so the names, the rename target name and the write payload are
unchanged); the handlers of create and setattr records change no byte behind
the fixed part and, where an attribute block is present, behind the first
`8 + 4 * (m - 1) + 24` bytes of the block (so the scan-stamp blob, the domain
strings, the name and the symlink target are unchanged).  The handlers of
create-with-ACL and ACL records convert in addition the entry array and the
identity values that follow; when the conversion of the entry array stays
inside it, they change no byte behind the identity values (the domain strings
and the name) and, in a create-with-ACL record, no byte between the head of
the attribute block and the entry array (the scan-stamp blob). -/
theorem normalization_leaves_opaque_data (b : Build) (env : Env σ) (w : World σ)
    (buf : Buf) :
    (zfs_replay_remove env w buf true).buf.drop sizeof_lr_remove_t
        = buf.drop sizeof_lr_remove_t ∧
      (zfs_replay_link env w buf true).buf.drop sizeof_lr_link_t
        = buf.drop sizeof_lr_link_t ∧
      ((zfs_replay_rename env w buf true).buf.drop sizeof_lr_rename_t
          = buf.drop sizeof_lr_rename_t ∧
        cstr (zfs_replay_rename env w buf true).buf sizeof_lr_rename_t
          = cstr buf sizeof_lr_rename_t ∧
        cstr (zfs_replay_rename env w buf true).buf
            (sizeof_lr_rename_t + strlen buf sizeof_lr_rename_t + 1)
          = cstr buf (sizeof_lr_rename_t + strlen buf sizeof_lr_rename_t + 1)) ∧
      (zfs_replay_write b env w buf true).buf.drop sizeof_lr_write_t
        = buf.drop sizeof_lr_write_t ∧
      (zfs_replay_truncate env w buf true).buf.drop sizeof_lr_truncate_t
        = buf.drop sizeof_lr_truncate_t ∧
      (zfs_replay_create b env w buf true).buf.drop
          (createSwapEnd (zfs_replay_create b env w buf true).buf)
        = buf.drop (createSwapEnd (zfs_replay_create b env w buf true).buf) ∧
      (zfs_replay_setattr b env w buf true).buf.drop
          (setattrSwapEnd w.z_version (zfs_replay_setattr b env w buf true).buf)
        = buf.drop (setattrSwapEnd w.z_version (zfs_replay_setattr b env w buf true).buf) ∧
      (AceSwapConfined env →
        (zfs_replay_create_acl b env w buf true).buf.drop
            (createAclSwapEnd (zfs_replay_create_acl b env w buf true).buf)
          = buf.drop (createAclSwapEnd (zfs_replay_create_acl b env w buf true).buf) ∧
        (∀ i, createAclHeadEnd (zfs_replay_create_acl b env w buf true).buf ≤ i →
          i < createAclStart (zfs_replay_create_acl b env w buf true).buf →
          (zfs_replay_create_acl b env w buf true).buf.getD i 0 = buf.getD i 0) ∧
        (zfs_replay_acl env w buf true).buf.drop
            (aclSwapEnd (zfs_replay_acl env w buf true).buf)
          = buf.drop (aclSwapEnd (zfs_replay_acl env w buf true).buf)) := by
  have hp := plain_handlers_buf b env w buf true
  have hren : (zfs_replay_rename env w buf true).buf.drop sizeof_lr_rename_t
      = buf.drop sizeof_lr_rename_t := by
    rw [hp.2.2.1]
    exact fixed_swap_drop buf _ _ (Nat.le_refl _)
  refine ⟨?_, ?_, ⟨hren, ?_, ?_⟩, ?_, ?_, ?_, ?_, ?_⟩
  · rw [hp.1]
    exact fixed_swap_drop buf _ _ (Nat.le_refl _)
  · rw [hp.2.1]
    exact fixed_swap_drop buf _ _ (Nat.le_refl _)
  · exact cstr_of_drop _ _ _ _ hren (Nat.le_refl _)
  · exact cstr_of_drop _ _ _ _ hren (by omega)
  · rw [hp.2.2.2.1]
    exact fixed_swap_drop buf _ _ (Nat.le_refl _)
  · rw [hp.2.2.2.2.1]
    exact fixed_swap_drop buf _ _ (Nat.le_refl _)
  · rw [create_buf]
    exact drop_eq_of_getD _ _ _ (create_swap_outside buf _ (Nat.le_refl _)).2
      (fun i hi => (create_swap_outside buf i hi).1)
  · rw [setattr_buf]
    exact drop_eq_of_getD _ _ _ (setattr_swap_outside w.z_version buf _ (Nat.le_refl _)).2
      (fun i hi => (setattr_swap_outside w.z_version buf i hi).1)
  · intro hconf
    have hge : createAclHeadEnd (createAclRecord env buf true)
        ≤ createAclSwapEnd (createAclRecord env buf true) := by
      simp only [createAclHeadEnd, createAclSwapEnd, createAclStart, attrSwapEnd,
        ZIL_XVAT_SIZE, sizeof_lr_attr_t]
      split <;> omega
    refine ⟨?_, ?_, ?_⟩
    · rw [create_acl_buf]
      exact drop_eq_of_getD _ _ _
        (create_acl_swap_outside env hconf buf _ hge (Or.inr (Nat.le_refl _))).2
        (fun i hi => (create_acl_swap_outside env hconf buf i (by omega) (Or.inr hi)).1)
    · rw [create_acl_buf]
      intro i h1 h2
      exact (create_acl_swap_outside env hconf buf i h1 (Or.inl h2)).1
    · rw [hp.2.2.2.2.2]
      exact drop_eq_of_getD _ _ _ (acl_swap_outside env hconf buf _ (Nat.le_refl _)).2
        (fun i hi => (acl_swap_outside env hconf buf i hi).1)

/-- Concrete instances of `normalization_leaves_opaque_data`: in the create
record with attributes `recCreateAttrForeign` the converted part ends at
offset 144, and the scan-stamp and the name `"a"` behind it are unchanged; in
the ACL record `recAclFuid`, whose store converts no entries, nothing lies
behind the identity value. -/
theorem normalization_leaves_opaque_data_witness :
    AceSwapConfined listStore ∧
      createSwapEnd
          (zfs_replay_create portBuild listStore (listWorld [7]) recCreateAttrForeign true).buf
        = 144 ∧
      (zfs_replay_create portBuild listStore (listWorld [7]) recCreateAttrForeign true).buf.drop
          (createSwapEnd
            (zfs_replay_create portBuild listStore (listWorld [7])
              recCreateAttrForeign true).buf)
        = recCreateAttrForeign.drop
            (createSwapEnd
              (zfs_replay_create portBuild listStore (listWorld [7])
                recCreateAttrForeign true).buf) ∧
      recCreateAttrForeign.drop 144 = List.replicate 32 7 ++ [97, 0] ∧
      (zfs_replay_acl listStore (listWorld [42]) recAclFuid true).buf.drop
          (aclSwapEnd (zfs_replay_acl listStore (listWorld [42]) recAclFuid true).buf)
        = recAclFuid.drop
            (aclSwapEnd (zfs_replay_acl listStore (listWorld [42]) recAclFuid true).buf) :=
  ⟨fun _ _ _ => ⟨rfl, fun _ _ => rfl⟩,
    by set_option maxRecDepth 100000 in decide,
    (normalization_leaves_opaque_data portBuild listStore (listWorld [7])
      recCreateAttrForeign).2.2.2.2.2.1,
    by set_option maxRecDepth 100000 in decide,
    ((normalization_leaves_opaque_data portBuild listStore (listWorld [42])
      recAclFuid).2.2.2.2.2.2.2 (fun _ _ _ => ⟨rfl, fun _ _ => rfl⟩)).2.2⟩

/-- With the assertions compiled out, the descriptor of a setattr record is
always built. -/
theorem setattr_xva_returns (b : Build) (env : Env σ) (lr : Buf) (hd : b.DEBUG = false) :
    zfs_replay_setattr_xva b env lr ≠ none := by
  simp only [zfs_replay_setattr_xva, zfs_replay_xvattr, hd, Bool.false_and]
  split
  · split
    · split <;> simp
    · simp
  · simp

/-- C19: error pass-through.  For every remove, rmdir, link, rename, write,
truncate and setattr record whose lookups all succeed, with either swap flag:
the handler runs exactly one primitive and returns the status of that
primitive, unmodified (for setattr: whenever the handler returns, which it
does in every build without assertions).  For write, truncate and setattr a
target lookup that fails with the status `e` runs no primitive and returns
`e`, except that `ENOENT` is returned as success. -/
theorem error_pass_through (b : Build) (env : Env σ) (w : World σ) (buf : Buf)
    (byteswap : Bool) :
    (lookupStatus env w (removeRecord buf byteswap)
        (lr_remove_t.lr_doid (removeRecord buf byteswap)) = 0 →
      int_cast (lrc_txtype (removeRecord buf byteswap)) = TX_REMOVE ∨
        int_cast (lrc_txtype (removeRecord buf byteswap)) = TX_RMDIR →
      PassedThrough w (zfs_replay_remove env w buf byteswap)) ∧
    (lookupStatus env w (linkRecord buf byteswap)
        (lr_link_t.lr_doid (linkRecord buf byteswap)) = 0 →
      lookupStatus env
        (afterLookup env w (linkRecord buf byteswap)
          (lr_link_t.lr_doid (linkRecord buf byteswap)))
        (linkRecord buf byteswap) (lr_link_t.lr_link_obj (linkRecord buf byteswap)) = 0 →
      PassedThrough w (zfs_replay_link env w buf byteswap)) ∧
    (lookupStatus env w (renameRecord buf byteswap)
        (lr_rename_t.lr_sdoid (renameRecord buf byteswap)) = 0 →
      lookupStatus env
        (afterLookup env w (renameRecord buf byteswap)
          (lr_rename_t.lr_sdoid (renameRecord buf byteswap)))
        (renameRecord buf byteswap) (lr_rename_t.lr_tdoid (renameRecord buf byteswap)) = 0 →
      PassedThrough w (zfs_replay_rename env w buf byteswap)) ∧
    (lookupStatus env w (writeRecord buf byteswap)
        (lr_write_t.lr_foid (writeRecord buf byteswap)) = 0 →
      PassedThrough w (zfs_replay_write b env w buf byteswap)) ∧
    (lookupStatus env w (truncateRecord buf byteswap)
        (lr_truncate_t.lr_foid (truncateRecord buf byteswap)) = 0 →
      PassedThrough w (zfs_replay_truncate env w buf byteswap)) ∧
    (lookupStatus env w (setattrRecord w.z_version buf byteswap)
        (lr_setattr_t.lr_foid (setattrRecord w.z_version buf byteswap)) = 0 →
      (b.DEBUG = false → (zfs_replay_setattr b env w buf byteswap).error ≠ none) ∧
      ((zfs_replay_setattr b env w buf byteswap).error ≠ none →
        PassedThrough w (zfs_replay_setattr b env w buf byteswap))) ∧
    (lookupStatus env w (writeRecord buf byteswap)
        (lr_write_t.lr_foid (writeRecord buf byteswap)) ≠ 0 →
      LookupFailed w (zfs_replay_write b env w buf byteswap)
        (lookupStatus env w (writeRecord buf byteswap)
          (lr_write_t.lr_foid (writeRecord buf byteswap)))) ∧
    (lookupStatus env w (truncateRecord buf byteswap)
        (lr_truncate_t.lr_foid (truncateRecord buf byteswap)) ≠ 0 →
      LookupFailed w (zfs_replay_truncate env w buf byteswap)
        (lookupStatus env w (truncateRecord buf byteswap)
          (lr_truncate_t.lr_foid (truncateRecord buf byteswap)))) ∧
    (lookupStatus env w (setattrRecord w.z_version buf byteswap)
        (lr_setattr_t.lr_foid (setattrRecord w.z_version buf byteswap)) ≠ 0 →
      LookupFailed w (zfs_replay_setattr b env w buf byteswap)
        (lookupStatus env w (setattrRecord w.z_version buf byteswap)
          (lr_setattr_t.lr_foid (setattrRecord w.z_version buf byteswap)))) := by
  refine ⟨?_, ?_, ?_, ?_, ?_, ?_, ?_, ?_, ?_⟩
  · intro h0 ht
    simp only [lookupStatus, call, removeRecord] at h0 ht
    rcases ht with ht | ht <;>
      simp [PassedThrough, primitiveStatuses, newLog, newCalls, newReplies,
        zfs_replay_remove, h0, ht, call, Call.isPrimitive, TX_REMOVE, TX_RMDIR,
        List.filter_cons]
  · intro h0 h
    simp only [lookupStatus, afterLookup, call, linkRecord] at h0 h
    simp [PassedThrough, primitiveStatuses, newLog, newCalls, newReplies, zfs_replay_link,
      h0, h, call, Call.isPrimitive, List.filter_cons]
  · intro h0 h
    simp only [lookupStatus, afterLookup, call, renameRecord] at h0 h
    simp [PassedThrough, primitiveStatuses, newLog, newCalls, newReplies, zfs_replay_rename,
      h0, h, call, Call.isPrimitive, List.filter_cons]
  · intro h0
    simp only [lookupStatus, call, writeRecord] at h0
    cases hl : b.LINUX_PORT <;>
      simp [PassedThrough, primitiveStatuses, newLog, newCalls, newReplies, zfs_replay_write,
        h0, hl, call, Call.isPrimitive, List.filter_cons]
  · intro h0
    simp only [lookupStatus, call, truncateRecord] at h0
    simp [PassedThrough, primitiveStatuses, newLog, newCalls, newReplies, zfs_replay_truncate,
      h0, call, Call.isPrimitive, List.filter_cons]
  · intro h0
    rw [setattr_eq, if_neg (not_not.mpr h0)]
    constructor
    · intro hd
      cases hx : zfs_replay_setattr_xva b env (setattrRecord w.z_version buf byteswap) with
      | none => exact absurd hx (setattr_xva_returns b env _ hd)
      | some v => simp [zfs_replay_setattr_apply]
    · intro hr
      cases hx : zfs_replay_setattr_xva b env (setattrRecord w.z_version buf byteswap) with
      | none => rw [hx] at hr; exact absurd rfl hr
      | some v =>
        simp [PassedThrough, primitiveStatuses, newLog, newCalls, newReplies,
          zfs_replay_setattr_apply, afterLookup, call, note, Call.isPrimitive,
          List.filter_cons]
  · intro h0
    simp only [lookupStatus, call, writeRecord] at h0 ⊢
    simp [LookupFailed, primitiveStatuses, newLog, newCalls, newReplies, zfs_replay_write,
      h0, call, Call.isPrimitive, List.filter_cons]
  · intro h0
    simp only [lookupStatus, call, truncateRecord] at h0 ⊢
    simp [LookupFailed, primitiveStatuses, newLog, newCalls, newReplies, zfs_replay_truncate,
      h0, call, Call.isPrimitive, List.filter_cons]
  · intro h0
    rw [setattr_eq, if_pos h0]
    simp [LookupFailed, primitiveStatuses, newLog, newCalls, newReplies, afterLookup, call,
      Call.isPrimitive, List.filter_cons]

/-- Concrete instances of `error_pass_through`: on a full pool the write of
`recWrite` returns the status 28 of `VOP_WRITE`; a truncate whose lookup fails
with the status 5 returns 5. -/
theorem error_pass_through_witness :
    PassedThrough (listWorld [])
        (zfs_replay_write portBuild fullStore (listWorld []) recWrite false) ∧
      (zfs_replay_write portBuild fullStore (listWorld []) recWrite false).error = some 28 ∧
      LookupFailed (listWorld [])
        (zfs_replay_truncate brokenStore (listWorld []) recTruncate false)
        (lookupStatus brokenStore (listWorld []) (truncateRecord recTruncate false)
          (lr_truncate_t.lr_foid (truncateRecord recTruncate false))) ∧
      (zfs_replay_truncate brokenStore (listWorld []) recTruncate false).error = some 5 :=
  ⟨(error_pass_through portBuild fullStore (listWorld []) recWrite false).2.2.2.1
      (by set_option maxRecDepth 100000 in decide),
    by set_option maxRecDepth 100000 in decide,
    (error_pass_through portBuild brokenStore (listWorld []) recTruncate false).2.2.2.2.2.2.2.1
      (by decide),
    by decide⟩

/-- C20: the reserved code 0.  Element 0 of the dispatch vector is
`zfs_replay_error`; called through the vector with any build, object store,
replay context, record and swap flag it returns `ENOTSUP`, makes no call into
the object store, and hands back the record and the context as they were; the
result does not depend on the record (`buf'` is any other record). -/
theorem reserved_code_zero (b : Build) (env : Env σ) (w : World σ) (buf buf' : Buf)
    (byteswap : Bool) :
    zfs_replay_vector 0 = some .zfs_replay_error ∧
      zfs_replay_vector_call b env 0 w buf byteswap = zfs_replay_error w buf byteswap ∧
      (zfs_replay_error w buf byteswap).error = some ENOTSUP ∧
      newCalls w (zfs_replay_error w buf byteswap) = [] ∧
      (zfs_replay_error w buf byteswap).buf = buf ∧
      (zfs_replay_error w buf byteswap).world = w ∧
      (zfs_replay_error w buf' byteswap).error = (zfs_replay_error w buf byteswap).error ∧
      (zfs_replay_error w buf' byteswap).world = (zfs_replay_error w buf byteswap).world := by
  refine ⟨rfl, rfl, rfl, ?_, rfl, rfl, rfl, rfl⟩
  simp [newCalls, zfs_replay_error]

/-- The swap path of `zfs_replay_create_acl` in two steps: the conversion up
to the entry array, then the conversion of the identity values at
`createAclSwapFuidStart`. -/
theorem create_acl_swap_eq (env : Env σ) (buf : Buf) :
    zfs_replay_create_acl_swap env buf =
      (if lr_acl_create_t.lr_fuidcnt (zfs_replay_create_acl_swap_aces env buf).1 ≠ 0 then
          byteswap_uint64_array (zfs_replay_create_acl_swap_aces env buf).1
            (createAclSwapFuidStart env buf)
            (lr_acl_create_t.lr_fuidcnt (zfs_replay_create_acl_swap_aces env buf).1 * 8
              % 18446744073709551616)
        else (zfs_replay_create_acl_swap_aces env buf).1,
        (zfs_replay_create_acl_swap_aces env buf).2) :=
  rfl

/-- The offsets of the swap path of `zfs_replay_create_acl` in terms of the
record the decode path reads, when the conversion of the entry array stays
inside it. -/
theorem create_acl_swap_offsets (env : Env σ) (hconf : AceSwapConfined env) (buf : Buf) :
    (zfs_replay_create_acl_swap env buf).2 = createAclStart (createAclRecord env buf true) ∧
      createAclSwapFuidStart env buf
        = createAclStart (createAclRecord env buf true)
          + ZIL_ACE_LENGTH (lr_acl_create_t.lr_acl_bytes (createAclRecord env buf true)) := by
  have hs : sizeof_lr_acl_create_t = 144 := rfl
  by_cases hc : int_cast (lrc_txtype (byteswap_uint64_array buf 0 sizeof_lr_acl_create_t))
        = TX_CREATE_ACL_ATTR ∨
      int_cast (lrc_txtype (byteswap_uint64_array buf 0 sizeof_lr_acl_create_t))
        = TX_MKDIR_ACL_ATTR
  · have hrec := create_acl_record_eq env buf
    rw [if_pos hc] at hrec
    have h2 : zfs_replay_create_acl_swap_aces env buf
        = (env.zfs_ace_byteswap
            (zfs_replay_swap_attrs (byteswap_uint64_array buf 0 sizeof_lr_acl_create_t)
              sizeof_lr_acl_create_t)
            (sizeof_lr_acl_create_t + ZIL_XVAT_SIZE
              (rd32 (zfs_replay_swap_attrs (byteswap_uint64_array buf 0 sizeof_lr_acl_create_t)
                sizeof_lr_acl_create_t) sizeof_lr_acl_create_t))
            (lr_acl_create_t.lr_acl_bytes
              (zfs_replay_swap_attrs (byteswap_uint64_array buf 0 sizeof_lr_acl_create_t)
                sizeof_lr_acl_create_t)),
          sizeof_lr_acl_create_t + ZIL_XVAT_SIZE
            (rd32 (zfs_replay_swap_attrs (byteswap_uint64_array buf 0 sizeof_lr_acl_create_t)
              sizeof_lr_acl_create_t) sizeof_lr_acl_create_t)) := by
      simp only [zfs_replay_create_acl_swap_aces]
      rw [if_pos hc]
    generalize hb2 : zfs_replay_swap_attrs (byteswap_uint64_array buf 0 sizeof_lr_acl_create_t)
      sizeof_lr_acl_create_t = b2 at hrec h2
    have hx : ZIL_XVAT_SIZE (rd32 b2 sizeof_lr_acl_create_t)
        = 8 + 4 * u32_pred (rd32 b2 sizeof_lr_acl_create_t) + 56 := rfl
    have T := create_acl_swap_acl_outside env hconf b2
      (sizeof_lr_acl_create_t + ZIL_XVAT_SIZE (rd32 b2 sizeof_lr_acl_create_t)) (by omega)
    rw [← hrec] at T
    have hf : ∀ p, p + 8 ≤ 144 → rd64 (createAclRecord env buf true) p = rd64 b2 p :=
      fun p hp => rd64_of_getD _ _ p (fun j _ hj => T.2.1 j (by omega))
    have hm : rd32 (createAclRecord env buf true) sizeof_lr_acl_create_t
        = rd32 b2 sizeof_lr_acl_create_t :=
      rd32_of_getD _ _ _ (fun j _ hj => T.2.1 j (by omega))
    have ht : lrc_txtype (createAclRecord env buf true)
        = lrc_txtype (byteswap_uint64_array buf 0 sizeof_lr_acl_create_t) := by
      rw [lrc_txtype, hf 0 (by decide), ← hb2]
      exact rd64_of_getD _ _ 0 (fun j _ hj =>
        swap_attrs_outside _ _ j (Or.inl (by omega)))
    have ha : createAclHasAttrs (createAclRecord env buf true) = true := by
      simp only [createAclHasAttrs, ht, decide_eq_true_eq]
      exact hc
    have hb : rd64 (env.zfs_ace_byteswap b2
        (sizeof_lr_acl_create_t + ZIL_XVAT_SIZE (rd32 b2 sizeof_lr_acl_create_t))
        (rd64 b2 128)) 128 = rd64 b2 128 :=
      rd64_of_getD _ _ 128 (fun j _ hj => (hconf _ _ _).2 j (Or.inl (by omega)))
    constructor
    · rw [create_acl_swap_eq, h2]
      simp only [createAclStart, ha, if_true, hm]
    · simp only [createAclSwapFuidStart, h2, createAclStart, ha, if_true, hm,
        lr_acl_create_t.lr_acl_bytes, hf 128 (by decide), hb]
  · have hrec := create_acl_record_eq env buf
    rw [if_neg hc] at hrec
    have h2 : zfs_replay_create_acl_swap_aces env buf
        = (env.zfs_ace_byteswap (byteswap_uint64_array buf 0 sizeof_lr_acl_create_t)
            (sizeof_lr_acl_create_t + 0)
            (lr_acl_create_t.lr_acl_bytes
              (byteswap_uint64_array buf 0 sizeof_lr_acl_create_t)),
          sizeof_lr_acl_create_t + 0) := by
      simp only [zfs_replay_create_acl_swap_aces]
      rw [if_neg hc]
    generalize hb2 : byteswap_uint64_array buf 0 sizeof_lr_acl_create_t = b2 at hrec h2
    have T := create_acl_swap_acl_outside env hconf b2 (sizeof_lr_acl_create_t + 0) (by omega)
    rw [← hrec] at T
    have hf : ∀ p, p + 8 ≤ 144 → rd64 (createAclRecord env buf true) p = rd64 b2 p :=
      fun p hp => rd64_of_getD _ _ p (fun j _ hj => T.2.1 j (by omega))
    have ha : createAclHasAttrs (createAclRecord env buf true) = false := by
      simp only [createAclHasAttrs, lrc_txtype, hf 0 (by decide), decide_eq_false_iff_not]
      rw [← hb2]
      exact hc
    have hb : rd64 (env.zfs_ace_byteswap b2 (sizeof_lr_acl_create_t + 0)
        (rd64 b2 128)) 128 = rd64 b2 128 :=
      rd64_of_getD _ _ 128 (fun j _ hj => (hconf _ _ _).2 j (Or.inl (by omega)))
    constructor
    · rw [create_acl_swap_eq, h2]
      simp only [createAclStart, ha, Bool.false_eq_true, if_false]
    · simp only [createAclSwapFuidStart, h2, createAclStart, ha,
        lr_acl_create_t.lr_acl_bytes, hf 128 (by decide), hb, Bool.false_eq_true, if_false]

/-- The exit path of `zfs_replay_create_acl` with a context in the slot: what
it returns and what it calls. -/
theorem create_acl_bail_spec (env : Env σ) (w : World σ) (lr : Buf) (dzp status : Nat)
    (vp : Bool) (ctx : zfs_fuid_info) (hs : w.z_fuid_replay = some ctx) :
    (zfs_replay_create_acl_bail env w lr dzp status vp).error = some status ∧
      (zfs_replay_create_acl_bail env w lr dzp status vp).world.trace
        = w.trace ++ exitCalls dzp status vp (some ctx) := by
  simp only [zfs_replay_create_acl_bail, exitCalls, freeSlot, call, note]
  by_cases h : status = 0 ∧ vp = true <;> simp [h, hs]

/-- A case of the switch of `zfs_replay_create_acl` entered with an empty
slot, when it returns: the entry array is taken at the end of the fixed part,
or behind the attribute block for a kind with attributes, the identity decode
starts `ZIL_ACE_LENGTH(lr_acl_bytes)` further on, and the name is the cursor
that decode returns. -/
theorem create_acl_case_eq (b : Build) (env : Env σ) (w : World σ) (lr : Buf)
    (dzp : Nat) (xva : xvattr) (vflg : Nat) (plain mkdir : Bool)
    (hs : w.z_fuid_replay = none)
    (hr : (zfs_replay_create_acl_case b env w lr dzp xva vflg plain mkdir).error ≠ none) :
    ∃ xva' vsec,
      vsec.vsa_aclentp = some (sizeof_lr_acl_create_t
        + (if plain = true then 0 else ZIL_XVAT_SIZE (rd32 lr sizeof_lr_acl_create_t))) ∧
      zfs_replay_create_acl_case b env w lr dzp xva vflg plain mkdir =
        zfs_replay_create_acl_bail env
          (call env
            (withContext w (createAclIdentities lr (sizeof_lr_acl_create_t
              + (if plain = true then 0 else ZIL_XVAT_SIZE (rd32 lr sizeof_lr_acl_create_t))
              + ZIL_ACE_LENGTH (lr_acl_create_t.lr_acl_bytes lr))).1) lr
            (createAclPrimitive mkdir dzp
              (some (createAclIdentities lr (sizeof_lr_acl_create_t
                + (if plain = true then 0
                  else ZIL_XVAT_SIZE (rd32 lr sizeof_lr_acl_create_t))
                + ZIL_ACE_LENGTH (lr_acl_create_t.lr_acl_bytes lr))).2)
              xva' vflg vsec)).2
          lr dzp
          (call env
            (withContext w (createAclIdentities lr (sizeof_lr_acl_create_t
              + (if plain = true then 0 else ZIL_XVAT_SIZE (rd32 lr sizeof_lr_acl_create_t))
              + ZIL_ACE_LENGTH (lr_acl_create_t.lr_acl_bytes lr))).1) lr
            (createAclPrimitive mkdir dzp
              (some (createAclIdentities lr (sizeof_lr_acl_create_t
                + (if plain = true then 0
                  else ZIL_XVAT_SIZE (rd32 lr sizeof_lr_acl_create_t))
                + ZIL_ACE_LENGTH (lr_acl_create_t.lr_acl_bytes lr))).2)
              xva' vflg vsec)).1.status
          (call env
            (withContext w (createAclIdentities lr (sizeof_lr_acl_create_t
              + (if plain = true then 0 else ZIL_XVAT_SIZE (rd32 lr sizeof_lr_acl_create_t))
              + ZIL_ACE_LENGTH (lr_acl_create_t.lr_acl_bytes lr))).1) lr
            (createAclPrimitive mkdir dzp
              (some (createAclIdentities lr (sizeof_lr_acl_create_t
                + (if plain = true then 0
                  else ZIL_XVAT_SIZE (rd32 lr sizeof_lr_acl_create_t))
                + ZIL_ACE_LENGTH (lr_acl_create_t.lr_acl_bytes lr))).2)
              xva' vflg vsec)).1.vp := by
  cases plain with
  | true =>
    have hf := holding_acl_fuids w w lr
      (sizeof_lr_acl_create_t + ZIL_ACE_LENGTH (lr_acl_create_t.lr_acl_bytes lr)) []
      (holding_start w)
    refine ⟨xva,
      { vsa_mask := VSA_ACE ||| VSA_ACE_ACLFLAGS
        vsa_aclentp := some (sizeof_lr_acl_create_t + 0)
        vsa_aclcnt := lr_acl_create_t.lr_aclcnt lr % 4294967296
        vsa_aclentsz := lr_acl_create_t.lr_acl_bytes lr % 4294967296
        vsa_aclflags := lr_acl_create_t.lr_acl_flags lr % 4294967296 }, rfl, ?_⟩
    simp only [zfs_replay_create_acl_case, if_true, hf.2.2, if_false, hf.2.1, Nat.add_zero]
    cases mkdir <;> rfl
  | false =>
    simp only [zfs_replay_create_acl_case, Bool.false_eq_true, if_false, if_true] at hr ⊢
    split at hr
    · exact absurd rfl hr
    · rename_i xva' xvatlen hpre
      have hx : xvatlen = ZIL_XVAT_SIZE (rd32 lr sizeof_lr_acl_create_t) := by
        simp only [Option.map_eq_some'] at hpre
        obtain ⟨_, _, he⟩ := hpre
        exact (congrArg Prod.snd he).symm
      subst hx
      refine ⟨xva',
        { vsa_mask := VSA_ACE ||| VSA_ACE_ACLFLAGS
          vsa_aclentp := some (sizeof_lr_acl_create_t
            + ZIL_XVAT_SIZE (rd32 lr sizeof_lr_acl_create_t))
          vsa_aclcnt := lr_acl_create_t.lr_aclcnt lr % 4294967296
          vsa_aclentsz := lr_acl_create_t.lr_acl_bytes lr % 4294967296
          vsa_aclflags := lr_acl_create_t.lr_acl_flags lr % 4294967296 }, rfl, ?_⟩
      simp only [hs, if_true]
      cases mkdir <;> rfl

/-- The calls of a case of the switch of `zfs_replay_create_acl` entered with
an empty slot, when it returns, with the offsets named `aclstart` and
`fuidstart`. -/
theorem create_acl_case_calls (b : Build) (env : Env σ) (w : World σ) (lr : Buf)
    (dzp : Nat) (xva : xvattr) (vflg : Nat) (plain mkdir : Bool) (aclstart fuidstart : Nat)
    (hs : w.z_fuid_replay = none)
    (hr : (zfs_replay_create_acl_case b env w lr dzp xva vflg plain mkdir).error ≠ none)
    (ha : sizeof_lr_acl_create_t
      + (if plain = true then 0 else ZIL_XVAT_SIZE (rd32 lr sizeof_lr_acl_create_t))
        = aclstart)
    (hf : aclstart + ZIL_ACE_LENGTH (lr_acl_create_t.lr_acl_bytes lr) = fuidstart) :
    ∃ xva' vsec s vp,
      vsec.vsa_aclentp = some aclstart ∧
      (zfs_replay_create_acl_case b env w lr dzp xva vflg plain mkdir).world.trace =
        w.trace ++ ([.zfs_fuid_info_alloc,
          createAclPrimitive mkdir dzp (some (createAclIdentities lr fuidstart).2) xva' vflg
            vsec] ++ exitCalls dzp s vp (some (createAclIdentities lr fuidstart).1)) := by
  obtain ⟨xva', vsec, hv, he⟩ := create_acl_case_eq b env w lr dzp xva vflg plain mkdir hs hr
  rw [ha] at hv he
  rw [hf] at he
  have ht : (zfs_replay_create_acl_case b env w lr dzp xva vflg plain mkdir).world.trace =
      w.trace ++ ([.zfs_fuid_info_alloc,
        createAclPrimitive mkdir dzp (some (createAclIdentities lr fuidstart).2) xva' vflg
          vsec] ++ exitCalls dzp
        (call env (withContext w (createAclIdentities lr fuidstart).1) lr
          (createAclPrimitive mkdir dzp (some (createAclIdentities lr fuidstart).2) xva' vflg
            vsec)).1.status
        (call env (withContext w (createAclIdentities lr fuidstart).1) lr
          (createAclPrimitive mkdir dzp (some (createAclIdentities lr fuidstart).2) xva' vflg
            vsec)).1.vp
        (some (createAclIdentities lr fuidstart).1)) := by
    rw [he]
    rw [(create_acl_bail_spec env _ lr dzp _ _ (createAclIdentities lr fuidstart).1 rfl).2]
    simp [call, withContext, note]
  exact ⟨xva', vsec, _, _, hv, ht⟩

/-- C21: the swap path and the decode path of `zfs_replay_create_acl` agree.
For every record of one of the four create-with-ACL kinds, replayed with the
swap flag into a context whose slot is empty, whose parent lookup succeeds and
whose target id is free, when the conversion of the entry array stays inside
it and the handler returns: the swap path converts the entry array at
`aclstart` and the identity values at `createAclSwapFuidStart`; `aclstart` is
the end of the fixed part plus the size of the attribute block if the kind
carries attributes, `createAclSwapFuidStart` is `ZIL_ACE_LENGTH(lr_acl_bytes)`
further on; the one primitive is handed the entry array at `aclstart`
(`vsa_aclentp`) and the name at the cursor that the explicit-list identity
decode started at `createAclSwapFuidStart` returns, and the context released
at the end is the one that decode built. -/
theorem create_acl_offsets_agree (b : Build) (env : Env σ) (w : World σ) (buf : Buf)
    (hconf : AceSwapConfined env) (hs : w.z_fuid_replay = none)
    (hparent : (createParentLookup env w (createAclRecord env buf true)).1.status = 0)
    (htarget : (createTargetProbe env w (createAclRecord env buf true)).1.status = ENOENT)
    (hkind : isCreateAclKind (createAclRecord env buf true) = true)
    (hr : (zfs_replay_create_acl b env w buf true).error ≠ none) :
    zfs_replay_create_acl_swap env buf =
        (if lr_acl_create_t.lr_fuidcnt (zfs_replay_create_acl_swap_aces env buf).1 ≠ 0 then
            byteswap_uint64_array (zfs_replay_create_acl_swap_aces env buf).1
              (createAclSwapFuidStart env buf)
              (lr_acl_create_t.lr_fuidcnt (zfs_replay_create_acl_swap_aces env buf).1 * 8
                % 18446744073709551616)
          else (zfs_replay_create_acl_swap_aces env buf).1,
          (zfs_replay_create_acl_swap_aces env buf).2) ∧
      (zfs_replay_create_acl_swap env buf).2
        = sizeof_lr_acl_create_t
          + (if createAclHasAttrs (createAclRecord env buf true) then
              ZIL_XVAT_SIZE (rd32 (createAclRecord env buf true) sizeof_lr_acl_create_t)
            else 0) ∧
      createAclSwapFuidStart env buf
        = (zfs_replay_create_acl_swap env buf).2
          + ZIL_ACE_LENGTH (lr_acl_create_t.lr_acl_bytes (createAclRecord env buf true)) ∧
      ∃ xva' vsec s vp,
        vsec.vsa_aclentp = some (zfs_replay_create_acl_swap env buf).2 ∧
        newCalls w (zfs_replay_create_acl b env w buf true) =
          [.zfs_zget (lr_create_t.lr_doid (createAclRecord env buf true)),
            .dmu_object_info (lr_create_t.lr_foid (createAclRecord env buf true)),
            .zfs_fuid_info_alloc,
            createAclPrimitive
              (decide (int_cast (lrc_txtype (createAclRecord env buf true)) = TX_MKDIR_ACL ∨
                int_cast (lrc_txtype (createAclRecord env buf true)) = TX_MKDIR_ACL_ATTR))
              (lr_create_t.lr_doid (createAclRecord env buf true))
              (some (createAclIdentities (createAclRecord env buf true)
                (createAclSwapFuidStart env buf)).2)
              xva' (ciFlag (createAclRecord env buf true)) vsec]
            ++ exitCalls (lr_create_t.lr_doid (createAclRecord env buf true)) s vp
              (some (createAclIdentities (createAclRecord env buf true)
                (createAclSwapFuidStart env buf)).1) := by
  obtain ⟨ho1, ho2⟩ := create_acl_swap_offsets env hconf buf
  refine ⟨create_acl_swap_eq env buf, ho1, by rw [ho2, ho1], ?_⟩
  have hs2 : (createTargetProbe env w (createAclRecord env buf true)).2.z_fuid_replay
      = none := by
    simp [createTargetProbe, createParentLookup, call, hs]
  have htr : (createTargetProbe env w (createAclRecord env buf true)).2.trace
      = w.trace ++ [.zfs_zget (lr_create_t.lr_doid (createAclRecord env buf true)),
          .dmu_object_info (lr_create_t.lr_foid (createAclRecord env buf true))] := by
    simp [createTargetProbe, createParentLookup, call]
  rw [create_acl_eq, if_neg (not_not.mpr hparent), if_neg (not_not.mpr htarget)] at hr
  simp only [isCreateAclKind, decide_eq_true_eq] at hkind
  by_cases hk : int_cast (lrc_txtype (createAclRecord env buf true)) = TX_CREATE_ACL ∨
      int_cast (lrc_txtype (createAclRecord env buf true)) = TX_CREATE_ACL_ATTR
  · rw [if_pos hk] at hr
    have hm : decide (int_cast (lrc_txtype (createAclRecord env buf true)) = TX_MKDIR_ACL ∨
        int_cast (lrc_txtype (createAclRecord env buf true)) = TX_MKDIR_ACL_ATTR) = false := by
      rcases hk with h | h <;> simp [h, TX_CREATE_ACL, TX_CREATE_ACL_ATTR, TX_MKDIR_ACL,
        TX_MKDIR_ACL_ATTR]
    have ha : sizeof_lr_acl_create_t
        + (if decide (int_cast (lrc_txtype (createAclRecord env buf true)) = TX_CREATE_ACL)
            = true then 0
          else ZIL_XVAT_SIZE (rd32 (createAclRecord env buf true) sizeof_lr_acl_create_t))
        = (zfs_replay_create_acl_swap env buf).2 := by
      rw [ho1]
      rcases hk with h | h <;> simp [createAclStart, createAclHasAttrs, h, TX_CREATE_ACL,
        TX_CREATE_ACL_ATTR, TX_MKDIR_ACL_ATTR]
    obtain ⟨xva', vsec, s, vp, hv, ht⟩ := create_acl_case_calls b env _ _ _ _ _ _ _
      (zfs_replay_create_acl_swap env buf).2 (createAclSwapFuidStart env buf) hs2 hr ha
      (by rw [ho2, ho1])
    refine ⟨xva', vsec, s, vp, hv, ?_⟩
    rw [create_acl_eq, if_neg (not_not.mpr hparent), if_neg (not_not.mpr htarget), if_pos hk,
      hm]
    simp only [newCalls, ht, htr, List.append_assoc, List.drop_left', List.cons_append,
      List.nil_append, List.drop_left]
  · have hk2 : int_cast (lrc_txtype (createAclRecord env buf true)) = TX_MKDIR_ACL ∨
        int_cast (lrc_txtype (createAclRecord env buf true)) = TX_MKDIR_ACL_ATTR := by
      rcases hkind with h | h | h | h
      · exact absurd (Or.inl h) hk
      · exact absurd (Or.inr h) hk
      · exact Or.inl h
      · exact Or.inr h
    rw [if_neg hk, if_pos hk2] at hr
    have hm : decide (int_cast (lrc_txtype (createAclRecord env buf true)) = TX_MKDIR_ACL ∨
        int_cast (lrc_txtype (createAclRecord env buf true)) = TX_MKDIR_ACL_ATTR) = true := by
      simpa using hk2
    have ha : sizeof_lr_acl_create_t
        + (if decide (int_cast (lrc_txtype (createAclRecord env buf true)) = TX_MKDIR_ACL)
            = true then 0
          else ZIL_XVAT_SIZE (rd32 (createAclRecord env buf true) sizeof_lr_acl_create_t))
        = (zfs_replay_create_acl_swap env buf).2 := by
      rw [ho1]
      rcases hk2 with h | h <;> simp [createAclStart, createAclHasAttrs, h, TX_MKDIR_ACL,
        TX_CREATE_ACL_ATTR, TX_MKDIR_ACL_ATTR]
    obtain ⟨xva', vsec, s, vp, hv, ht⟩ := create_acl_case_calls b env _ _ _ _ _ _ _
      (zfs_replay_create_acl_swap env buf).2 (createAclSwapFuidStart env buf) hs2 hr ha
      (by rw [ho2, ho1])
    refine ⟨xva', vsec, s, vp, hv, ?_⟩
    rw [create_acl_eq, if_neg (not_not.mpr hparent), if_neg (not_not.mpr htarget), if_neg hk,
      if_pos hk2, hm]
    simp only [newCalls, ht, htr, List.append_assoc, List.drop_left', List.cons_append,
      List.nil_append, List.drop_left]

/-- A concrete instance of `create_acl_offsets_agree`: in the record
`recCreateAclAttrForeign` the attribute block ends at offset 216, where the
entry array is converted and taken; the identity value is converted and
decoded at offset 224, and the decode returns the cursor 234, where the name
`"a"` stands. -/
theorem create_acl_offsets_agree_witness :
    (zfs_replay_create_acl portBuild listStore (listWorld [7]) recCreateAclAttrForeign
        true).error ≠ none ∧
      (zfs_replay_create_acl_swap listStore recCreateAclAttrForeign).2 = 216 ∧
      createAclSwapFuidStart listStore recCreateAclAttrForeign
        = (zfs_replay_create_acl_swap listStore recCreateAclAttrForeign).2
          + ZIL_ACE_LENGTH (lr_acl_create_t.lr_acl_bytes
              (createAclRecord listStore recCreateAclAttrForeign true)) ∧
      createAclSwapFuidStart listStore recCreateAclAttrForeign = 224 ∧
      (createAclIdentities (createAclRecord listStore recCreateAclAttrForeign true) 224).2
        = 234 ∧
      cstr (createAclRecord listStore recCreateAclAttrForeign true) 234 = [97] :=
  have h := create_acl_offsets_agree portBuild listStore (listWorld [7])
    recCreateAclAttrForeign (fun _ _ _ => ⟨rfl, fun _ _ => rfl⟩) rfl
    (by set_option maxRecDepth 100000 in decide)
    (by set_option maxRecDepth 100000 in decide)
    (by set_option maxRecDepth 100000 in decide)
    (by set_option maxRecDepth 100000 in decide)
  ⟨by set_option maxRecDepth 100000 in decide,
    h.2.1.trans (by set_option maxRecDepth 100000 in decide),
    h.2.2.1,
    by set_option maxRecDepth 100000 in decide,
    by set_option maxRecDepth 100000 in decide,
    by set_option maxRecDepth 100000 in decide⟩

end ZfsReplay
